import Mathlib

/-!
# Azure Sphere workshop: intercore contract and HVAC controller

A shallow embedding of the real-time-core applications of the workshop
(`Lab_04_real_time_enviromon_bm/main.c`, bare metal, and
`Lab_04_real_time_enviromon_rtos/demo_threadx/demo_azure_rtos.c`, Azure RTOS)
together with the message contract they share (`IntercoreContract/intercore_contract.h`).

Conventions of the embedding.

* A C `int` is a Lean `Int`; the controller only compares these values and subtracts one from a
  mode, so no operation of the modelled functions leaves the 32-bit range for the values the
  program can hold.
* An `enum` value is the `Int` the C compiler gives it (`IC_UNKNOWN = 0`, ...): the controller
  stores modes in `int` fields and reads commands from raw bytes, so values outside the
  enumeration can occur.
* Memory that is shared as bytes (the mailbox buffer) is a `List Nat` of byte values.  A block
  occupies five little-endian 32-bit words (`sizeof (INTERCORE_BLOCK) = 20`).
* Globals become fields of an explicit `State`; every function takes the state and returns the
  new one.  Calls into the hardware layer are recorded in the state in call order:
  `gpio_writes` lists the `mtk_os_hal_gpio_set_output (pin, value)` calls, `ledRgb_reads` the
  subscripts with which the `ledRgb` table was read, `enqueued` the frames handed to
  `EnqueueData`.
* The outcome of the library call `DequeueData`, which is not part of the sources, is an input
  of the function that calls it (`Dequeued`).
-/

namespace AzureSphere

/-! ## intercore_contract.h -/

/-- Enumerator `INTERCORE_CMD.IC_UNKNOWN`. -/
abbrev IC_UNKNOWN : Int := 0
/-- Enumerator `INTERCORE_CMD.IC_READ_SENSOR`. -/
abbrev IC_READ_SENSOR : Int := 1
/-- Enumerator `INTERCORE_CMD.IC_TARGET_TEMPERATURE`. -/
abbrev IC_TARGET_TEMPERATURE : Int := 2

/-- Enumerator `HVAC_OPERATING_MODE.HVAC_MODE_UNKNOWN`. -/
abbrev HVAC_MODE_UNKNOWN : Int := 0
/-- Enumerator `HVAC_OPERATING_MODE.HVAC_MODE_HEATING`. -/
abbrev HVAC_MODE_HEATING : Int := 1
/-- Enumerator `HVAC_OPERATING_MODE.HVAC_MODE_GREEN`. -/
abbrev HVAC_MODE_GREEN : Int := 2
/-- Enumerator `HVAC_OPERATING_MODE.HVAC_MODE_COOLING`. -/
abbrev HVAC_MODE_COOLING : Int := 3

/-- The message block `INTERCORE_BLOCK` of `intercore_contract.h`. -/
structure INTERCORE_BLOCK where
  cmd : Int
  temperature : Int
  pressure : Int
  humidity : Int
  operating_mode : Int
deriving DecidableEq, Repr

/-- The controller record `HVAC_MODE`, declared identically in both real-time applications. -/
structure HVAC_MODE where
  last_temperature : Int
  target_temperature : Int
  target_temperature_set : Bool
  previous_led : Int
  current_led : Int
deriving DecidableEq, Repr

/-! ## Bytes -/

/-- The four bytes, least significant first, of a 32-bit two's-complement integer. -/
def int32_bytes (v : Int) : List Nat :=
  let u := (v % 4294967296).toNat
  [u % 256, u / 256 % 256, u / 65536 % 256, u / 16777216 % 256]

/-- The 32-bit two's-complement integer stored in four bytes, least significant first. -/
def int32_of_bytes (b0 b1 b2 b3 : Nat) : Int :=
  let u := b0 % 256 + 256 * (b1 % 256) + 65536 * (b2 % 256) + 16777216 * (b3 % 256)
  if u < 2147483648 then (u : Int) else (u : Int) - 4294967296

/-- The byte at index `i` of a buffer (zero beyond the modelled part). -/
def byte_at (buf : List Nat) (i : Nat) : Nat := buf.getD i 0

/-- The `int` read at byte offset `off` of a buffer. -/
def int32_at (buf : List Nat) (off : Nat) : Int :=
  int32_of_bytes (byte_at buf off) (byte_at buf (off + 1)) (byte_at buf (off + 2))
    (byte_at buf (off + 3))

/-- The value of `sizeof (INTERCORE_BLOCK)`: five 32-bit words. -/
abbrev sizeof_INTERCORE_BLOCK : Nat := 20

/-- The bytes of a block in memory, field after field. -/
def block_bytes (b : INTERCORE_BLOCK) : List Nat :=
  int32_bytes b.cmd ++ int32_bytes b.temperature ++ int32_bytes b.pressure ++
    int32_bytes b.humidity ++ int32_bytes b.operating_mode

/-- The block seen through an `INTERCORE_BLOCK *` that points at byte offset `off` of a
buffer. -/
def block_at (buf : List Nat) (off : Nat) : INTERCORE_BLOCK :=
  { cmd := int32_at buf off
    temperature := int32_at buf (off + 4)
    pressure := int32_at buf (off + 8)
    humidity := int32_at buf (off + 12)
    operating_mode := int32_at buf (off + 16) }

/-- The value of an enumeration object at byte offset `off` of a buffer when the compiler
stores enumerations in one byte (the values of `INTERCORE_CMD` and `HVAC_OPERATING_MODE` fit
one): only the byte at `off` is read.  `block_at` reads the 32-bit word at `off` instead; the
two readings of a field give the same value whenever the three bytes above `off` are zero. -/
def enum8_at (buf : List Nat) (off : Nat) : Int :=
  ((byte_at buf off % 256 : Nat) : Int)

/-- The call `memcpy (dst + off, src, src.length)` on a buffer that is long enough to hold the
copy. -/
def memcpy (dst : List Nat) (off : Nat) (src : List Nat) : List Nat :=
  dst.take off ++ src ++ dst.drop (off + src.length)

/-- What a call of `DequeueData (outbound, inbound, size, dest, &dataSize)` left behind: its
return value, the contents of `dest` and the value of `dataSize`.  After a successful call
(`result = 0`) the first `dataSize` bytes of `dest` are the dequeued frame and the bytes behind
them are what the buffer held before. -/
structure Dequeued where
  result : Int
  dest : List Nat
  dataSize : Nat
deriving DecidableEq, Repr

/-- The level last written to a pin by the recorded `mtk_os_hal_gpio_set_output` calls, if
any. -/
def gpio_output (writes : List (Int × Bool)) (pin : Int) : Option Bool :=
  (writes.reverse.find? (fun w => decide (w.1 = pin))).map (fun w => w.2)

/-- The macro `IN_RANGE (number, low, high)` of the bare-metal `main.c`. -/
def IN_RANGE (number low high : Int) : Bool :=
  decide (low ≤ number) && decide (high ≥ number)

/-! ## Lab_04_real_time_enviromon_bm/main.c -/

namespace BareMetal

/-- The parts of the bare-metal build that are not in `main.c`: the pins named by
`hw/azure_sphere_learning_path.h`, the 20-byte component id `hlAppId` of `intercore.c`, and
what a read of the three-element table `ledRgb` yields for a subscript outside `0..2`
(whatever lies next to the table in memory). -/
structure Board where
  LED_RED : Int
  LED_GREEN : Int
  LED_BLUE : Int
  ledRgb_outside : Int → Int
  hlAppId : List Nat

/-- The table `os_hal_gpio_pin ledRgb[] = {LED_RED, LED_GREEN, LED_BLUE}` read at subscript `i`. -/
def ledRgb (b : Board) (i : Int) : Int :=
  if i = 0 then b.LED_RED
  else if i = 1 then b.LED_GREEN
  else if i = 2 then b.LED_BLUE
  else b.ledRgb_outside i

/-- The global `size_t payloadStart = 20`. -/
abbrev payloadStart : Nat := 20

/-- The globals of `main.c` that the controller reads or writes, and the record of its calls
into the hardware layer. -/
structure State where
  ic_outbound_data : INTERCORE_BLOCK
  hvac_mode : HVAC_MODE
  mbox_local_buf : List Nat
  gpio_writes : List (Int × Bool)
  ledRgb_reads : List Int
  enqueued : List (List Nat)
deriving DecidableEq, Repr

/-- The block behind the pointer `ic_inbound_data = mbox_local_buf + payloadStart`. -/
def ic_inbound_data (s : State) : INTERCORE_BLOCK :=
  block_at s.mbox_local_buf payloadStart

/-- The globals as the C runtime zero-initialises them; `len` is `MBOX_BUFFER_LEN_MAX`. -/
def zero_state (len : Nat) : State :=
  { ic_outbound_data := ⟨0, 0, 0, 0, 0⟩
    hvac_mode := ⟨0, 0, false, 0, 0⟩
    mbox_local_buf := List.replicate len 0
    gpio_writes := []
    ledRgb_reads := []
    enqueued := [] }

/-- The call `mtk_os_hal_gpio_set_output (pin, value)`. -/
def gpio_set_output (s : State) (pin : Int) (value : Bool) : State :=
  { s with gpio_writes := s.gpio_writes ++ [(pin, value)] }

/-- The call `mtk_os_hal_gpio_set_output (ledRgb[i], value)`. -/
def gpio_set_output_ledRgb (b : Board) (s : State) (i : Int) (value : Bool) : State :=
  gpio_set_output { s with ledRgb_reads := s.ledRgb_reads ++ [i] } (ledRgb b i) value

/-- Function `initialize_hardware` of the build without `OEM_AVNET`: the three LED pins are
made outputs (not recorded) and driven high (`OS_HAL_GPIO_DATA_HIGH`), which switches the LEDs
off; the function returns `true`.  The `OEM_AVNET` build performs the same writes first. -/
def initialize_hardware (b : Board) (s : State) : State × Bool :=
  let s := gpio_set_output s b.LED_RED true
  let s := gpio_set_output s b.LED_GREEN true
  let s := gpio_set_output s b.LED_BLUE true
  (s, true)

/-- Function `send_intercore_msg (data, length)`: the component id goes to the start of the
mailbox buffer, the data behind it at `payloadStart`, and the first `payloadStart + length`
bytes of the buffer are handed to `EnqueueData`. -/
def send_intercore_msg (b : Board) (s : State) (data : List Nat) : State :=
  let s := { s with mbox_local_buf := memcpy s.mbox_local_buf 0 b.hlAppId }
  let s := { s with mbox_local_buf := memcpy s.mbox_local_buf payloadStart data }
  let dataSize := payloadStart + data.length
  { s with enqueued := s.enqueued ++ [s.mbox_local_buf.take dataSize] }

/-- Function `set_hvac_operating_mode (temperature)`. -/
def set_hvac_operating_mode (b : Board) (s : State) (temperature : Int) : State :=
  if !s.hvac_mode.target_temperature_set then s
  else
    let s := { s with hvac_mode.current_led :=
      if temperature = s.hvac_mode.target_temperature then HVAC_MODE_GREEN
      else if temperature > s.hvac_mode.target_temperature then HVAC_MODE_COOLING
      else HVAC_MODE_HEATING }
    let s :=
      if s.hvac_mode.previous_led ≠ s.hvac_mode.current_led then
        let s := gpio_set_output_ledRgb b s (s.hvac_mode.previous_led - 1) true
        { s with hvac_mode.previous_led := s.hvac_mode.current_led }
      else s
    let s := { s with ic_outbound_data.operating_mode := s.hvac_mode.current_led }
    gpio_set_output_ledRgb b s (s.hvac_mode.current_led - 1) false

/-- Function `process_inbound_message`; `d` is what the call of `DequeueData` on
`mbox_local_buf` left behind. -/
def process_inbound_message (b : Board) (s : State) (d : Dequeued) : State :=
  let mbox_local_buf_len := d.dataSize
  let result := d.result
  let s := { s with mbox_local_buf := d.dest }
  if result = 0 ∧ mbox_local_buf_len > payloadStart then
    if (ic_inbound_data s).cmd = IC_READ_SENSOR then
      send_intercore_msg b s (block_bytes s.ic_outbound_data)
    else if (ic_inbound_data s).cmd = IC_TARGET_TEMPERATURE then
      if IN_RANGE (ic_inbound_data s).temperature (-20) 80 then
        let s := { s with hvac_mode.target_temperature_set := true }
        let s := { s with hvac_mode.target_temperature := (ic_inbound_data s).temperature }
        set_hvac_operating_mode b s s.hvac_mode.last_temperature
      else s
    else s
  else s

/-- Function `refresh_data` of the build without `OEM_AVNET`; `rand1`, `rand2`, `rand3` are the
results of its three calls of `rand ()`, and `%` is the truncating remainder of C.  The sums
are formed in floating point from integers below 2000 in absolute value and are therefore
exact. -/
def refresh_data (b : Board) (s : State) (rand1 rand2 rand3 : Int) : State :=
  let s := { s with ic_outbound_data.cmd := IC_READ_SENSOR }
  let rand_number := Int.tmod rand1 10
  let s := { s with ic_outbound_data.temperature := 15 + rand_number }
  let rand_number := Int.tmod rand2 100
  let s := { s with ic_outbound_data.pressure := 950 + rand_number }
  let rand_number := Int.tmod rand3 40
  let s := { s with ic_outbound_data.humidity := 40 + rand_number }
  let s := { s with hvac_mode.last_temperature := s.ic_outbound_data.temperature }
  set_hvac_operating_mode b s s.ic_outbound_data.temperature

/-- Function `refresh_data` of the `OEM_AVNET` build; `temperature` and `pressure` are the
rounded sensor readings as stored in the `int` fields and `rand1` is the result of the call of
`rand ()`. -/
def refresh_data_avnet (b : Board) (s : State) (temperature pressure rand1 : Int) : State :=
  let s := { s with ic_outbound_data.cmd := IC_READ_SENSOR }
  let s := { s with ic_outbound_data.temperature := temperature }
  let s := { s with ic_outbound_data.pressure := pressure }
  let rand_number := Int.tmod rand1 20
  let s := { s with ic_outbound_data.humidity := 40 + rand_number }
  let s := { s with hvac_mode.last_temperature := s.ic_outbound_data.temperature }
  set_hvac_operating_mode b s s.ic_outbound_data.temperature

end BareMetal

/-! ## Lab_04_real_time_enviromon_rtos/demo_threadx/demo_azure_rtos.c -/

namespace Rtos

/-- The parts of the Azure RTOS build that are not in `demo_azure_rtos.c`: the pin numbers of
`os_hal_gpio.h` and what a read of the three-element table `ledRgb` yields for a subscript
outside `0..2`. -/
structure Board where
  OS_HAL_GPIO_8 : Int
  OS_HAL_GPIO_9 : Int
  OS_HAL_GPIO_10 : Int
  ledRgb_outside : Int → Int

/-- The table `int ledRgb[] = { OS_HAL_GPIO_8, OS_HAL_GPIO_9, OS_HAL_GPIO_10 }` read at
subscript `i`. -/
def ledRgb (b : Board) (i : Int) : Int :=
  if i = 0 then b.OS_HAL_GPIO_8
  else if i = 1 then b.OS_HAL_GPIO_9
  else if i = 2 then b.OS_HAL_GPIO_10
  else b.ledRgb_outside i

/-- The global `static const size_t payloadStart = 20`. -/
abbrev payloadStart : Nat := 20

/-- The globals of `demo_azure_rtos.c` that the controller reads or writes, and the record of
its calls into the hardware layer. -/
structure State where
  buf : List Nat
  dataSize : Nat
  ic_control_block : INTERCORE_BLOCK
  enviroment_control_block : INTERCORE_BLOCK
  hvac_mode : HVAC_MODE
  gpio_writes : List (Int × Bool)
  ledRgb_reads : List Int
  enqueued : List (List Nat)
deriving DecidableEq, Repr

/-- The globals as the C runtime zero-initialises them (`static uint8_t buf[256]`). -/
def zero_state : State :=
  { buf := List.replicate 256 0
    dataSize := 0
    ic_control_block := ⟨0, 0, 0, 0, 0⟩
    enviroment_control_block := ⟨0, 0, 0, 0, 0⟩
    hvac_mode := ⟨0, 0, false, 0, 0⟩
    gpio_writes := []
    ledRgb_reads := []
    enqueued := [] }

/-- The call `mtk_os_hal_gpio_set_output (ledRgb[i], value)`. -/
def gpio_set_output_ledRgb (b : Board) (s : State) (i : Int) (value : Bool) : State :=
  { s with
    ledRgb_reads := s.ledRgb_reads ++ [i]
    gpio_writes := s.gpio_writes ++ [(ledRgb b i, value)] }

/-- Function `send_intercore_msg`: the environment block is copied behind the preamble that `buf`
already holds and the first `payloadStart + sizeof (enviroment_control_block)` bytes are
handed to `EnqueueData`. -/
def send_intercore_msg (s : State) : State :=
  let s := { s with buf := memcpy s.buf payloadStart (block_bytes s.enviroment_control_block) }
  let s := { s with dataSize := payloadStart + sizeof_INTERCORE_BLOCK }
  { s with enqueued := s.enqueued ++ [s.buf.take s.dataSize] }

/-- Function `set_hvac_operating_mode (temperature)`. -/
def set_hvac_operating_mode (b : Board) (s : State) (temperature : Int) : State :=
  if !s.hvac_mode.target_temperature_set then s
  else
    let s := { s with hvac_mode.current_led :=
      if temperature = s.hvac_mode.target_temperature then HVAC_MODE_GREEN
      else if temperature > s.hvac_mode.target_temperature then HVAC_MODE_COOLING
      else HVAC_MODE_HEATING }
    let s :=
      if s.hvac_mode.previous_led ≠ s.hvac_mode.current_led then
        let s := gpio_set_output_ledRgb b s (s.hvac_mode.previous_led - 1) true
        { s with hvac_mode.previous_led := s.hvac_mode.current_led }
      else s
    let s := { s with enviroment_control_block.operating_mode := s.hvac_mode.current_led }
    gpio_set_output_ledRgb b s (s.hvac_mode.current_led - 1) false

/-- One pass through the body of the inner `while (queuedMessages)` loop of
`intercore_thread`; `d` is what the call of `DequeueData` on `buf` left behind.  The second
component is the value of `queuedMessages` after the pass. -/
def intercore_thread_body (b : Board) (s : State) (d : Dequeued) : State × Bool :=
  let s := { s with buf := d.dest, dataSize := d.dataSize }
  let r := d.result
  if r = 0 ∧ s.dataSize > payloadStart then
    let s := { s with ic_control_block := block_at s.buf payloadStart }
    if s.ic_control_block.cmd = IC_READ_SENSOR then
      (send_intercore_msg s, true)
    else if s.ic_control_block.cmd = IC_TARGET_TEMPERATURE then
      let s := { s with hvac_mode.target_temperature_set := true }
      let s := { s with hvac_mode.target_temperature := s.ic_control_block.temperature }
      (set_hvac_operating_mode b s s.hvac_mode.last_temperature, true)
    else (s, true)
  else (s, false)

end Rtos

/-! ## The high-level applications: Lab_01, Lab_03 and Lab_07

The handlers of the three `main.c` files act on the globals declared in `main.h`
(`Lab_02_data_validation/main.h` is the copy among the sources).  Calls into the DevX library
are recorded in `events` in call order; what the library and the operating system answer
(timer event consumed, connection state, success of the JSON serialisation, the clock) is an
input of the handler.  Debug logging is not recorded, and of a published message only the
message id and the sensor values are. -/

namespace HighLevel

/-- The record `SENSOR` of `main.h`. -/
structure SENSOR where
  temperature : Int
  pressure : Int
  humidity : Int
deriving DecidableEq, Repr

/-- The record `ENVIRONMENT` of `main.h`. -/
structure ENVIRONMENT where
  latest : SENSOR
  previous : SENSOR
  updated : Bool
  latest_operating_mode : Int
  previous_operating_mode : Int
deriving DecidableEq, Repr

/-- The device twin bindings of `main.h` that the handlers report to. -/
inductive Twin where
  | dt_env_temperature
  | dt_env_pressure
  | dt_env_humidity
  | dt_hvac_operating_mode
  | dt_hvac_target_temperature
deriving DecidableEq, Repr

/-- The exit codes the handlers pass to `dx_terminate`. -/
inductive ExitCode where
  | DX_ExitCode_ConsumeEventLoopTimeEvent
  | APP_ExitCode_Telemetry_Buffer_Too_Small
deriving DecidableEq, Repr

/-- The acknowledgement codes of a desired device twin value. -/
inductive DX_DEVICE_TWIN_RESPONSE where
  | DX_DEVICE_TWIN_RESPONSE_COMPLETED
  | DX_DEVICE_TWIN_RESPONSE_ERROR
deriving DecidableEq, Repr

/-- The calls into the DevX library that the handlers make.  A string value of `none` stands
for a pointer read outside the table `hvac_state`. -/
inductive Event where
  | publish_telemetry (msgId temperature pressure humidity : Int)
  | publish_sensor_error (temperature pressure humidity : Int)
  | twin_report_int (twin : Twin) (value : Int)
  | twin_report_string (twin : Twin) (value : Option String)
  | twin_ack (propertyValue : Int) (response : DX_DEVICE_TWIN_RESPONSE)
  | intercore_publish (block : INTERCORE_BLOCK)
  | terminate (code : ExitCode)
deriving DecidableEq, Repr

/-- The globals of the high-level applications (`env`, `target_temperature`,
`intercore_block`), the function-local statics `msgId` and `previous_milliseconds`, and the
record of library calls. -/
structure State where
  env : ENVIRONMENT
  target_temperature : Int
  intercore_block : INTERCORE_BLOCK
  msgId : Int
  previous_milliseconds : Int
  events : List Event
deriving DecidableEq, Repr

/-- The globals as the C runtime zero-initialises them. -/
def zero_state : State :=
  { env := ⟨⟨0, 0, 0⟩, ⟨0, 0, 0⟩, false, 0, 0⟩
    target_temperature := 0
    intercore_block := ⟨0, 0, 0, 0, 0⟩
    msgId := 0
    previous_milliseconds := 0
    events := [] }

/-- Modelled from the spec: the macro `IN_RANGE (number, low, high)` that the high-level
applications take from `dx_utilities.h`, which is not among the sources.  It is the
closed-interval test of the validity ranges, the text of the macro of the bare-metal
`main.c`: `(low <= number && high >= number)`. -/
def IN_RANGE (number low high : Int) : Bool :=
  decide (low ≤ number) && decide (high ≥ number)

/-- The table `hvac_state` of `main.h`. -/
def hvac_state : List String :=
  ["Unknown", "Heating", "Green", "Cooling", "On", "Off"]

/-- The entry `hvac_state[i]`; `none` when `i` lies outside the table. -/
def hvac_state_at (i : Int) : Option String :=
  if 0 ≤ i then hvac_state.get? i.toNat else none

/-- The assignment at the end of `InitPeripheralsAndHandlers` (Lab_03 and Lab_07): the previous
sensor values start at `INT32_MAX`. -/
def InitPeripheralsAndHandlers (s : State) : State :=
  { s with env.previous := ⟨2147483647, 2147483647, 2147483647⟩ }

end HighLevel

/-! ### Lab_07_hvac_solution/main.c -/

namespace Lab07

open HighLevel

/-- Function `report_faulty_sensor (env)`; `serialized` is the result of `dx_jsonSerialize`. -/
def report_faulty_sensor (s : State) (serialized : Bool) : State :=
  if serialized then
    { s with events := s.events ++
      [.publish_sensor_error s.env.latest.temperature s.env.latest.pressure
        s.env.latest.humidity] }
  else s

/-- Function `update_device_twins (env)`; `now` is the result of `dx_getNowMilliseconds`. -/
def update_device_twins (s : State) (now : Int) : State :=
  if now - s.previous_milliseconds > 10000 then
    let s : State := { s with previous_milliseconds := now }
    let s : State :=
      if s.env.previous.temperature ≠ s.env.latest.temperature then
        let s : State := { s with env.previous.temperature := s.env.latest.temperature }
        { s with events := s.events ++
          [.twin_report_int .dt_env_temperature s.env.latest.temperature] }
      else s
    let s : State :=
      if s.env.previous.pressure ≠ s.env.latest.pressure then
        let s : State := { s with env.previous.pressure := s.env.latest.pressure }
        { s with events := s.events ++
          [.twin_report_int .dt_env_pressure s.env.latest.pressure] }
      else s
    let s : State :=
      if s.env.previous.humidity ≠ s.env.latest.humidity then
        let s : State := { s with env.previous.humidity := s.env.latest.humidity }
        { s with events := s.events ++
          [.twin_report_int .dt_env_humidity s.env.latest.humidity] }
      else s
    if s.env.latest_operating_mode ≠ HVAC_MODE_UNKNOWN ∧
        s.env.latest_operating_mode ≠ s.env.previous_operating_mode then
      let s : State := { s with env.previous_operating_mode := s.env.latest_operating_mode }
      { s with events := s.events ++
        [.twin_report_string .dt_hvac_operating_mode
          (hvac_state_at s.env.latest_operating_mode)] }
    else s
  else s

/-- Function `publish_telemetry_handler`; `consumed` is the result of
`ConsumeEventLoopTimerEvent`, `connected` that of `dx_isAzureConnected`, `serialized` that of
the call of `dx_jsonSerialize` on the path taken and `now` that of `dx_getNowMilliseconds`. -/
def publish_telemetry_handler (s : State) (consumed : Int) (connected serialized : Bool)
    (now : Int) : State :=
  if consumed ≠ 0 then
    { s with events := s.events ++ [.terminate .DX_ExitCode_ConsumeEventLoopTimeEvent] }
  else if !connected || !s.env.updated then s
  else if !HighLevel.IN_RANGE s.env.latest.temperature (-20) 50 ||
      !HighLevel.IN_RANGE s.env.latest.pressure 800 1200 ||
      !HighLevel.IN_RANGE s.env.latest.humidity 0 100 then
    report_faulty_sensor s serialized
  else
    let id := s.msgId
    let s : State := { s with msgId := s.msgId + 1 }
    if serialized then
      let s : State := { s with events := s.events ++
        [.publish_telemetry id s.env.latest.temperature s.env.latest.pressure
          s.env.latest.humidity] }
      update_device_twins s now
    else
      { s with events := s.events ++ [.terminate .APP_ExitCode_Telemetry_Buffer_Too_Small] }

/-- Function `intercore_environment_receive_msg_handler (data_block, message_length)` with
`ENABLE_FAULTY_SENSOR` 0; `ic_data` is the block behind `data_block`. -/
def intercore_environment_receive_msg_handler (s : State) (ic_data : INTERCORE_BLOCK) : State :=
  if ic_data.cmd = IC_READ_SENSOR then
    let s : State := { s with env.latest.temperature := ic_data.temperature }
    let s : State := { s with env.latest.pressure := ic_data.pressure }
    let s : State := { s with env.latest.humidity := ic_data.humidity }
    let s : State := { s with env.latest_operating_mode := ic_data.operating_mode }
    { s with env.updated := true }
  else s

/-- Function `dt_set_target_temperature_handler (deviceTwinBinding)`; `propertyValue` is the
`int` behind `deviceTwinBinding->propertyValue`. -/
def dt_set_target_temperature_handler (s : State) (propertyValue : Int) : State :=
  let _target_temperature := propertyValue
  if HighLevel.IN_RANGE _target_temperature 0 50 then
    let s : State := { s with target_temperature := _target_temperature }
    let s : State := { s with intercore_block.cmd := IC_TARGET_TEMPERATURE }
    let s : State := { s with intercore_block.temperature := s.target_temperature }
    let s : State := { s with events := s.events ++ [.intercore_publish s.intercore_block] }
    { s with events := s.events ++
      [.twin_ack propertyValue .DX_DEVICE_TWIN_RESPONSE_COMPLETED] }
  else
    { s with events := s.events ++ [.twin_ack propertyValue .DX_DEVICE_TWIN_RESPONSE_ERROR] }

end Lab07

/-! ### Lab_03_remote_operations/main.c -/

namespace Lab03

open HighLevel

/-- Function `report_faulty_sensor (env)`; `serialized` is the result of `dx_jsonSerialize`. -/
def report_faulty_sensor (s : State) (serialized : Bool) : State :=
  if serialized then
    { s with events := s.events ++
      [.publish_sensor_error s.env.latest.temperature s.env.latest.pressure
        s.env.latest.humidity] }
  else s

/-- Function `update_device_twins (env)`; `now` is the result of `dx_getNowMilliseconds`. -/
def update_device_twins (s : State) (now : Int) : State :=
  if now - s.previous_milliseconds > 10000 then
    let s : State := { s with previous_milliseconds := now }
    let s : State :=
      if s.env.previous.temperature ≠ s.env.latest.temperature then
        let s : State := { s with env.previous.temperature := s.env.latest.temperature }
        { s with events := s.events ++
          [.twin_report_int .dt_env_temperature s.env.latest.temperature] }
      else s
    let s : State :=
      if s.env.previous.pressure ≠ s.env.latest.pressure then
        let s : State := { s with env.previous.pressure := s.env.latest.pressure }
        { s with events := s.events ++
          [.twin_report_int .dt_env_pressure s.env.latest.pressure] }
      else s
    let s : State :=
      if s.env.previous.humidity ≠ s.env.latest.humidity then
        let s : State := { s with env.previous.humidity := s.env.latest.humidity }
        { s with events := s.events ++
          [.twin_report_int .dt_env_humidity s.env.latest.humidity] }
      else s
    if s.env.latest_operating_mode ≠ HVAC_MODE_UNKNOWN ∧
        s.env.latest_operating_mode ≠ s.env.previous_operating_mode then
      let s : State := { s with env.previous_operating_mode := s.env.latest_operating_mode }
      { s with events := s.events ++
        [.twin_report_string .dt_hvac_operating_mode
          (hvac_state_at s.env.latest_operating_mode)] }
    else s
  else s

/-- Function `publish_telemetry_handler`; the inputs are those of the Lab_07 handler. -/
def publish_telemetry_handler (s : State) (consumed : Int) (connected serialized : Bool)
    (now : Int) : State :=
  if consumed ≠ 0 then
    { s with events := s.events ++ [.terminate .DX_ExitCode_ConsumeEventLoopTimeEvent] }
  else if !connected || !s.env.updated then s
  else if !HighLevel.IN_RANGE s.env.latest.temperature (-20) 50 ||
      !HighLevel.IN_RANGE s.env.latest.pressure 800 1200 ||
      !HighLevel.IN_RANGE s.env.latest.humidity 0 100 then
    report_faulty_sensor s serialized
  else
    let id := s.msgId
    let s : State := { s with msgId := s.msgId + 1 }
    if serialized then
      let s : State := { s with events := s.events ++
        [.publish_telemetry id s.env.latest.temperature s.env.latest.pressure
          s.env.latest.humidity] }
      update_device_twins s now
    else
      { s with events := s.events ++ [.terminate .APP_ExitCode_Telemetry_Buffer_Too_Small] }

/-- Function `dt_set_target_temperature_handler (deviceTwinBinding)`; `propertyValue` is the
`int` behind `deviceTwinBinding->propertyValue`. -/
def dt_set_target_temperature_handler (s : State) (propertyValue : Int) : State :=
  let _target_temperature := propertyValue
  if HighLevel.IN_RANGE _target_temperature 0 50 then
    let s : State := { s with target_temperature := _target_temperature }
    { s with events := s.events ++
      [.twin_ack propertyValue .DX_DEVICE_TWIN_RESPONSE_COMPLETED] }
  else
    { s with events := s.events ++ [.twin_ack propertyValue .DX_DEVICE_TWIN_RESPONSE_ERROR] }

end Lab03

/-! ### Lab_01_publish_telemetry_avnet/main.c -/

namespace Lab01

open HighLevel

/-- Function `publish_telemetry_handler`; `consumed` is the result of
`ConsumeEventLoopTimerEvent`, `connected` that of `dx_isAzureConnected` and `serialized` that
of `dx_jsonSerialize`. -/
def publish_telemetry_handler (s : State) (consumed : Int) (connected serialized : Bool) :
    State :=
  if consumed ≠ 0 then
    { s with events := s.events ++ [.terminate .DX_ExitCode_ConsumeEventLoopTimeEvent] }
  else if !connected || !s.env.updated then s
  else if !HighLevel.IN_RANGE s.env.latest.temperature (-20) 50 &&
      !HighLevel.IN_RANGE s.env.latest.pressure 800 1200 &&
      !HighLevel.IN_RANGE s.env.latest.humidity 0 100 then
    s
  else
    let id := s.msgId
    let s : State := { s with msgId := s.msgId + 1 }
    if serialized then
      { s with events := s.events ++
        [.publish_telemetry id s.env.latest.temperature s.env.latest.pressure
          s.env.latest.humidity] }
    else
      { s with events := s.events ++ [.terminate .APP_ExitCode_Telemetry_Buffer_Too_Small] }

end Lab01

/-! ## Runs and concrete data -/

/-- The value fits a C `int` of 32 bits. -/
def is_int32 (v : Int) : Prop :=
  -2147483648 ≤ v ∧ v ≤ 2147483647

instance (v : Int) : Decidable (is_int32 v) := by
  unfold is_int32
  infer_instance

/-- Every field of the block fits a C `int`, as it does for every block in memory. -/
def block_is_int32 (b : INTERCORE_BLOCK) : Prop :=
  is_int32 b.cmd ∧ is_int32 b.temperature ∧ is_int32 b.pressure ∧ is_int32 b.humidity ∧
    is_int32 b.operating_mode

instance (b : INTERCORE_BLOCK) : Decidable (block_is_int32 b) := by
  unfold block_is_int32
  infer_instance

/-- The outcome of a successful `DequeueData` that copied `frame` over the start of a buffer
that held `prior`. -/
def delivered (prior frame : List Nat) : Dequeued :=
  { result := 0, dest := memcpy prior 0 frame, dataSize := frame.length }

/-- A frame: the bytes of a routing preamble followed by the bytes of a block. -/
def frame_of (preamble : List Nat) (blk : INTERCORE_BLOCK) : List Nat :=
  preamble ++ block_bytes blk

/-- A 20-byte component id used in the examples. -/
def demo_id : List Nat :=
  [1, 2, 3, 4, 5, 6, 7, 8, 9, 10, 11, 12, 13, 14, 15, 16, 0, 0, 0, 0]

/-- A frame that carries the command `IC_TARGET_TEMPERATURE` with the given temperature. -/
def target_frame (temperature : Int) : List Nat :=
  frame_of demo_id ⟨IC_TARGET_TEMPERATURE, temperature, 0, 0, 0⟩

/-- A frame of 24 bytes: the preamble and the single word `IC_READ_SENSOR`. -/
def short_read_frame : List Nat :=
  demo_id ++ int32_bytes IC_READ_SENSOR

/-- A frame of 28 bytes: the preamble, the word `IC_TARGET_TEMPERATURE` and the temperature
25. -/
def short_target_frame : List Nat :=
  demo_id ++ int32_bytes IC_TARGET_TEMPERATURE ++ int32_bytes 25

namespace BareMetal

/-- What the main loop of `RTCoreMain` can do in one round: refresh the sensor data (in either
build) or process an inbound message. -/
inductive Input where
  | refresh (rand1 rand2 rand3 : Int)
  | refresh_avnet (temperature pressure rand1 : Int)
  | inbound (d : Dequeued)
deriving DecidableEq, Repr

/-- One action of the main loop of `RTCoreMain`. -/
def step (b : Board) (s : State) : Input → State
  | .refresh rand1 rand2 rand3 => refresh_data b s rand1 rand2 rand3
  | .refresh_avnet temperature pressure rand1 => refresh_data_avnet b s temperature pressure rand1
  | .inbound d => process_inbound_message b s d

/-- The input is a sensor refresh (of either build), not an inbound message. -/
def Input.is_refresh : Input → Bool
  | .refresh _ _ _ => true
  | .refresh_avnet _ _ _ => true
  | .inbound _ => false

/-- The actions of the main loop of `RTCoreMain`, one after the other. -/
def run (b : Board) (s : State) (inputs : List Input) : State :=
  inputs.foldl (step b) s

/-- The indicator with subscript `k` of `ledRgb` is lit: the level last written to its pin is
low. -/
def led_active (b : Board) (s : State) (k : Int) : Prop :=
  gpio_output s.gpio_writes (ledRgb b k) = some false

instance (b : Board) (s : State) (k : Int) : Decidable (led_active b s k) := by
  unfold led_active
  infer_instance

/-- The indicators agree with the controller: none is lit while no target is set; once a
target is set, `previous_led` and `current_led` agree on one of the three modes and exactly the
indicator of that mode is lit. -/
def indicators_follow_mode (b : Board) (s : State) : Prop :=
  (s.hvac_mode.target_temperature_set = false →
    ¬ led_active b s 0 ∧ ¬ led_active b s 1 ∧ ¬ led_active b s 2) ∧
  (s.hvac_mode.target_temperature_set = true →
    s.hvac_mode.previous_led = s.hvac_mode.current_led ∧
    (s.hvac_mode.current_led = HVAC_MODE_HEATING ∨ s.hvac_mode.current_led = HVAC_MODE_GREEN ∨
      s.hvac_mode.current_led = HVAC_MODE_COOLING) ∧
    (led_active b s 0 ↔ s.hvac_mode.current_led = HVAC_MODE_HEATING) ∧
    (led_active b s 1 ↔ s.hvac_mode.current_led = HVAC_MODE_GREEN) ∧
    (led_active b s 2 ↔ s.hvac_mode.current_led = HVAC_MODE_COOLING))

instance (b : Board) (s : State) : Decidable (indicators_follow_mode b s) := by
  unfold indicators_follow_mode
  infer_instance

/-- A board for the examples: LEDs on pins 8, 9 and 10; a read next to the table yields 0. -/
def demo_board : Board :=
  { LED_RED := 8, LED_GREEN := 9, LED_BLUE := 10, ledRgb_outside := fun _ => 0,
    hlAppId := demo_id }

/-- The state after start-up on the example board with a 64-byte mailbox buffer. -/
def demo_start : State :=
  (initialize_hardware demo_board (zero_state 64)).1

/-- A controller that accepted the target 22 and then sampled (22, 1013, 45): mode Green. -/
def demo_state : State :=
  run demo_board demo_start
    [.inbound (delivered (List.replicate 64 0) (target_frame 22)), .refresh 7 63 5]

end BareMetal

namespace Rtos

/-- A board for the examples: the pin numbers of the MT3620. -/
def demo_board : Board :=
  { OS_HAL_GPIO_8 := 8, OS_HAL_GPIO_9 := 9, OS_HAL_GPIO_10 := 10, ledRgb_outside := fun _ => 0 }

/-- The zero-initialised controller after it received a frame with the target 22. -/
def demo_state : State :=
  (intercore_thread_body demo_board zero_state (delivered zero_state.buf (target_frame 22))).1

end Rtos

namespace HighLevel

/-- The three sensor values lie in the validity ranges of the bridge: temperature in
[-20, 50], pressure in [800, 1200], humidity in [0, 100]. -/
def in_validity_ranges (v : SENSOR) : Prop :=
  (-20 ≤ v.temperature ∧ v.temperature ≤ 50) ∧
    (800 ≤ v.pressure ∧ v.pressure ≤ 1200) ∧ (0 ≤ v.humidity ∧ v.humidity ≤ 100)

instance (v : SENSOR) : Decidable (in_validity_ranges v) := by
  unfold in_validity_ranges
  infer_instance

end HighLevel

namespace Lab07

open HighLevel

/-- The state after start-up and the arrival of one sensor block with the given values and
the mode Green. -/
def received (temperature pressure humidity : Int) : State :=
  intercore_environment_receive_msg_handler (InitPeripheralsAndHandlers zero_state)
    ⟨IC_READ_SENSOR, temperature, pressure, humidity, HVAC_MODE_GREEN⟩

/-- The Lab_07 state after the twins were synchronised at time 1700000000000 with the sample
(22, 1013, 45) and a block with the temperature 23 arrived afterwards. -/
def resynchronised : State :=
  intercore_environment_receive_msg_handler
    (update_device_twins (received 22 1013 45) 1700000000000)
    ⟨IC_READ_SENSOR, 23, 1013, 45, HVAC_MODE_GREEN⟩

end Lab07

/-! ## Schedulers, the drain loop and the deferral policy -/

/-- The value of `SIZE_MAX` on the 32-bit real-time cores; `size_t` arithmetic is modulo
`SIZE_MAX + 1`. -/
abbrev SIZE_MAX : Nat := 4294967295

namespace BareMetal

/-- The function-local static `refresh_data_tick_counter` of `task_scheduler` and the global
`refresh_data_trigger`. -/
structure Scheduler where
  refresh_data_tick_counter : Nat
  refresh_data_trigger : Bool
deriving DecidableEq, Repr

/-- The scheduler variables before the first tick: the counter starts at `SIZE_MAX`, the
trigger is clear. -/
def scheduler_start : Scheduler :=
  { refresh_data_tick_counter := SIZE_MAX, refresh_data_trigger := false }

/-- Function `task_scheduler (cb_data)`, the callback of the 1 ms timer: the counter is compared
first and incremented afterwards. -/
def task_scheduler (t : Scheduler) : Scheduler :=
  let compared := t.refresh_data_tick_counter
  let t : Scheduler :=
    { t with refresh_data_tick_counter := (t.refresh_data_tick_counter + 1) % (SIZE_MAX + 1) }
  if compared ≥ 2000 then
    let t : Scheduler := { t with refresh_data_tick_counter := 0 }
    { t with refresh_data_trigger := true }
  else t

/-- The scheduler variables after `n` ticks. -/
def task_scheduler_ticks (t : Scheduler) : Nat → Scheduler
  | 0 => t
  | n + 1 => task_scheduler (task_scheduler_ticks t n)

/-- The tick that starts from `t` sets `refresh_data_trigger`: the trigger is set after the
call even if it was clear before. -/
def sets_trigger (t : Scheduler) : Bool :=
  (task_scheduler { t with refresh_data_trigger := false }).refresh_data_trigger

/-- The relation between sample, target and reported mode that the controller maintains: the
last temperature is the one in the outbound block, `previous_led` equals `current_led`, and
the outbound mode is `HVAC_MODE_UNKNOWN` without a target and otherwise Green, Cooling or
Heating as the outbound temperature is equal to, above or below the target. -/
def mode_is_consistent (s : State) : Prop :=
  s.hvac_mode.last_temperature = s.ic_outbound_data.temperature ∧
  s.hvac_mode.previous_led = s.hvac_mode.current_led ∧
  (s.hvac_mode.target_temperature_set = false →
    s.ic_outbound_data.operating_mode = HVAC_MODE_UNKNOWN) ∧
  (s.hvac_mode.target_temperature_set = true →
    s.ic_outbound_data.operating_mode =
      (if s.ic_outbound_data.temperature = s.hvac_mode.target_temperature then HVAC_MODE_GREEN
        else if s.ic_outbound_data.temperature > s.hvac_mode.target_temperature then
          HVAC_MODE_COOLING
        else HVAC_MODE_HEATING))

instance (s : State) : Decidable (mode_is_consistent s) := by
  unfold mode_is_consistent
  infer_instance

end BareMetal

namespace Rtos

/-- The event flag groups that `timer_scheduler` sets. -/
inductive EventFlags where
  | hardware_event_flags_0
  | Intercore_event_flags_0
deriving DecidableEq, Repr

/-- The global `static int sensorSampleRateInSeconds = 500`, which is never assigned again. -/
abbrev sensorSampleRateInSeconds : Int := 500

/-- The global `hardwareInitOK` and the function-local statics of `timer_scheduler`. -/
structure Timer where
  hardwareInitOK : Bool
  intercoreTickCounter : Nat
  readSensorTickCounter : Nat
deriving DecidableEq, Repr

/-- The timer variables when the 10 ms timer is created: `hardware_init_thread` has set
`hardwareInitOK`, the statics have their initial values. -/
def timer_start : Timer :=
  { hardwareInitOK := true, intercoreTickCounter := 0, readSensorTickCounter := SIZE_MAX }

/-- Function `timer_scheduler (input)`, the callback of the 10 ms timer.  The second component
lists the calls of `tx_event_flags_set` in order.  Each counter is incremented first and
compared afterwards; the `int` it is compared with is converted to `size_t`. -/
def timer_scheduler (t : Timer) : Timer × List EventFlags :=
  if t.hardwareInitOK = true then
    let t : Timer :=
      { t with readSensorTickCounter := (t.readSensorTickCounter + 1) % (SIZE_MAX + 1) }
    let r : Timer × List EventFlags :=
      if t.readSensorTickCounter ≥ (sensorSampleRateInSeconds % (SIZE_MAX + 1)).toNat then
        ({ t with readSensorTickCounter := 0 }, [.hardware_event_flags_0])
      else (t, [])
    let t : Timer :=
      { r.1 with intercoreTickCounter := (r.1.intercoreTickCounter + 1) % (SIZE_MAX + 1) }
    if t.intercoreTickCounter ≥ 25 then
      ({ t with intercoreTickCounter := 0 }, r.2 ++ [.Intercore_event_flags_0])
    else (t, r.2)
  else (t, [])

/-- The timer variables after `n` ticks. -/
def timer_ticks (t : Timer) : Nat → Timer
  | 0 => t
  | n + 1 => (timer_scheduler (timer_ticks t n)).1

/-- Modelled from the spec: `DequeueData` of the mailbox library, which is not among the
sources, on a finite queue of pending inbound frames.  It removes the head of the queue and
copies it to the start of `dest`; it fails when the queue is empty and, leaving the queue as
it is, when the frame does not fit into `dataSize` bytes. -/
def DequeueData (queue : List (List Nat)) (dest : List Nat) (dataSize : Nat) :
    Dequeued × List (List Nat) :=
  match queue with
  | [] => ({ result := -1, dest := dest, dataSize := dataSize }, [])
  | frame :: rest =>
    if frame.length ≤ dataSize then (delivered dest frame, rest)
    else ({ result := -1, dest := dest, dataSize := frame.length }, frame :: rest)

/-- The inner loop `while (queuedMessages)` of `intercore_thread` on the queue of pending
frames, with a bound on the number of passes: `none` means that the bound was reached before
the loop ended. -/
def intercore_thread_loop (b : Board) :
    Nat → State → List (List Nat) → Option (State × List (List Nat))
  | 0, _, _ => none
  | fuel + 1, s, queue =>
    let s : State := { s with dataSize := s.buf.length }
    let r := DequeueData queue s.buf s.dataSize
    let t := intercore_thread_body b s r.1
    if t.2 then intercore_thread_loop b fuel t.1 r.2 else some (t.1, r.2)

/-- One wake-up of `intercore_thread` (the event flag was received): the inner loop, with one
pass more than there are pending frames. -/
def intercore_thread_wakeup (b : Board) (s : State) (queue : List (List Nat)) :
    Option (State × List (List Nat)) :=
  intercore_thread_loop b (queue.length + 1) s queue

/-- The frames of a queue dispatched one after the other through the loop body. -/
def dispatch_in_order (b : Board) (s : State) (queue : List (List Nat)) : State :=
  queue.foldl
    (fun st frame =>
      (intercore_thread_body b { st with dataSize := st.buf.length }
        (delivered st.buf frame)).1) s

end Rtos

namespace Lab07

/-- Function `DeferredUpdateCalculate`; `tm_hour` is the hour of `gmtime (&now)`.  The device
twin report of the message text is not recorded. -/
def DeferredUpdateCalculate (max_deferral_time_in_minutes : Nat) (type status : Int)
    (tm_hour : Int) : Nat :=
  let tm_hour := tm_hour + 10
  let tm_hour := Int.tmod tm_hour 24
  let requested_minutes : Nat := if HighLevel.IN_RANGE tm_hour 1 5 then 0 else 10
  requested_minutes

end Lab07

namespace HighLevel

/-- The sensor twins that a synchronisation reports: the latest value of each field that
differs from the previous one, in the order temperature, pressure, humidity. -/
def sensor_twin_reports (e : ENVIRONMENT) : List Event :=
  (if e.previous.temperature ≠ e.latest.temperature then
      [Event.twin_report_int .dt_env_temperature e.latest.temperature] else []) ++
    (if e.previous.pressure ≠ e.latest.pressure then
      [Event.twin_report_int .dt_env_pressure e.latest.pressure] else []) ++
    (if e.previous.humidity ≠ e.latest.humidity then
      [Event.twin_report_int .dt_env_humidity e.latest.humidity] else [])

/-- The operating-mode twin that a synchronisation reports: the name of the latest mode when
that mode is not `HVAC_MODE_UNKNOWN` and differs from the previous one. -/
def mode_twin_report (e : ENVIRONMENT) : List Event :=
  if e.latest_operating_mode ≠ HVAC_MODE_UNKNOWN ∧
      e.latest_operating_mode ≠ e.previous_operating_mode then
    [Event.twin_report_string .dt_hvac_operating_mode (hvac_state_at e.latest_operating_mode)]
  else []

end HighLevel

/-! ## Auxiliary facts -/

namespace BareMetal

/-- The state `set_hvac_operating_mode` returns once a target is set, field by field. -/
theorem set_hvac_operating_mode_of_set (b : Board) (s : State) (t : Int)
    (h : s.hvac_mode.target_temperature_set = true) :
    set_hvac_operating_mode b s t =
      let m : Int := if t = s.hvac_mode.target_temperature then HVAC_MODE_GREEN
        else if t > s.hvac_mode.target_temperature then HVAC_MODE_COOLING
        else HVAC_MODE_HEATING
      { ic_outbound_data := { s.ic_outbound_data with operating_mode := m }
        hvac_mode := { s.hvac_mode with previous_led := m, current_led := m }
        mbox_local_buf := s.mbox_local_buf
        gpio_writes :=
          if s.hvac_mode.previous_led ≠ m then
            s.gpio_writes ++ [(ledRgb b (s.hvac_mode.previous_led - 1), true)] ++
              [(ledRgb b (m - 1), false)]
          else s.gpio_writes ++ [(ledRgb b (m - 1), false)]
        ledRgb_reads :=
          if s.hvac_mode.previous_led ≠ m then
            s.ledRgb_reads ++ [s.hvac_mode.previous_led - 1] ++ [m - 1]
          else s.ledRgb_reads ++ [m - 1]
        enqueued := s.enqueued } := by
  simp only [set_hvac_operating_mode, h, gpio_set_output_ledRgb, gpio_set_output]
  by_cases hp : s.hvac_mode.previous_led =
      (if t = s.hvac_mode.target_temperature then HVAC_MODE_GREEN
        else if t > s.hvac_mode.target_temperature then HVAC_MODE_COOLING
        else HVAC_MODE_HEATING)
  · simp [hp]
  · simp [hp]

/-- Without a target `set_hvac_operating_mode` returns the state it was given. -/
theorem set_hvac_operating_mode_of_unset (b : Board) (s : State) (t : Int)
    (h : s.hvac_mode.target_temperature_set = false) :
    set_hvac_operating_mode b s t = s := by
  simp [set_hvac_operating_mode, h]

/-- A call that does not reach the `switch` only leaves the dequeue buffer behind. -/
theorem process_inbound_message_of_no_payload (b : Board) (s : State) (d : Dequeued)
    (h : ¬ (d.result = 0 ∧ d.dataSize > payloadStart)) :
    process_inbound_message b s d = { s with mbox_local_buf := d.dest } := by
  simp only [process_inbound_message]
  rw [if_neg h]

/-- The `default` branch of the `switch` only leaves the dequeue buffer behind. -/
theorem process_inbound_message_of_other (b : Board) (s : State) (d : Dequeued)
    (h1 : (block_at d.dest payloadStart).cmd ≠ IC_READ_SENSOR)
    (h2 : (block_at d.dest payloadStart).cmd ≠ IC_TARGET_TEMPERATURE) :
    process_inbound_message b s d = { s with mbox_local_buf := d.dest } := by
  simp only [process_inbound_message, ic_inbound_data]
  rw [if_neg h1, if_neg h2]
  simp

/-- A target outside the accepted range only leaves the dequeue buffer behind. -/
theorem process_inbound_message_of_rejected (b : Board) (s : State) (d : Dequeued)
    (hc : (block_at d.dest payloadStart).cmd = IC_TARGET_TEMPERATURE)
    (hv : IN_RANGE (block_at d.dest payloadStart).temperature (-20) 80 = false) :
    process_inbound_message b s d = { s with mbox_local_buf := d.dest } := by
  have h1 : (block_at d.dest payloadStart).cmd ≠ IC_READ_SENSOR := by
    rw [hc]; decide
  simp only [process_inbound_message, ic_inbound_data]
  rw [if_neg h1, if_pos hc, hv]
  simp

/-- An accepted target is stored and the mode is set from the last temperature. -/
theorem process_inbound_message_of_accepted (b : Board) (s : State) (d : Dequeued)
    (hr : d.result = 0) (hl : d.dataSize > payloadStart)
    (hc : (block_at d.dest payloadStart).cmd = IC_TARGET_TEMPERATURE)
    (hv : IN_RANGE (block_at d.dest payloadStart).temperature (-20) 80 = true) :
    process_inbound_message b s d =
      set_hvac_operating_mode b
        { s with
          mbox_local_buf := d.dest
          hvac_mode := { s.hvac_mode with
            target_temperature_set := true
            target_temperature := (block_at d.dest payloadStart).temperature } }
        s.hvac_mode.last_temperature := by
  have h1 : (block_at d.dest payloadStart).cmd ≠ IC_READ_SENSOR := by
    rw [hc]; decide
  simp only [process_inbound_message, ic_inbound_data]
  rw [if_pos ⟨hr, hl⟩, if_neg h1, if_pos hc, hv]
  simp

/-- A read request sends the outbound block. -/
theorem process_inbound_message_of_read (b : Board) (s : State) (d : Dequeued)
    (hr : d.result = 0) (hl : d.dataSize > payloadStart)
    (hc : (block_at d.dest payloadStart).cmd = IC_READ_SENSOR) :
    process_inbound_message b s d =
      send_intercore_msg b { s with mbox_local_buf := d.dest }
        (block_bytes s.ic_outbound_data) := by
  simp only [process_inbound_message, ic_inbound_data]
  rw [if_pos ⟨hr, hl⟩, if_pos hc]

/-- The macro `IN_RANGE` as a proposition. -/
theorem IN_RANGE_iff (number low high : Int) :
    IN_RANGE number low high = true ↔ low ≤ number ∧ number ≤ high := by
  simp [IN_RANGE]


/-- Without a target a refresh only stores the sample. -/
theorem refresh_data_of_unset (b : Board) (s : State) (rand1 rand2 rand3 : Int)
    (h : s.hvac_mode.target_temperature_set = false) :
    refresh_data b s rand1 rand2 rand3 =
      { s with
        ic_outbound_data :=
          { cmd := IC_READ_SENSOR
            temperature := 15 + Int.tmod rand1 10
            pressure := 950 + Int.tmod rand2 100
            humidity := 40 + Int.tmod rand3 40
            operating_mode := s.ic_outbound_data.operating_mode }
        hvac_mode := { s.hvac_mode with last_temperature := 15 + Int.tmod rand1 10 } } := by
  simp only [refresh_data]
  exact set_hvac_operating_mode_of_unset _ _ _ h

/-- Without a target a refresh of the `OEM_AVNET` build only stores the sample. -/
theorem refresh_data_avnet_of_unset (b : Board) (s : State) (temperature pressure rand1 : Int)
    (h : s.hvac_mode.target_temperature_set = false) :
    refresh_data_avnet b s temperature pressure rand1 =
      { s with
        ic_outbound_data :=
          { cmd := IC_READ_SENSOR
            temperature := temperature
            pressure := pressure
            humidity := 40 + Int.tmod rand1 20
            operating_mode := s.ic_outbound_data.operating_mode }
        hvac_mode := { s.hvac_mode with last_temperature := temperature } } := by
  simp only [refresh_data_avnet]
  exact set_hvac_operating_mode_of_unset _ _ _ h

/-- Refreshes without a target leave the target unset and the mode, the outbound mode and the
hardware record as they were. -/
theorem run_refresh_of_unset (b : Board) (inputs : List Input) :
    ∀ s : State, s.hvac_mode.target_temperature_set = false →
      (∀ i ∈ inputs, i.is_refresh = true) →
      (run b s inputs).hvac_mode.target_temperature_set = false ∧
      (run b s inputs).hvac_mode.current_led = s.hvac_mode.current_led ∧
      (run b s inputs).hvac_mode.previous_led = s.hvac_mode.previous_led ∧
      (run b s inputs).ic_outbound_data.operating_mode = s.ic_outbound_data.operating_mode ∧
      (run b s inputs).gpio_writes = s.gpio_writes ∧
      (run b s inputs).ledRgb_reads = s.ledRgb_reads ∧
      (run b s inputs).enqueued = s.enqueued := by
  induction inputs with
  | nil => intro s h _; exact ⟨h, rfl, rfl, rfl, rfl, rfl, rfl⟩
  | cons i rest ih =>
    intro s h hall
    have hi : i.is_refresh = true := hall i (List.mem_cons_self i rest)
    have hrest : ∀ j ∈ rest, j.is_refresh = true :=
      fun j hj => hall j (List.mem_cons_of_mem i hj)
    have hrun : run b s (i :: rest) = run b (step b s i) rest := rfl
    rw [hrun]
    cases i with
    | refresh r1 r2 r3 =>
      have hs : step b s (.refresh r1 r2 r3) = refresh_data b s r1 r2 r3 := rfl
      rw [hs, refresh_data_of_unset b s r1 r2 r3 h]
      exact ih _ h hrest
    | refresh_avnet t p r1 =>
      have hs : step b s (.refresh_avnet t p r1) = refresh_data_avnet b s t p r1 := rfl
      rw [hs, refresh_data_avnet_of_unset b s t p r1 h]
      exact ih _ h hrest
    | inbound d => exact absurd hi (by simp [Input.is_refresh])

/-- A block occupies `sizeof (INTERCORE_BLOCK)` bytes. -/
theorem block_bytes_length (blk : INTERCORE_BLOCK) :
    (block_bytes blk).length = sizeof_INTERCORE_BLOCK := by
  simp [block_bytes, int32_bytes]

/-- The frame that `send_intercore_msg` hands to `EnqueueData` is the component id followed by
the data. -/
theorem send_intercore_msg_enqueued (b : Board) (s : State) (data : List Nat)
    (hid : b.hlAppId.length = payloadStart) :
    (send_intercore_msg b s data).enqueued = s.enqueued ++ [b.hlAppId ++ data] := by
  simp only [send_intercore_msg, memcpy]
  congr 2
  simp [hid, List.take_append_eq_append_take]

/-- The level of a pin after one more write. -/
theorem gpio_output_append (w : List (Int × Bool)) (p : Int) (v : Bool) (q : Int) :
    gpio_output (w ++ [(p, v)]) q = if p = q then some v else gpio_output w q := by
  simp only [gpio_output, List.reverse_append, List.reverse_cons, List.reverse_nil,
    List.nil_append, List.singleton_append, List.find?_cons]
  by_cases h : p = q
  · simp [h]
  · simp [h]

/-- The three entries of the table `ledRgb`. -/
theorem ledRgb_entries (b : Board) :
    ledRgb b 0 = b.LED_RED ∧ ledRgb b 1 = b.LED_GREEN ∧ ledRgb b 2 = b.LED_BLUE :=
  ⟨rfl, rfl, rfl⟩

/-- The table entry of each mode, read with the mode minus one. -/
theorem ledRgb_of_mode (b : Board) :
    ledRgb b (HVAC_MODE_HEATING - 1) = b.LED_RED ∧
      ledRgb b (HVAC_MODE_GREEN - 1) = b.LED_GREEN ∧
      ledRgb b (HVAC_MODE_COOLING - 1) = b.LED_BLUE :=
  ⟨rfl, rfl, rfl⟩

/-- The last element of a list that ends in a given element. -/
theorem getLast_append_singleton (w : List (Int × Bool)) (a : Int × Bool) :
    (w ++ [a]).getLast? = some a := by
  simp

/-- The level of the pin written last. -/
theorem gpio_output_last (w : List (Int × Bool)) (p : Int) (v : Bool) :
    gpio_output (w ++ [(p, v)]) p = some v := by
  rw [gpio_output_append, if_pos rfl]

/-- With a target set, the last write of `set_hvac_operating_mode` drives the pin of the new
mode low. -/
theorem set_hvac_operating_mode_last_write (b : Board) (s : State) (t : Int)
    (h : s.hvac_mode.target_temperature_set = true) :
    ∃ w, (set_hvac_operating_mode b s t).gpio_writes =
      w ++ [(ledRgb b ((if t = s.hvac_mode.target_temperature then HVAC_MODE_GREEN
        else if t > s.hvac_mode.target_temperature then HVAC_MODE_COOLING
        else HVAC_MODE_HEATING) - 1), false)] := by
  rw [set_hvac_operating_mode_of_set b s t h]
  dsimp only
  split_ifs <;> exact ⟨_, rfl⟩

/-- Lighting the indicator of mode `m` when all other indicators are dark leaves exactly that
indicator lit. -/
theorem gpio_output_after_on (b : Board)
    (hrg : b.LED_RED ≠ b.LED_GREEN) (hrb : b.LED_RED ≠ b.LED_BLUE)
    (hgb : b.LED_GREEN ≠ b.LED_BLUE) (w : List (Int × Bool)) (m : Int)
    (hm : m = 1 ∨ m = 2 ∨ m = 3)
    (h0 : m ≠ 1 → gpio_output w b.LED_RED ≠ some false)
    (h1 : m ≠ 2 → gpio_output w b.LED_GREEN ≠ some false)
    (h2 : m ≠ 3 → gpio_output w b.LED_BLUE ≠ some false) :
    (gpio_output (w ++ [(ledRgb b (m - 1), false)]) b.LED_RED = some false ↔ m = 1) ∧
      (gpio_output (w ++ [(ledRgb b (m - 1), false)]) b.LED_GREEN = some false ↔ m = 2) ∧
      (gpio_output (w ++ [(ledRgb b (m - 1), false)]) b.LED_BLUE = some false ↔ m = 3) := by
  have hgr : b.LED_GREEN ≠ b.LED_RED := fun h => hrg h.symm
  have hbr : b.LED_BLUE ≠ b.LED_RED := fun h => hrb h.symm
  have hbg : b.LED_BLUE ≠ b.LED_GREEN := fun h => hgb h.symm
  rcases hm with hm | hm | hm
  · subst hm
    have e1 := h1 (by decide)
    have e2 := h2 (by decide)
    simp [gpio_output_append, ledRgb, hrg, hrb, e1, e2]
  · subst hm
    have e0 := h0 (by decide)
    have e2 := h2 (by decide)
    simp [gpio_output_append, ledRgb, hgr, hgb, e0, e2]
  · subst hm
    have e0 := h0 (by decide)
    have e1 := h1 (by decide)
    simp [gpio_output_append, ledRgb, hbr, hbg, e0, e1]

/-- Writing a high level to a pin lights no indicator, and it darkens the indicator of the
previous mode when the indicator discipline holds. -/
theorem gpio_output_after_off (b : Board)
    (hrg : b.LED_RED ≠ b.LED_GREEN) (hrb : b.LED_RED ≠ b.LED_BLUE)
    (hgb : b.LED_GREEN ≠ b.LED_BLUE) (s : State)
    (hset : s.hvac_mode.target_temperature_set = true)
    (hpre : (¬ led_active b s 0 ∧ ¬ led_active b s 1 ∧ ¬ led_active b s 2) ∨
      indicators_follow_mode b s) :
    gpio_output (s.gpio_writes ++ [(ledRgb b (s.hvac_mode.previous_led - 1), true)])
        b.LED_RED ≠ some false ∧
      gpio_output (s.gpio_writes ++ [(ledRgb b (s.hvac_mode.previous_led - 1), true)])
        b.LED_GREEN ≠ some false ∧
      gpio_output (s.gpio_writes ++ [(ledRgb b (s.hvac_mode.previous_led - 1), true)])
        b.LED_BLUE ≠ some false := by
  have hgr : b.LED_GREEN ≠ b.LED_RED := fun h => hrg h.symm
  have hbr : b.LED_BLUE ≠ b.LED_RED := fun h => hrb h.symm
  have hbg : b.LED_BLUE ≠ b.LED_GREEN := fun h => hgb h.symm
  simp only [gpio_output_append]
  rcases hpre with ⟨h0, h1, h2⟩ | hinv
  · simp only [led_active, (ledRgb_entries b).1, (ledRgb_entries b).2.1,
      (ledRgb_entries b).2.2] at h0 h1 h2
    refine ⟨?_, ?_, ?_⟩ <;> split_ifs <;> simp [*]
  · obtain ⟨hpc, hc3, a0, a1, a2⟩ := hinv.2 hset
    simp only [led_active, (ledRgb_entries b).1, (ledRgb_entries b).2.1,
      (ledRgb_entries b).2.2] at a0 a1 a2
    rw [hpc]
    rcases hc3 with hc | hc | hc
    · rw [hc] at a0 a1 a2 ⊢
      rw [(ledRgb_of_mode b).1]
      have e1 : ¬ gpio_output s.gpio_writes b.LED_GREEN = some false :=
        fun h => absurd (a1.mp h) (by decide)
      have e2 : ¬ gpio_output s.gpio_writes b.LED_BLUE = some false :=
        fun h => absurd (a2.mp h) (by decide)
      simp [hrg, hrb, e1, e2]
    · rw [hc] at a0 a1 a2 ⊢
      rw [(ledRgb_of_mode b).2.1]
      have e0 : ¬ gpio_output s.gpio_writes b.LED_RED = some false :=
        fun h => absurd (a0.mp h) (by decide)
      have e2 : ¬ gpio_output s.gpio_writes b.LED_BLUE = some false :=
        fun h => absurd (a2.mp h) (by decide)
      simp [hgr, hgb, e0, e2]
    · rw [hc] at a0 a1 a2 ⊢
      rw [(ledRgb_of_mode b).2.2]
      have e0 : ¬ gpio_output s.gpio_writes b.LED_RED = some false :=
        fun h => absurd (a0.mp h) (by decide)
      have e1 : ¬ gpio_output s.gpio_writes b.LED_GREEN = some false :=
        fun h => absurd (a1.mp h) (by decide)
      simp [hbr, hbg, e0, e1]

/-- With a target set, `set_hvac_operating_mode` establishes the indicator discipline from a
state in which either no indicator is lit or the discipline already holds. -/
theorem set_hvac_operating_mode_indicators (b : Board)
    (hrg : b.LED_RED ≠ b.LED_GREEN) (hrb : b.LED_RED ≠ b.LED_BLUE)
    (hgb : b.LED_GREEN ≠ b.LED_BLUE) (s : State) (t : Int)
    (hset : s.hvac_mode.target_temperature_set = true)
    (hpre : (¬ led_active b s 0 ∧ ¬ led_active b s 1 ∧ ¬ led_active b s 2) ∨
      indicators_follow_mode b s) :
    indicators_follow_mode b (set_hvac_operating_mode b s t) := by
  rw [set_hvac_operating_mode_of_set b s t hset]
  obtain ⟨m, hm⟩ : ∃ m : Int, m = (if t = s.hvac_mode.target_temperature then HVAC_MODE_GREEN
      else if t > s.hvac_mode.target_temperature then HVAC_MODE_COOLING
      else HVAC_MODE_HEATING) := ⟨_, rfl⟩
  have hm3 : m = 1 ∨ m = 2 ∨ m = 3 := by
    rw [hm]; split_ifs <;> simp
  simp only [← hm]
  have hoff := gpio_output_after_off b hrg hrb hgb s hset hpre
  refine ⟨fun h => absurd (hset.symm.trans h) (by simp), fun _ => ?_⟩
  refine ⟨rfl, hm3, ?_⟩
  simp only [led_active, (ledRgb_entries b).1, (ledRgb_entries b).2.1, (ledRgb_entries b).2.2]
  by_cases hp : s.hvac_mode.previous_led = m
  · rw [if_neg (not_not.mpr hp)]
    have hq : (¬ led_active b s 0 ∧ ¬ led_active b s 1 ∧ ¬ led_active b s 2) ∨
        (s.hvac_mode.current_led = m ∧ (led_active b s 0 ↔ m = 1) ∧
          (led_active b s 1 ↔ m = 2) ∧ (led_active b s 2 ↔ m = 3)) := by
      rcases hpre with h | hinv
      · exact Or.inl h
      · obtain ⟨hpc, _, a0, a1, a2⟩ := hinv.2 hset
        have hc : s.hvac_mode.current_led = m := hpc.symm.trans hp
        rw [hc] at a0 a1 a2
        exact Or.inr ⟨hc, a0, a1, a2⟩
    simp only [led_active, (ledRgb_entries b).1, (ledRgb_entries b).2.1,
      (ledRgb_entries b).2.2] at hq
    refine gpio_output_after_on b hrg hrb hgb s.gpio_writes m hm3 ?_ ?_ ?_
    · intro hne
      rcases hq with h | h
      · exact h.1
      · exact fun hc => hne (h.2.1.mp hc)
    · intro hne
      rcases hq with h | h
      · exact h.2.1
      · exact fun hc => hne (h.2.2.1.mp hc)
    · intro hne
      rcases hq with h | h
      · exact h.2.2
      · exact fun hc => hne (h.2.2.2.mp hc)
  · rw [if_pos hp]
    exact gpio_output_after_on b hrg hrb hgb _ m hm3 (fun _ => hoff.1) (fun _ => hoff.2.1)
      (fun _ => hoff.2.2)

/-- Every action of the main loop keeps the indicator discipline. -/
theorem step_indicators (b : Board)
    (hrg : b.LED_RED ≠ b.LED_GREEN) (hrb : b.LED_RED ≠ b.LED_BLUE)
    (hgb : b.LED_GREEN ≠ b.LED_BLUE) (s : State) (i : Input)
    (hinv : indicators_follow_mode b s) :
    indicators_follow_mode b (step b s i) := by
  cases i with
  | refresh r1 r2 r3 =>
    show indicators_follow_mode b (refresh_data b s r1 r2 r3)
    cases hset : s.hvac_mode.target_temperature_set
    · rw [refresh_data_of_unset b s r1 r2 r3 hset]
      exact hinv
    · simp only [refresh_data]
      exact set_hvac_operating_mode_indicators b hrg hrb hgb _ _ hset (Or.inr hinv)
  | refresh_avnet t p r1 =>
    show indicators_follow_mode b (refresh_data_avnet b s t p r1)
    cases hset : s.hvac_mode.target_temperature_set
    · rw [refresh_data_avnet_of_unset b s t p r1 hset]
      exact hinv
    · simp only [refresh_data_avnet]
      exact set_hvac_operating_mode_indicators b hrg hrb hgb _ _ hset (Or.inr hinv)
  | inbound d =>
    show indicators_follow_mode b (process_inbound_message b s d)
    by_cases hp : d.result = 0 ∧ d.dataSize > payloadStart
    · by_cases h1 : (block_at d.dest payloadStart).cmd = IC_READ_SENSOR
      · rw [process_inbound_message_of_read b s d hp.1 hp.2 h1]
        exact hinv
      · by_cases h2 : (block_at d.dest payloadStart).cmd = IC_TARGET_TEMPERATURE
        · cases hR : IN_RANGE (block_at d.dest payloadStart).temperature (-20) 80
          · rw [process_inbound_message_of_rejected b s d h2 hR]
            exact hinv
          · rw [process_inbound_message_of_accepted b s d hp.1 hp.2 h2 hR]
            refine set_hvac_operating_mode_indicators b hrg hrb hgb _ _ rfl ?_
            cases hset : s.hvac_mode.target_temperature_set
            · exact Or.inl (hinv.1 hset)
            · refine Or.inr ⟨fun h => absurd h (by simp), fun _ => ?_⟩
              exact hinv.2 hset
        · rw [process_inbound_message_of_other b s d h1 h2]
          exact hinv
    · rw [process_inbound_message_of_no_payload b s d hp]
      exact hinv

/-- Every run of the main loop keeps the indicator discipline. -/
theorem run_indicators (b : Board)
    (hrg : b.LED_RED ≠ b.LED_GREEN) (hrb : b.LED_RED ≠ b.LED_BLUE)
    (hgb : b.LED_GREEN ≠ b.LED_BLUE) (inputs : List Input) :
    ∀ s : State, indicators_follow_mode b s → indicators_follow_mode b (run b s inputs) := by
  induction inputs with
  | nil => intro s h; exact h
  | cons i rest ih =>
    intro s h
    exact ih (step b s i) (step_indicators b hrg hrb hgb s i h)

/-- After `initialize_hardware` on zeroed globals no target is set and no indicator is lit. -/
theorem initialize_hardware_indicators (b : Board) (z : State)
    (hz : z.hvac_mode = ⟨0, 0, false, 0, 0⟩) (hw : z.gpio_writes = []) :
    indicators_follow_mode b (initialize_hardware b z).1 := by
  have hset : (initialize_hardware b z).1.hvac_mode.target_temperature_set = false := by
    simp [initialize_hardware, gpio_set_output, hz]
  refine ⟨fun _ => ?_, fun h => absurd (hset.symm.trans h) (by simp)⟩
  simp only [led_active, initialize_hardware, gpio_set_output, hw, gpio_output_append,
    List.nil_append, (ledRgb_entries b).1, (ledRgb_entries b).2.1, (ledRgb_entries b).2.2]
  refine ⟨?_, ?_, ?_⟩ <;> split_ifs <;> simp [gpio_output]

end BareMetal

namespace Rtos

/-- The state `set_hvac_operating_mode` of the Azure RTOS application returns once a target is
set, field by field. -/
theorem rtos_set_hvac_operating_mode_of_set (b : Board) (s : State) (t : Int)
    (h : s.hvac_mode.target_temperature_set = true) :
    set_hvac_operating_mode b s t =
      let m : Int := if t = s.hvac_mode.target_temperature then HVAC_MODE_GREEN
        else if t > s.hvac_mode.target_temperature then HVAC_MODE_COOLING
        else HVAC_MODE_HEATING
      { s with
        enviroment_control_block := { s.enviroment_control_block with operating_mode := m }
        hvac_mode := { s.hvac_mode with previous_led := m, current_led := m }
        gpio_writes :=
          if s.hvac_mode.previous_led ≠ m then
            s.gpio_writes ++ [(ledRgb b (s.hvac_mode.previous_led - 1), true)] ++
              [(ledRgb b (m - 1), false)]
          else s.gpio_writes ++ [(ledRgb b (m - 1), false)]
        ledRgb_reads :=
          if s.hvac_mode.previous_led ≠ m then
            s.ledRgb_reads ++ [s.hvac_mode.previous_led - 1] ++ [m - 1]
          else s.ledRgb_reads ++ [m - 1] } := by
  simp only [set_hvac_operating_mode, h, gpio_set_output_ledRgb]
  by_cases hp : s.hvac_mode.previous_led =
      (if t = s.hvac_mode.target_temperature then HVAC_MODE_GREEN
        else if t > s.hvac_mode.target_temperature then HVAC_MODE_COOLING
        else HVAC_MODE_HEATING)
  · simp [hp]
  · simp [hp]

/-- With a target set, the last write of `set_hvac_operating_mode` of the Azure RTOS
application drives the pin of the new mode low. -/
theorem rtos_set_hvac_operating_mode_last_write (b : Board) (s : State) (t : Int)
    (h : s.hvac_mode.target_temperature_set = true) :
    ∃ w, (set_hvac_operating_mode b s t).gpio_writes =
      w ++ [(ledRgb b ((if t = s.hvac_mode.target_temperature then HVAC_MODE_GREEN
        else if t > s.hvac_mode.target_temperature then HVAC_MODE_COOLING
        else HVAC_MODE_HEATING) - 1), false)] := by
  rw [rtos_set_hvac_operating_mode_of_set b s t h]
  dsimp only
  split_ifs <;> exact ⟨_, rfl⟩

end Rtos

/-! ## Auxiliary facts about frames -/

/-- Decoding the four bytes of a 32-bit integer gives the integer back. -/
theorem int32_of_bytes_int32_bytes (v : Int) (h : is_int32 v) :
    int32_of_bytes ((v % 4294967296).toNat % 256) ((v % 4294967296).toNat / 256 % 256)
      ((v % 4294967296).toNat / 65536 % 256) ((v % 4294967296).toNat / 16777216 % 256) = v := by
  unfold is_int32 at h
  unfold int32_of_bytes
  simp only
  split_ifs with hu <;> omega

/-- The byte at position `pre.length + i` of `pre ++ l ++ post` is the byte `i` of `l`. -/
theorem byte_at_middle (pre l post : List Nat) (n i : Nat) (hn : pre.length = n)
    (hi : i < l.length) : byte_at (pre ++ l ++ post) (n + i) = l.getD i 0 := by
  subst hn
  unfold byte_at
  rw [List.append_assoc, List.getD_append_right _ _ _ _ (Nat.le_add_right _ _),
    Nat.add_sub_cancel_left, List.getD_append _ _ _ _ hi]

/-- A 32-bit word with a value from 0 to 255 has that value in its least significant byte:
where the word reading of an enumeration gives such a value, the one-byte reading gives the
same. -/
theorem int32_at_low_byte (buf : List Nat) (off : Nat) (v : Int) (h0 : 0 ≤ v) (h1 : v < 256)
    (h : int32_at buf off = v) : enum8_at buf off = v := by
  unfold int32_at int32_of_bytes at h
  unfold enum8_at
  dsimp only at h
  split_ifs at h <;> omega

/-- A block written behind a 20-byte preamble is read back unchanged. -/
theorem block_at_frame (pre post : List Nat) (b : INTERCORE_BLOCK) (hpre : pre.length = 20)
    (hb : block_is_int32 b) : block_at (pre ++ block_bytes b ++ post) 20 = b := by
  cases b with
  | mk cmd temperature pressure humidity operating_mode =>
    obtain ⟨h0, h1, h2, h3, h4⟩ := hb
    have e0 := int32_of_bytes_int32_bytes cmd h0
    have e1 := int32_of_bytes_int32_bytes temperature h1
    have e2 := int32_of_bytes_int32_bytes pressure h2
    have e3 := int32_of_bytes_int32_bytes humidity h3
    have e4 := int32_of_bytes_int32_bytes operating_mode h4
    have g : ∀ i : Nat, i < 20 →
        byte_at (pre ++ block_bytes ⟨cmd, temperature, pressure, humidity, operating_mode⟩ ++
          post) (20 + i) =
        (int32_bytes cmd ++ int32_bytes temperature ++ int32_bytes pressure ++
          int32_bytes humidity ++ int32_bytes operating_mode).getD i 0 :=
      fun i hi => byte_at_middle pre _ post 20 i hpre (by simpa [block_bytes, int32_bytes] using hi)
    have g0 := g 0 (by decide)
    have g1 := g 1 (by decide)
    have g2 := g 2 (by decide)
    have g3 := g 3 (by decide)
    have g4 := g 4 (by decide)
    have g5 := g 5 (by decide)
    have g6 := g 6 (by decide)
    have g7 := g 7 (by decide)
    have g8 := g 8 (by decide)
    have g9 := g 9 (by decide)
    have g10 := g 10 (by decide)
    have g11 := g 11 (by decide)
    have g12 := g 12 (by decide)
    have g13 := g 13 (by decide)
    have g14 := g 14 (by decide)
    have g15 := g 15 (by decide)
    have g16 := g 16 (by decide)
    have g17 := g 17 (by decide)
    have g18 := g 18 (by decide)
    have g19 := g 19 (by decide)
    simp only [int32_bytes, List.cons_append, List.nil_append, List.getD_cons_succ,
      List.getD_cons_zero, Nat.reduceAdd] at g0 g1 g2 g3 g4 g5 g6 g7 g8 g9
    simp only [int32_bytes, List.cons_append, List.nil_append, List.getD_cons_succ,
      List.getD_cons_zero, Nat.reduceAdd] at g10 g11 g12 g13 g14 g15 g16 g17 g18 g19
    simp only [block_at, int32_at, Nat.reduceAdd, g0, g1, g2, g3, g4, g5, g6, g7, g8, g9, g10,
      g11, g12, g13, g14, g15, g16, g17, g18, g19, e0, e1, e2, e3, e4]

namespace Rtos

/-- The frame that `send_intercore_msg` of the Azure RTOS application hands to `EnqueueData`:
the first 20 bytes of `buf` followed by the bytes of the environment block. -/
theorem rtos_send_intercore_msg_enqueued (s : State) (h : payloadStart ≤ s.buf.length) :
    (send_intercore_msg s).enqueued =
      s.enqueued ++ [s.buf.take payloadStart ++ block_bytes s.enviroment_control_block] := by
  have hl : (block_bytes s.enviroment_control_block).length = 20 := by
    simp [block_bytes, int32_bytes]
  have ht : (s.buf.take 20).length = 20 := by
    rw [List.length_take]; exact Nat.min_eq_left h
  simp only [send_intercore_msg, memcpy]
  congr 2
  exact List.take_left' (by rw [List.length_append, ht, hl])

/-- With a target set or not, `set_hvac_operating_mode` leaves `ic_control_block` alone. -/
theorem rtos_set_hvac_operating_mode_ic_control_block (b : Board) (s : State) (t : Int) :
    (set_hvac_operating_mode b s t).ic_control_block = s.ic_control_block := by
  cases h : s.hvac_mode.target_temperature_set
  · simp [set_hvac_operating_mode, h]
  · rw [rtos_set_hvac_operating_mode_of_set b s t h]

/-- A pass through the loop body that reaches the `switch` leaves in `ic_control_block` the
block read at `payloadStart` of the dequeue buffer. -/
theorem rtos_intercore_thread_body_copy (b : Board) (s : State) (d : Dequeued)
    (hr : d.result = 0) (hl : d.dataSize > payloadStart) :
    (intercore_thread_body b s d).1.ic_control_block = block_at d.dest payloadStart := by
  simp only [intercore_thread_body]
  rw [if_pos ⟨hr, hl⟩]
  split_ifs
  · rfl
  · exact rtos_set_hvac_operating_mode_ic_control_block _ _ _
  · rfl

end Rtos

/-! ## Auxiliary facts about the high-level applications -/

namespace HighLevel

/-- The range test of the high-level applications as a proposition. -/
theorem hl_IN_RANGE_iff (number low high : Int) :
    IN_RANGE number low high = true ↔ low ≤ number ∧ number ≤ high := by
  simp [IN_RANGE]

/-- The fault condition of Lab_03 and Lab_07 holds exactly when some value is out of range. -/
theorem fault_condition_iff (v : SENSOR) :
    (!IN_RANGE v.temperature (-20) 50 || !IN_RANGE v.pressure 800 1200 ||
      !IN_RANGE v.humidity 0 100) = true ↔ ¬ in_validity_ranges v := by
  unfold in_validity_ranges
  simp only [Bool.or_eq_true, Bool.not_eq_true', ← Bool.not_eq_true, hl_IN_RANGE_iff]
  tauto

end HighLevel

namespace Lab07

open HighLevel

/-- What `update_device_twins` leaves alone: it only appends to the record of calls and
touches the previous values and the time of the last synchronisation. -/
theorem update_device_twins_frame (s : State) (now : Int) :
    (∃ rest, (update_device_twins s now).events = s.events ++ rest) ∧
      (update_device_twins s now).msgId = s.msgId ∧
      (update_device_twins s now).env.updated = s.env.updated ∧
      (update_device_twins s now).env.latest = s.env.latest ∧
      (update_device_twins s now).env.latest_operating_mode = s.env.latest_operating_mode ∧
      (update_device_twins s now).target_temperature = s.target_temperature ∧
      (update_device_twins s now).intercore_block = s.intercore_block := by
  unfold update_device_twins
  simp only
  split_ifs <;> exact ⟨by simp, rfl, rfl, rfl, rfl, rfl, rfl⟩

end Lab07

namespace BareMetal

/-- With a target set, a refresh stores the sample and sets the mode from it. -/
theorem refresh_data_of_set (b : Board) (s : State) (rand1 rand2 rand3 : Int)
    (h : s.hvac_mode.target_temperature_set = true) :
    refresh_data b s rand1 rand2 rand3 =
      set_hvac_operating_mode b
        { s with
          ic_outbound_data :=
            { cmd := IC_READ_SENSOR
              temperature := 15 + Int.tmod rand1 10
              pressure := 950 + Int.tmod rand2 100
              humidity := 40 + Int.tmod rand3 40
              operating_mode := s.ic_outbound_data.operating_mode }
          hvac_mode := { s.hvac_mode with
            last_temperature := 15 + Int.tmod rand1 10
            target_temperature_set := true } }
        (15 + Int.tmod rand1 10) := by
  simp only [refresh_data, h]

end BareMetal

/-! ## Auxiliary facts about the schedulers -/

namespace BareMetal

/-- What one tick of `task_scheduler` does to the counter, and when it sets the trigger. -/
theorem task_scheduler_step (t : Scheduler) :
    (task_scheduler t).refresh_data_tick_counter =
        (if t.refresh_data_tick_counter ≥ 2000 then 0
          else (t.refresh_data_tick_counter + 1) % (SIZE_MAX + 1)) ∧
      (sets_trigger t = true ↔ t.refresh_data_tick_counter ≥ 2000) := by
  unfold sets_trigger task_scheduler
  by_cases h : t.refresh_data_tick_counter ≥ 2000
  · simp [h]
  · simp [h]

/-- After a tick that reset the counter, the counter counts the ticks up to 2000. -/
theorem task_scheduler_ticks_counter (t : Scheduler) (h : t.refresh_data_tick_counter = 0) :
    ∀ j : Nat, j ≤ 2000 → (task_scheduler_ticks t j).refresh_data_tick_counter = j := by
  intro j
  induction j with
  | zero => intro _; exact h
  | succ j ih =>
    intro hj
    have hc := ih (by omega)
    show (task_scheduler (task_scheduler_ticks t j)).refresh_data_tick_counter = j + 1
    rw [(task_scheduler_step _).1, hc]
    have h1 : ¬ j ≥ 2000 := by omega
    rw [if_neg h1]
    exact Nat.mod_eq_of_lt (by show j + 1 < 4294967296; omega)

/-- The ticks after `m` ticks are ticks of the state reached. -/
theorem task_scheduler_ticks_add (t : Scheduler) (m : Nat) :
    ∀ j : Nat, task_scheduler_ticks t (m + j) =
      task_scheduler_ticks (task_scheduler_ticks t m) j := by
  intro j
  induction j with
  | zero => rfl
  | succ j ih =>
    show task_scheduler (task_scheduler_ticks t (m + j)) = _
    rw [ih]
    rfl

end BareMetal

namespace Rtos

/-- What one tick of `timer_scheduler` does to the counters, and which flags it sets. -/
theorem timer_scheduler_step (t : Timer) (h : t.hardwareInitOK = true) :
    (timer_scheduler t).1.hardwareInitOK = true ∧
      (timer_scheduler t).1.readSensorTickCounter =
        (if (t.readSensorTickCounter + 1) % (SIZE_MAX + 1) ≥ 500 then 0
          else (t.readSensorTickCounter + 1) % (SIZE_MAX + 1)) ∧
      (timer_scheduler t).1.intercoreTickCounter =
        (if (t.intercoreTickCounter + 1) % (SIZE_MAX + 1) ≥ 25 then 0
          else (t.intercoreTickCounter + 1) % (SIZE_MAX + 1)) ∧
      (EventFlags.hardware_event_flags_0 ∈ (timer_scheduler t).2 ↔
        (t.readSensorTickCounter + 1) % (SIZE_MAX + 1) ≥ 500) ∧
      (EventFlags.Intercore_event_flags_0 ∈ (timer_scheduler t).2 ↔
        (t.intercoreTickCounter + 1) % (SIZE_MAX + 1) ≥ 25) := by
  have h500 : (sensorSampleRateInSeconds % ((SIZE_MAX : Int) + 1)).toNat = 500 := by
    decide
  unfold timer_scheduler
  rw [if_pos h]
  dsimp only
  rw [h500]
  by_cases h1 : (t.readSensorTickCounter + 1) % (SIZE_MAX + 1) ≥ 500
  · rw [if_pos h1, if_pos h1]
    dsimp only
    by_cases h2 : (t.intercoreTickCounter + 1) % (SIZE_MAX + 1) ≥ 25
    · rw [if_pos h2, if_pos h2]
      simp [h, h1, h2]
    · rw [if_neg h2, if_neg h2]
      simp [h, h1, h2]
  · rw [if_neg h1, if_neg h1]
    dsimp only
    by_cases h2 : (t.intercoreTickCounter + 1) % (SIZE_MAX + 1) ≥ 25
    · rw [if_pos h2, if_pos h2]
      simp [h, h1, h2]
    · rw [if_neg h2, if_neg h2]
      simp [h, h1, h2]

/-- While `hardwareInitOK` is true it stays true. -/
theorem timer_ticks_hardwareInitOK (t : Timer) (h : t.hardwareInitOK = true) :
    ∀ j : Nat, (timer_ticks t j).hardwareInitOK = true := by
  intro j
  induction j with
  | zero => exact h
  | succ j ih => exact (timer_scheduler_step _ ih).1

/-- After a tick that reset the sensor counter, the counter counts the ticks up to 499. -/
theorem timer_ticks_readSensorTickCounter (t : Timer) (h : t.hardwareInitOK = true)
    (h0 : t.readSensorTickCounter = 0) :
    ∀ j : Nat, j ≤ 499 → (timer_ticks t j).readSensorTickCounter = j := by
  intro j
  induction j with
  | zero => intro _; exact h0
  | succ j ih =>
    intro hj
    have hc := ih (by omega)
    show (timer_scheduler (timer_ticks t j)).1.readSensorTickCounter = j + 1
    rw [(timer_scheduler_step _ (timer_ticks_hardwareInitOK t h j)).2.1, hc]
    have hm : (j + 1) % (SIZE_MAX + 1) = j + 1 :=
      Nat.mod_eq_of_lt (by show j + 1 < 4294967296; omega)
    rw [hm, if_neg (by omega)]

/-- After a tick that reset the intercore counter, the counter counts the ticks up to 24. -/
theorem timer_ticks_intercoreTickCounter (t : Timer) (h : t.hardwareInitOK = true)
    (h0 : t.intercoreTickCounter = 0) :
    ∀ j : Nat, j ≤ 24 → (timer_ticks t j).intercoreTickCounter = j := by
  intro j
  induction j with
  | zero => intro _; exact h0
  | succ j ih =>
    intro hj
    have hc := ih (by omega)
    show (timer_scheduler (timer_ticks t j)).1.intercoreTickCounter = j + 1
    rw [(timer_scheduler_step _ (timer_ticks_hardwareInitOK t h j)).2.2.1, hc]
    have hm : (j + 1) % (SIZE_MAX + 1) = j + 1 :=
      Nat.mod_eq_of_lt (by show j + 1 < 4294967296; omega)
    rw [hm, if_neg (by omega)]

/-- The ticks after `m` ticks are ticks of the state reached. -/
theorem timer_ticks_add (t : Timer) (m : Nat) :
    ∀ j : Nat, timer_ticks t (m + j) = timer_ticks (timer_ticks t m) j := by
  intro j
  induction j with
  | zero => rfl
  | succ j ih =>
    show (timer_scheduler (timer_ticks t (m + j))).1 = _
    rw [ih]
    rfl

end Rtos

/-! ## The controller of the bare-metal application -/

namespace BareMetal

/-- C1: once a target T is set, after `set_hvac_operating_mode (S)` the mode `current_led`,
which is also the `operating_mode` of the outbound block, is Green iff S = T, Cooling iff
S > T and Heating iff S < T. -/
theorem set_hvac_operating_mode_mode_correct (b : Board) (s : State) (S : Int)
    (h : s.hvac_mode.target_temperature_set = true) :
    (set_hvac_operating_mode b s S).ic_outbound_data.operating_mode =
        (set_hvac_operating_mode b s S).hvac_mode.current_led ∧
      ((set_hvac_operating_mode b s S).hvac_mode.current_led = HVAC_MODE_GREEN ↔
        S = s.hvac_mode.target_temperature) ∧
      ((set_hvac_operating_mode b s S).hvac_mode.current_led = HVAC_MODE_COOLING ↔
        S > s.hvac_mode.target_temperature) ∧
      ((set_hvac_operating_mode b s S).hvac_mode.current_led = HVAC_MODE_HEATING ↔
        S < s.hvac_mode.target_temperature) := by
  rw [set_hvac_operating_mode_of_set b s S h]
  rcases lt_trichotomy S s.hvac_mode.target_temperature with hlt | heq | hgt
  · have h1 : S ≠ s.hvac_mode.target_temperature := ne_of_lt hlt
    have h2 : ¬ S > s.hvac_mode.target_temperature := not_lt.mpr (le_of_lt hlt)
    simp [h1, h2, hlt]
  · simp [heq]
  · have h1 : S ≠ s.hvac_mode.target_temperature := ne_of_gt hgt
    have h2 : ¬ S < s.hvac_mode.target_temperature := not_lt.mpr (le_of_lt hgt)
    simp [h1, h2, hgt]

/-- Witness of C1: the controller with target 22 and the sample 30. -/
theorem set_hvac_operating_mode_mode_correct_witness :
    demo_state.hvac_mode.target_temperature_set = true ∧
      (set_hvac_operating_mode demo_board demo_state 30).hvac_mode.current_led =
        HVAC_MODE_COOLING :=
  ⟨by decide,
    ((set_hvac_operating_mode_mode_correct demo_board demo_state 30 (by decide)).2.2.1).mpr
      (by decide)⟩

/-- C2: a well-formed frame with the command `IC_TARGET_TEMPERATURE` and temperature v is
accepted iff -20 <= v <= 80.  On acceptance `target_temperature_set` becomes true,
`target_temperature` becomes v and the mode is set from `last_temperature` against v; otherwise
the controller, the outbound block, the indicators and the send record stay as they were.
Acceptance is visible in the indicator outputs: one is written iff v is in range. -/
theorem process_inbound_message_target (b : Board) (s : State) (d : Dequeued) (v : Int)
    (hr : d.result = 0) (hl : d.dataSize = payloadStart + sizeof_INTERCORE_BLOCK)
    (hc : (block_at d.dest payloadStart).cmd = IC_TARGET_TEMPERATURE)
    (hv : (block_at d.dest payloadStart).temperature = v) :
    ((-20 ≤ v ∧ v ≤ 80) →
        (process_inbound_message b s d).hvac_mode.target_temperature_set = true ∧
        (process_inbound_message b s d).hvac_mode.target_temperature = v ∧
        (process_inbound_message b s d).hvac_mode.last_temperature =
          s.hvac_mode.last_temperature ∧
        (process_inbound_message b s d).hvac_mode.current_led =
          (if s.hvac_mode.last_temperature = v then HVAC_MODE_GREEN
            else if s.hvac_mode.last_temperature > v then HVAC_MODE_COOLING
            else HVAC_MODE_HEATING) ∧
        (process_inbound_message b s d).ic_outbound_data.operating_mode =
          (process_inbound_message b s d).hvac_mode.current_led) ∧
      (¬ (-20 ≤ v ∧ v ≤ 80) →
        (process_inbound_message b s d).hvac_mode = s.hvac_mode ∧
        (process_inbound_message b s d).ic_outbound_data = s.ic_outbound_data ∧
        (process_inbound_message b s d).gpio_writes = s.gpio_writes ∧
        (process_inbound_message b s d).enqueued = s.enqueued) ∧
      ((process_inbound_message b s d).gpio_writes ≠ s.gpio_writes ↔
        (-20 ≤ v ∧ v ≤ 80)) := by
  have hlen : d.dataSize > payloadStart := by rw [hl]; decide
  by_cases hin : -20 ≤ v ∧ v ≤ 80
  · have hR : IN_RANGE (block_at d.dest payloadStart).temperature (-20) 80 = true := by
      rw [hv]; exact (IN_RANGE_iff v (-20) 80).mpr hin
    rw [process_inbound_message_of_accepted b s d hr hlen hc hR,
      set_hvac_operating_mode_of_set _ _ _ rfl, hv]
    refine ⟨fun _ => ⟨rfl, rfl, rfl, rfl, rfl⟩, fun hn => absurd hin hn, ?_⟩
    refine ⟨fun _ => hin, fun _ => ?_⟩
    dsimp only
    split_ifs <;> simp
  · have hR : IN_RANGE (block_at d.dest payloadStart).temperature (-20) 80 = false := by
      rw [hv]
      cases hb : IN_RANGE v (-20) 80
      · rfl
      · exact absurd ((IN_RANGE_iff v (-20) 80).mp hb) hin
    rw [process_inbound_message_of_rejected b s d hc hR]
    exact ⟨fun h => absurd h hin, fun _ => ⟨rfl, rfl, rfl, rfl⟩,
      fun h => absurd rfl h, fun h => absurd h hin⟩

/-- Witness of C2: the start-up state receives a well-formed frame with the target 22. -/
theorem process_inbound_message_target_witness :
    (process_inbound_message demo_board demo_start
        (delivered (List.replicate 64 0) (target_frame 22))).hvac_mode =
      ⟨0, 22, true, HVAC_MODE_HEATING, HVAC_MODE_HEATING⟩ ∧
    ((process_inbound_message demo_board demo_start
        (delivered (List.replicate 64 0) (target_frame 22))).gpio_writes ≠
      demo_start.gpio_writes ↔ ((-20 : Int) ≤ 22 ∧ (22 : Int) ≤ 80)) :=
  ⟨by decide,
    (process_inbound_message_target demo_board demo_start
      (delivered (List.replicate 64 0) (target_frame 22)) 22
      (by decide) (by decide) (by decide) (by decide)).2.2⟩

/-- C3: a frame with the command `IC_TARGET_TEMPERATURE` whose temperature is below -20 or
above 80 changes nothing: the controller record, the outbound block, the indicator outputs
and the send record are as before, and the indicator table is not read. -/
theorem process_inbound_message_out_of_range (b : Board) (s : State) (d : Dequeued)
    (hc : (block_at d.dest payloadStart).cmd = IC_TARGET_TEMPERATURE)
    (hv : (block_at d.dest payloadStart).temperature < -20 ∨
      (block_at d.dest payloadStart).temperature > 80) :
    (process_inbound_message b s d).hvac_mode = s.hvac_mode ∧
      (process_inbound_message b s d).ic_outbound_data = s.ic_outbound_data ∧
      (process_inbound_message b s d).gpio_writes = s.gpio_writes ∧
      (process_inbound_message b s d).ledRgb_reads = s.ledRgb_reads ∧
      (process_inbound_message b s d).enqueued = s.enqueued ∧
      (∀ pin, gpio_output (process_inbound_message b s d).gpio_writes pin =
        gpio_output s.gpio_writes pin) := by
  have hR : IN_RANGE (block_at d.dest payloadStart).temperature (-20) 80 = false := by
    cases hb : IN_RANGE (block_at d.dest payloadStart).temperature (-20) 80
    · rfl
    · have := (IN_RANGE_iff _ (-20) 80).mp hb
      omega
  rw [process_inbound_message_of_rejected b s d hc hR]
  exact ⟨rfl, rfl, rfl, rfl, rfl, fun _ => rfl⟩

/-- Witness of C3: the controller with target 22 receives a frame with the target 90. -/
theorem process_inbound_message_out_of_range_witness :
    (block_at (delivered demo_state.mbox_local_buf (target_frame 90)).dest
        payloadStart).temperature = 90 ∧
      (process_inbound_message demo_board demo_state
        (delivered demo_state.mbox_local_buf (target_frame 90))).hvac_mode =
        demo_state.hvac_mode ∧
      (process_inbound_message demo_board demo_state
        (delivered demo_state.mbox_local_buf (target_frame 90))).gpio_writes =
        demo_state.gpio_writes :=
  ⟨by decide,
    (process_inbound_message_out_of_range demo_board demo_state
      (delivered demo_state.mbox_local_buf (target_frame 90)) (by decide)
      (Or.inr (by decide))).1,
    (process_inbound_message_out_of_range demo_board demo_state
      (delivered demo_state.mbox_local_buf (target_frame 90)) (by decide)
      (Or.inr (by decide))).2.2.1⟩

/-- C5: without a target `set_hvac_operating_mode (S)` does nothing, so a refresh leaves
`current_led`, `previous_led` and the outbound `operating_mode` as they were and writes no
indicator output; this holds along every sequence of refreshes, and from the zero-initialised
state (before or after `initialize_hardware`) the outbound `operating_mode` stays
`HVAC_MODE_UNKNOWN`. -/
theorem no_premature_control (b : Board) (s : State) (S rand1 rand2 rand3 : Int)
    (h : s.hvac_mode.target_temperature_set = false) :
    set_hvac_operating_mode b s S = s ∧
      ((refresh_data b s rand1 rand2 rand3).hvac_mode.current_led = s.hvac_mode.current_led ∧
        (refresh_data b s rand1 rand2 rand3).hvac_mode.previous_led =
          s.hvac_mode.previous_led ∧
        (refresh_data b s rand1 rand2 rand3).ic_outbound_data.operating_mode =
          s.ic_outbound_data.operating_mode ∧
        (refresh_data b s rand1 rand2 rand3).gpio_writes = s.gpio_writes) ∧
      (∀ inputs : List Input, (∀ i ∈ inputs, i.is_refresh = true) →
        (run b s inputs).hvac_mode.current_led = s.hvac_mode.current_led ∧
        (run b s inputs).hvac_mode.previous_led = s.hvac_mode.previous_led ∧
        (run b s inputs).ic_outbound_data.operating_mode = s.ic_outbound_data.operating_mode ∧
        (run b s inputs).gpio_writes = s.gpio_writes) ∧
      (∀ (len : Nat) (inputs : List Input), (∀ i ∈ inputs, i.is_refresh = true) →
        (run b (zero_state len) inputs).ic_outbound_data.operating_mode = HVAC_MODE_UNKNOWN ∧
        (run b (initialize_hardware b (zero_state len)).1 inputs).ic_outbound_data.operating_mode
          = HVAC_MODE_UNKNOWN) := by
  refine ⟨set_hvac_operating_mode_of_unset b s S h, ?_, ?_, ?_⟩
  · rw [refresh_data_of_unset b s rand1 rand2 rand3 h]
    exact ⟨rfl, rfl, rfl, rfl⟩
  · intro inputs hall
    have := run_refresh_of_unset b inputs s h hall
    exact ⟨this.2.1, this.2.2.1, this.2.2.2.1, this.2.2.2.2.1⟩
  · intro len inputs hall
    have h0 := run_refresh_of_unset b inputs (zero_state len) rfl hall
    have h1 := run_refresh_of_unset b inputs (initialize_hardware b (zero_state len)).1 rfl hall
    exact ⟨h0.2.2.2.1, h1.2.2.2.1⟩

/-- Witness of C5: the start-up state, still without a target, takes the sample
(22, 1013, 45), that is the `rand ()` results 7, 63 and 5. -/
theorem no_premature_control_witness :
    demo_start.hvac_mode.target_temperature_set = false ∧
      (refresh_data demo_board demo_start 7 63 5).ic_outbound_data =
        ⟨IC_READ_SENSOR, 22, 1013, 45, HVAC_MODE_UNKNOWN⟩ ∧
      (refresh_data demo_board demo_start 7 63 5).gpio_writes = demo_start.gpio_writes :=
  ⟨by decide, by decide,
    (no_premature_control demo_board demo_start 22 7 63 5 (by decide)).2.1.2.2.2⟩

/-- C6: on a board whose three LED pins are distinct, start from zeroed globals, call
`initialize_hardware` and let the main loop perform any finite sequence of refreshes and
inbound messages.  Then at most one of the indicators `ledRgb[0..2]` is lit; none is lit while
no target is set; and once a target is set the mode is one of the three modes and exactly the
indicator `ledRgb[current_led - 1]` is lit. -/
theorem single_active_indicator (b : Board)
    (hrg : b.LED_RED ≠ b.LED_GREEN) (hrb : b.LED_RED ≠ b.LED_BLUE)
    (hgb : b.LED_GREEN ≠ b.LED_BLUE) (z : State)
    (hz : z.hvac_mode = ⟨0, 0, false, 0, 0⟩) (hw : z.gpio_writes = [])
    (inputs : List Input) :
    (∀ j k : Int, (j = 0 ∨ j = 1 ∨ j = 2) → (k = 0 ∨ k = 1 ∨ k = 2) →
        led_active b (run b (initialize_hardware b z).1 inputs) j →
        led_active b (run b (initialize_hardware b z).1 inputs) k → j = k) ∧
      ((run b (initialize_hardware b z).1 inputs).hvac_mode.target_temperature_set = false →
        ∀ k : Int, (k = 0 ∨ k = 1 ∨ k = 2) →
          ¬ led_active b (run b (initialize_hardware b z).1 inputs) k) ∧
      ((run b (initialize_hardware b z).1 inputs).hvac_mode.target_temperature_set = true →
        ((run b (initialize_hardware b z).1 inputs).hvac_mode.current_led = HVAC_MODE_HEATING ∨
          (run b (initialize_hardware b z).1 inputs).hvac_mode.current_led = HVAC_MODE_GREEN ∨
          (run b (initialize_hardware b z).1 inputs).hvac_mode.current_led =
            HVAC_MODE_COOLING) ∧
        ∀ k : Int, (k = 0 ∨ k = 1 ∨ k = 2) →
          (led_active b (run b (initialize_hardware b z).1 inputs) k ↔
            k = (run b (initialize_hardware b z).1 inputs).hvac_mode.current_led - 1)) := by
  have hinv := run_indicators b hrg hrb hgb inputs _ (initialize_hardware_indicators b z hz hw)
  generalize run b (initialize_hardware b z).1 inputs = s at hinv
  have hunset : s.hvac_mode.target_temperature_set = false →
      ∀ k : Int, (k = 0 ∨ k = 1 ∨ k = 2) → ¬ led_active b s k := by
    intro h k hk
    obtain ⟨a0, a1, a2⟩ := hinv.1 h
    rcases hk with hk | hk | hk <;> subst hk <;> assumption
  have hset : s.hvac_mode.target_temperature_set = true →
      ∀ k : Int, (k = 0 ∨ k = 1 ∨ k = 2) →
        (led_active b s k ↔ k = s.hvac_mode.current_led - 1) := by
    intro h k hk
    obtain ⟨_, _, a0, a1, a2⟩ := hinv.2 h
    rcases hk with hk | hk | hk <;> subst hk
    · rw [a0]; simp only [HVAC_MODE_HEATING, HVAC_MODE_GREEN, HVAC_MODE_COOLING]; omega
    · rw [a1]; simp only [HVAC_MODE_HEATING, HVAC_MODE_GREEN, HVAC_MODE_COOLING]; omega
    · rw [a2]; simp only [HVAC_MODE_HEATING, HVAC_MODE_GREEN, HVAC_MODE_COOLING]; omega
  refine ⟨?_, hunset, fun h => ⟨(hinv.2 h).2.1, hset h⟩⟩
  intro j k hj hk aj ak
  cases h : s.hvac_mode.target_temperature_set
  · exact absurd aj (hunset h j hj)
  · rw [(hset h j hj).mp aj, (hset h k hk).mp ak]

/-- Witness of C6: start-up, target 22, sample 22 (Green), then sample 30: the green LED
(pin 9) is switched off and the blue one (pin 10) is lit. -/
theorem single_active_indicator_witness :
    (run demo_board (initialize_hardware demo_board (zero_state 64)).1
        [.inbound (delivered (List.replicate 64 0) (target_frame 22)), .refresh 7 63 5,
          .refresh_avnet 30 1013 5]).gpio_writes =
      demo_state.gpio_writes ++ [(9, true), (10, false)] ∧
    (led_active demo_board (run demo_board (initialize_hardware demo_board (zero_state 64)).1
        [.inbound (delivered (List.replicate 64 0) (target_frame 22)), .refresh 7 63 5,
          .refresh_avnet 30 1013 5]) 2 ↔
      (2 : Int) = (run demo_board (initialize_hardware demo_board (zero_state 64)).1
        [.inbound (delivered (List.replicate 64 0) (target_frame 22)), .refresh 7 63 5,
          .refresh_avnet 30 1013 5]).hvac_mode.current_led - 1) :=
  ⟨by decide,
    (single_active_indicator demo_board (by decide) (by decide) (by decide) (zero_state 64)
      rfl rfl
      [.inbound (delivered (List.replicate 64 0) (target_frame 22)), .refresh 7 63 5,
        .refresh_avnet 30 1013 5]).2.2 (by decide) |>.2 2 (Or.inr (Or.inr rfl))⟩

/-- C8: a well-formed frame with the command `IC_READ_SENSOR` leaves the controller record,
the outbound block and the indicator outputs as they were and hands exactly one frame to
`EnqueueData`: the 20-byte component id followed by the bytes of the current
`ic_outbound_data`, of length 20 + sizeof (INTERCORE_BLOCK).  The mailbox buffer keeps its
size. -/
theorem process_inbound_message_read_sensor (b : Board) (s : State) (d : Dequeued)
    (hr : d.result = 0) (hl : d.dataSize = payloadStart + sizeof_INTERCORE_BLOCK)
    (hc : (block_at d.dest payloadStart).cmd = IC_READ_SENSOR)
    (hid : b.hlAppId.length = payloadStart)
    (hbuf : payloadStart + sizeof_INTERCORE_BLOCK ≤ d.dest.length) :
    (process_inbound_message b s d).hvac_mode = s.hvac_mode ∧
      (process_inbound_message b s d).ic_outbound_data = s.ic_outbound_data ∧
      (process_inbound_message b s d).gpio_writes = s.gpio_writes ∧
      (process_inbound_message b s d).ledRgb_reads = s.ledRgb_reads ∧
      (process_inbound_message b s d).enqueued =
        s.enqueued ++ [b.hlAppId ++ block_bytes s.ic_outbound_data] ∧
      (b.hlAppId ++ block_bytes s.ic_outbound_data).length =
        payloadStart + sizeof_INTERCORE_BLOCK ∧
      (process_inbound_message b s d).mbox_local_buf.length = d.dest.length := by
  have hlen : d.dataSize > payloadStart := by rw [hl]; decide
  rw [process_inbound_message_of_read b s d hr hlen hc]
  refine ⟨rfl, rfl, rfl, rfl, ?_, ?_, ?_⟩
  · exact send_intercore_msg_enqueued b _ _ hid
  · rw [List.length_append, hid, block_bytes_length]
  · have h20 : (block_bytes s.ic_outbound_data).length = 20 := block_bytes_length _
    have hid20 : b.hlAppId.length = 20 := hid
    have hbuf40 : 40 ≤ d.dest.length := hbuf
    simp only [send_intercore_msg, memcpy, List.length_append, List.length_take,
      List.length_drop, h20, hid20]
    omega

/-- Witness of C8: the controller with target 22 and sample (22, 1013, 45) is asked for its
data. -/
theorem process_inbound_message_read_sensor_witness :
    (block_at (delivered demo_state.mbox_local_buf
        (frame_of demo_id ⟨IC_READ_SENSOR, 0, 0, 0, 0⟩)).dest payloadStart).cmd =
      IC_READ_SENSOR ∧
    (process_inbound_message demo_board demo_state
        (delivered demo_state.mbox_local_buf
          (frame_of demo_id ⟨IC_READ_SENSOR, 0, 0, 0, 0⟩))).enqueued =
      demo_state.enqueued ++ [demo_board.hlAppId ++ block_bytes demo_state.ic_outbound_data] ∧
    demo_board.hlAppId ++ block_bytes demo_state.ic_outbound_data =
      [1, 2, 3, 4, 5, 6, 7, 8, 9, 10, 11, 12, 13, 14, 15, 16, 0, 0, 0, 0,
        1, 0, 0, 0, 22, 0, 0, 0, 245, 3, 0, 0, 45, 0, 0, 0, 2, 0, 0, 0] :=
  ⟨by decide,
    (process_inbound_message_read_sensor demo_board demo_state
      (delivered demo_state.mbox_local_buf (frame_of demo_id ⟨IC_READ_SENSOR, 0, 0, 0, 0⟩))
      (by decide) (by decide) (by decide) (by decide) (by decide)).2.2.2.2.1,
    by decide⟩

/-- C9: a frame whose command is neither `IC_READ_SENSOR` nor `IC_TARGET_TEMPERATURE`
(`IC_UNKNOWN` or any other value) leaves the controller record, the outbound block and the
indicator outputs as they were, and nothing is handed to `EnqueueData`.  The command is the
least significant byte of the command field, which is all that `ic_inbound_data->cmd` reads
when enumerations occupy one byte; the 32-bit word at that place is then neither of the two
values either, so the frame reaches the `default` branch whichever width the enumeration
has. -/
theorem process_inbound_message_unrecognized (b : Board) (s : State) (d : Dequeued)
    (h1 : enum8_at d.dest payloadStart ≠ IC_READ_SENSOR)
    (h2 : enum8_at d.dest payloadStart ≠ IC_TARGET_TEMPERATURE) :
    (block_at d.dest payloadStart).cmd ≠ IC_READ_SENSOR ∧
      (block_at d.dest payloadStart).cmd ≠ IC_TARGET_TEMPERATURE ∧
      (process_inbound_message b s d).hvac_mode = s.hvac_mode ∧
      (process_inbound_message b s d).ic_outbound_data = s.ic_outbound_data ∧
      (process_inbound_message b s d).gpio_writes = s.gpio_writes ∧
      (process_inbound_message b s d).ledRgb_reads = s.ledRgb_reads ∧
      (process_inbound_message b s d).enqueued = s.enqueued := by
  have w1 : (block_at d.dest payloadStart).cmd ≠ IC_READ_SENSOR :=
    fun h => h1 (int32_at_low_byte d.dest payloadStart IC_READ_SENSOR (by decide) (by decide) h)
  have w2 : (block_at d.dest payloadStart).cmd ≠ IC_TARGET_TEMPERATURE :=
    fun h => h2
      (int32_at_low_byte d.dest payloadStart IC_TARGET_TEMPERATURE (by decide) (by decide) h)
  rw [process_inbound_message_of_other b s d w1 w2]
  exact ⟨w1, w2, rfl, rfl, rfl, rfl, rfl⟩

/-- Witness of C9: a well-formed frame with the command value 7, which is outside the
enumeration, carrying the temperature 25; and a frame whose command field holds the bytes
0, 3, 0, 0, which is `IC_UNKNOWN` when read as one byte and 768 when read as a word. -/
theorem process_inbound_message_unrecognized_witness :
    enum8_at (delivered demo_state.mbox_local_buf
        (frame_of demo_id ⟨7, 25, 0, 0, 0⟩)).dest payloadStart = 7 ∧
    (process_inbound_message demo_board demo_state
        (delivered demo_state.mbox_local_buf (frame_of demo_id ⟨7, 25, 0, 0, 0⟩))).hvac_mode =
      demo_state.hvac_mode ∧
    (process_inbound_message demo_board demo_state
        (delivered demo_state.mbox_local_buf (frame_of demo_id ⟨7, 25, 0, 0, 0⟩))).enqueued =
      demo_state.enqueued ∧
    (frame_of demo_id ⟨768, 25, 0, 0, 0⟩).drop 20 =
      [0, 3, 0, 0, 25, 0, 0, 0, 0, 0, 0, 0, 0, 0, 0, 0, 0, 0, 0, 0] ∧
    enum8_at (delivered demo_state.mbox_local_buf
        (frame_of demo_id ⟨768, 25, 0, 0, 0⟩)).dest payloadStart = IC_UNKNOWN ∧
    (process_inbound_message demo_board demo_state
        (delivered demo_state.mbox_local_buf
          (frame_of demo_id ⟨768, 25, 0, 0, 0⟩))).hvac_mode = demo_state.hvac_mode :=
  ⟨by decide,
    (process_inbound_message_unrecognized demo_board demo_state
      (delivered demo_state.mbox_local_buf (frame_of demo_id ⟨7, 25, 0, 0, 0⟩))
      (by decide) (by decide)).2.2.1,
    (process_inbound_message_unrecognized demo_board demo_state
      (delivered demo_state.mbox_local_buf (frame_of demo_id ⟨7, 25, 0, 0, 0⟩))
      (by decide) (by decide)).2.2.2.2.2.2,
    by decide, by decide,
    (process_inbound_message_unrecognized demo_board demo_state
      (delivered demo_state.mbox_local_buf (frame_of demo_id ⟨768, 25, 0, 0, 0⟩))
      (by decide) (by decide)).2.2.1⟩

/-- C10, as stated, fails: frames shorter than the fixed frame length 40 are processed when
they are longer than the preamble.  A 24-byte frame that ends after the command word
`IC_READ_SENSOR` makes the controller send its block, and a 28-byte frame that ends after the
temperature of an `IC_TARGET_TEMPERATURE` command sets the target. -/
theorem short_frame_is_processed :
    (short_read_frame.length = 24 ∧
      (process_inbound_message demo_board demo_start
        (delivered demo_start.mbox_local_buf short_read_frame)).enqueued =
        [demo_id ++ block_bytes demo_start.ic_outbound_data]) ∧
    (short_target_frame.length = 28 ∧
      demo_start.hvac_mode = ⟨0, 0, false, 0, 0⟩ ∧
      (process_inbound_message demo_board demo_start
        (delivered demo_start.mbox_local_buf short_target_frame)).hvac_mode =
        ⟨0, 25, true, HVAC_MODE_HEATING, HVAC_MODE_HEATING⟩ ∧
      (process_inbound_message demo_board demo_start
        (delivered demo_start.mbox_local_buf short_target_frame)).gpio_writes =
        demo_start.gpio_writes ++ [(0, true), (8, false)]) := by
  decide

end BareMetal

/-! ## Both real-time applications -/

/-- C7: with a target set, the last thing `set_hvac_operating_mode (t)` does, in the bare-metal
and in the Azure RTOS application, is to drive one indicator pin low (lit): the red LED
`ledRgb[0]` when t is below the target, the green LED `ledRgb[1]` when t equals the target and
the blue LED `ledRgb[2]` when t is above it. -/
theorem indicator_colour_mapping (bb : BareMetal.Board) (sb : BareMetal.State)
    (br : Rtos.Board) (sr : Rtos.State) (t : Int)
    (hb : sb.hvac_mode.target_temperature_set = true)
    (hr : sr.hvac_mode.target_temperature_set = true) :
    ((t < sb.hvac_mode.target_temperature →
        (BareMetal.set_hvac_operating_mode bb sb t).gpio_writes.getLast? =
          some (BareMetal.ledRgb bb 0, false) ∧
        gpio_output (BareMetal.set_hvac_operating_mode bb sb t).gpio_writes bb.LED_RED =
          some false) ∧
      (t = sb.hvac_mode.target_temperature →
        (BareMetal.set_hvac_operating_mode bb sb t).gpio_writes.getLast? =
          some (BareMetal.ledRgb bb 1, false) ∧
        gpio_output (BareMetal.set_hvac_operating_mode bb sb t).gpio_writes bb.LED_GREEN =
          some false) ∧
      (t > sb.hvac_mode.target_temperature →
        (BareMetal.set_hvac_operating_mode bb sb t).gpio_writes.getLast? =
          some (BareMetal.ledRgb bb 2, false) ∧
        gpio_output (BareMetal.set_hvac_operating_mode bb sb t).gpio_writes bb.LED_BLUE =
          some false) ∧
      BareMetal.ledRgb bb 0 = bb.LED_RED ∧ BareMetal.ledRgb bb 1 = bb.LED_GREEN ∧
      BareMetal.ledRgb bb 2 = bb.LED_BLUE) ∧
    ((t < sr.hvac_mode.target_temperature →
        (Rtos.set_hvac_operating_mode br sr t).gpio_writes.getLast? =
          some (Rtos.ledRgb br 0, false) ∧
        gpio_output (Rtos.set_hvac_operating_mode br sr t).gpio_writes br.OS_HAL_GPIO_8 =
          some false) ∧
      (t = sr.hvac_mode.target_temperature →
        (Rtos.set_hvac_operating_mode br sr t).gpio_writes.getLast? =
          some (Rtos.ledRgb br 1, false) ∧
        gpio_output (Rtos.set_hvac_operating_mode br sr t).gpio_writes br.OS_HAL_GPIO_9 =
          some false) ∧
      (t > sr.hvac_mode.target_temperature →
        (Rtos.set_hvac_operating_mode br sr t).gpio_writes.getLast? =
          some (Rtos.ledRgb br 2, false) ∧
        gpio_output (Rtos.set_hvac_operating_mode br sr t).gpio_writes br.OS_HAL_GPIO_10 =
          some false) ∧
      Rtos.ledRgb br 0 = br.OS_HAL_GPIO_8 ∧ Rtos.ledRgb br 1 = br.OS_HAL_GPIO_9 ∧
      Rtos.ledRgb br 2 = br.OS_HAL_GPIO_10) := by
  obtain ⟨wb, hwb⟩ := BareMetal.set_hvac_operating_mode_last_write bb sb t hb
  obtain ⟨wr, hwr⟩ := Rtos.rtos_set_hvac_operating_mode_last_write br sr t hr
  rw [hwb, hwr]
  refine ⟨⟨?_, ?_, ?_, rfl, rfl, rfl⟩, ⟨?_, ?_, ?_, rfl, rfl, rfl⟩⟩
  · intro h
    have h1 : t ≠ sb.hvac_mode.target_temperature := ne_of_lt h
    have h2 : ¬ t > sb.hvac_mode.target_temperature := not_lt.mpr (le_of_lt h)
    rw [if_neg h1, if_neg h2]
    exact ⟨BareMetal.getLast_append_singleton _ _, BareMetal.gpio_output_last _ _ _⟩
  · intro h
    rw [if_pos h]
    exact ⟨BareMetal.getLast_append_singleton _ _, BareMetal.gpio_output_last _ _ _⟩
  · intro h
    have h1 : t ≠ sb.hvac_mode.target_temperature := ne_of_gt h
    rw [if_neg h1, if_pos h]
    exact ⟨BareMetal.getLast_append_singleton _ _, BareMetal.gpio_output_last _ _ _⟩
  · intro h
    have h1 : t ≠ sr.hvac_mode.target_temperature := ne_of_lt h
    have h2 : ¬ t > sr.hvac_mode.target_temperature := not_lt.mpr (le_of_lt h)
    rw [if_neg h1, if_neg h2]
    exact ⟨BareMetal.getLast_append_singleton _ _, BareMetal.gpio_output_last _ _ _⟩
  · intro h
    rw [if_pos h]
    exact ⟨BareMetal.getLast_append_singleton _ _, BareMetal.gpio_output_last _ _ _⟩
  · intro h
    have h1 : t ≠ sr.hvac_mode.target_temperature := ne_of_gt h
    rw [if_neg h1, if_pos h]
    exact ⟨BareMetal.getLast_append_singleton _ _, BareMetal.gpio_output_last _ _ _⟩

/-- Witness of C7: target 22 and sample 22 light the green LED (pin 9) in both
applications. -/
theorem indicator_colour_mapping_witness :
    (BareMetal.demo_state.hvac_mode.target_temperature = 22 ∧
      Rtos.demo_state.hvac_mode.target_temperature = 22) ∧
    ((BareMetal.set_hvac_operating_mode BareMetal.demo_board BareMetal.demo_state
        22).gpio_writes.getLast? = some (BareMetal.ledRgb BareMetal.demo_board 1, false) ∧
      gpio_output (BareMetal.set_hvac_operating_mode BareMetal.demo_board BareMetal.demo_state
        22).gpio_writes 9 = some false) ∧
    ((Rtos.set_hvac_operating_mode Rtos.demo_board Rtos.demo_state 22).gpio_writes.getLast? =
        some (Rtos.ledRgb Rtos.demo_board 1, false) ∧
      gpio_output (Rtos.set_hvac_operating_mode Rtos.demo_board Rtos.demo_state
        22).gpio_writes 9 = some false) :=
  ⟨⟨by decide, by decide⟩,
    (indicator_colour_mapping BareMetal.demo_board BareMetal.demo_state Rtos.demo_board
      Rtos.demo_state 22 (by decide) (by decide)).1.2.1 (by decide),
    (indicator_colour_mapping BareMetal.demo_board BareMetal.demo_state Rtos.demo_board
      Rtos.demo_state 22 (by decide) (by decide)).2.2.1 (by decide)⟩


/-- C4, evaluated on the Azure RTOS code: the dispatch of `intercore_thread` has no range
check.  A controller with the target 22 that receives a frame with the command
`IC_TARGET_TEMPERATURE` and the temperature 90 stores 90 as its target and sets the mode
again (one more indicator output is written). -/
theorem rtos_target_90_is_accepted :
    Rtos.demo_state.hvac_mode = ⟨0, 22, true, HVAC_MODE_HEATING, HVAC_MODE_HEATING⟩ ∧
    (block_at (delivered Rtos.demo_state.buf (target_frame 90)).dest
        Rtos.payloadStart).temperature = 90 ∧
    (Rtos.intercore_thread_body Rtos.demo_board Rtos.demo_state
        (delivered Rtos.demo_state.buf (target_frame 90))).1.hvac_mode =
      ⟨0, 90, true, HVAC_MODE_HEATING, HVAC_MODE_HEATING⟩ ∧
    (Rtos.intercore_thread_body Rtos.demo_board Rtos.demo_state
        (delivered Rtos.demo_state.buf (target_frame 90))).1.gpio_writes =
      Rtos.demo_state.gpio_writes ++ [(8, false)] := by
  decide

/-- C10, amended: a failed dequeue, or a dequeued frame that is not longer than the 20-byte
preamble, is discarded.  In the bare-metal application the controller record, the outbound
block and the indicator outputs stay as they were and nothing is handed to `EnqueueData`; the
same holds in the Azure RTOS application, whose drain loop then stops. -/
theorem frame_without_payload_is_discarded (bb : BareMetal.Board) (sb : BareMetal.State)
    (br : Rtos.Board) (sr : Rtos.State) (d : Dequeued)
    (h : d.result ≠ 0 ∨ d.dataSize ≤ 20) :
    ((BareMetal.process_inbound_message bb sb d).hvac_mode = sb.hvac_mode ∧
      (BareMetal.process_inbound_message bb sb d).ic_outbound_data = sb.ic_outbound_data ∧
      (BareMetal.process_inbound_message bb sb d).gpio_writes = sb.gpio_writes ∧
      (BareMetal.process_inbound_message bb sb d).ledRgb_reads = sb.ledRgb_reads ∧
      (BareMetal.process_inbound_message bb sb d).enqueued = sb.enqueued) ∧
    ((Rtos.intercore_thread_body br sr d).1.hvac_mode = sr.hvac_mode ∧
      (Rtos.intercore_thread_body br sr d).1.enviroment_control_block =
        sr.enviroment_control_block ∧
      (Rtos.intercore_thread_body br sr d).1.ic_control_block = sr.ic_control_block ∧
      (Rtos.intercore_thread_body br sr d).1.gpio_writes = sr.gpio_writes ∧
      (Rtos.intercore_thread_body br sr d).1.ledRgb_reads = sr.ledRgb_reads ∧
      (Rtos.intercore_thread_body br sr d).1.enqueued = sr.enqueued ∧
      (Rtos.intercore_thread_body br sr d).2 = false) := by
  have hb : ¬ (d.result = 0 ∧ d.dataSize > BareMetal.payloadStart) := by
    rintro ⟨h0, hl⟩
    rcases h with h | h
    · exact h h0
    · exact absurd hl (not_lt.mpr h)
  constructor
  · rw [BareMetal.process_inbound_message_of_no_payload bb sb d hb]
    exact ⟨rfl, rfl, rfl, rfl, rfl⟩
  · simp only [Rtos.intercore_thread_body]
    rw [if_neg hb]
    exact ⟨rfl, rfl, rfl, rfl, rfl, rfl, rfl⟩

/-- Witness of the amended C10: a frame that consists of the 20-byte preamble only. -/
theorem frame_without_payload_is_discarded_witness :
    (delivered BareMetal.demo_state.mbox_local_buf demo_id).dataSize = 20 ∧
    (BareMetal.process_inbound_message BareMetal.demo_board BareMetal.demo_state
        (delivered BareMetal.demo_state.mbox_local_buf demo_id)).hvac_mode =
      BareMetal.demo_state.hvac_mode ∧
    (Rtos.intercore_thread_body Rtos.demo_board Rtos.demo_state
        (delivered BareMetal.demo_state.mbox_local_buf demo_id)).2 = false :=
  ⟨by decide,
    (frame_without_payload_is_discarded BareMetal.demo_board BareMetal.demo_state
      Rtos.demo_board Rtos.demo_state (delivered BareMetal.demo_state.mbox_local_buf demo_id)
      (Or.inr (by decide))).1.1,
    (frame_without_payload_is_discarded BareMetal.demo_board BareMetal.demo_state
      Rtos.demo_board Rtos.demo_state (delivered BareMetal.demo_state.mbox_local_buf demo_id)
      (Or.inr (by decide))).2.2.2.2.2.2.2⟩

/-! ## The message contract -/

/-- C11: a block `b` travels through a frame unchanged.  `send_intercore_msg` of the Azure RTOS
application, whatever its buffer held before, hands to `EnqueueData` the frame made of the
first 20 bytes of the buffer and the bytes of `b`, of length 20 + sizeof (INTERCORE_BLOCK); the
block read at offset 20 of that frame is `b`, and it is what the receiving dispatch copies
into `ic_control_block` (and what the bare-metal application sees behind `ic_inbound_data`),
whatever the receiving buffer held before. -/
theorem block_round_trip (br : Rtos.Board) (s r : Rtos.State) (sb : BareMetal.State)
    (b : INTERCORE_BLOCK) (prior : List Nat)
    (hb : block_is_int32 b)
    (hbuf : Rtos.payloadStart + sizeof_INTERCORE_BLOCK ≤ s.buf.length) :
    (Rtos.send_intercore_msg { s with enviroment_control_block := b }).enqueued =
        s.enqueued ++ [s.buf.take Rtos.payloadStart ++ block_bytes b] ∧
      (s.buf.take Rtos.payloadStart ++ block_bytes b).length =
        Rtos.payloadStart + sizeof_INTERCORE_BLOCK ∧
      block_at (s.buf.take Rtos.payloadStart ++ block_bytes b) Rtos.payloadStart = b ∧
      (Rtos.intercore_thread_body br r
        (delivered prior (s.buf.take Rtos.payloadStart ++ block_bytes b))).1.ic_control_block
        = b ∧
      BareMetal.ic_inbound_data
        { sb with mbox_local_buf :=
          (delivered prior (s.buf.take Rtos.payloadStart ++ block_bytes b)).dest } = b := by
  have h20 : Rtos.payloadStart ≤ s.buf.length := le_trans (Nat.le_add_right _ _) hbuf
  have ht : (s.buf.take 20).length = 20 := by
    rw [List.length_take]; exact Nat.min_eq_left h20
  have hl : (block_bytes b).length = 20 := by simp [block_bytes, int32_bytes]
  have hlen : (s.buf.take 20 ++ block_bytes b).length = 40 := by
    rw [List.length_append, ht, hl]
  have hdest : ∀ post : List Nat,
      block_at (s.buf.take 20 ++ block_bytes b ++ post) 20 = b :=
    fun post => block_at_frame _ post b ht hb
  have hdel : (delivered prior (s.buf.take 20 ++ block_bytes b)).dest =
      s.buf.take 20 ++ block_bytes b ++ prior.drop 40 := by
    simp only [delivered, memcpy, List.take_zero, List.nil_append, Nat.zero_add, hlen]
  refine ⟨Rtos.rtos_send_intercore_msg_enqueued _ h20, hlen, ?_, ?_, ?_⟩
  · have := hdest []
    rwa [List.append_nil] at this
  · rw [Rtos.rtos_intercore_thread_body_copy br r _ rfl
      (by show (s.buf.take 20 ++ block_bytes b).length > 20; rw [hlen]; decide), hdel]
    exact hdest _
  · show block_at (delivered prior (s.buf.take 20 ++ block_bytes b)).dest 20 = b
    rw [hdel]
    exact hdest _

/-- Witness of C11: a block with a negative temperature sent by the zero-initialised Azure RTOS
controller and received into a buffer that held other bytes. -/
theorem block_round_trip_witness :
    block_is_int32 ⟨1, -5, 1013, 45, 3⟩ ∧
    block_bytes ⟨1, -5, 1013, 45, 3⟩ =
      [1, 0, 0, 0, 251, 255, 255, 255, 245, 3, 0, 0, 45, 0, 0, 0, 3, 0, 0, 0] ∧
    (Rtos.intercore_thread_body Rtos.demo_board Rtos.zero_state
      (delivered (List.replicate 256 170)
        (Rtos.zero_state.buf.take Rtos.payloadStart ++
          block_bytes ⟨1, -5, 1013, 45, 3⟩))).1.ic_control_block = ⟨1, -5, 1013, 45, 3⟩ :=
  ⟨by decide, by decide,
    (block_round_trip Rtos.demo_board Rtos.zero_state Rtos.zero_state BareMetal.demo_state
      ⟨1, -5, 1013, 45, 3⟩ (List.replicate 256 170) (by decide)
      (by simp only [Rtos.zero_state, List.length_replicate]; decide)).2.2.2.1⟩

/-! ## The bridge on the high-level core -/

/-- C12: in Lab_07 and Lab_03, when the device is connected and `env.updated` is true,
`publish_telemetry_handler` takes the telemetry path (the message id is consumed and, if the
serialisation succeeds, the telemetry is published and `update_device_twins` is called) iff
-20 <= temperature <= 50, 800 <= pressure <= 1200 and 0 <= humidity <= 100, and it does what
`report_faulty_sensor` does iff some value is outside its range.  The Lab_03 handler returns
what the Lab_07 handler returns. -/
theorem publish_telemetry_handler_validity (s : HighLevel.State) (serialized : Bool)
    (now : Int) (hu : s.env.updated = true) :
    (HighLevel.in_validity_ranges s.env.latest →
        Lab07.publish_telemetry_handler s 0 true serialized now =
          if serialized then
            Lab07.update_device_twins
              { s with
                msgId := s.msgId + 1
                events := s.events ++
                  [.publish_telemetry s.msgId s.env.latest.temperature s.env.latest.pressure
                    s.env.latest.humidity] } now
          else
            { s with
              msgId := s.msgId + 1
              events := s.events ++ [.terminate .APP_ExitCode_Telemetry_Buffer_Too_Small] }) ∧
      (¬ HighLevel.in_validity_ranges s.env.latest →
        Lab07.publish_telemetry_handler s 0 true serialized now =
          Lab07.report_faulty_sensor s serialized) ∧
      ((Lab07.publish_telemetry_handler s 0 true serialized now).msgId = s.msgId + 1 ↔
        HighLevel.in_validity_ranges s.env.latest) ∧
      (Lab07.publish_telemetry_handler s 0 true serialized now =
          Lab07.report_faulty_sensor s serialized ↔
        ¬ HighLevel.in_validity_ranges s.env.latest) ∧
      Lab03.publish_telemetry_handler s 0 true serialized now =
        Lab07.publish_telemetry_handler s 0 true serialized now ∧
      Lab03.report_faulty_sensor s serialized = Lab07.report_faulty_sensor s serialized := by
  have hfault : ¬ HighLevel.in_validity_ranges s.env.latest →
      Lab07.publish_telemetry_handler s 0 true serialized now =
        Lab07.report_faulty_sensor s serialized := by
    intro hv
    have hc := (HighLevel.fault_condition_iff s.env.latest).mpr hv
    simp only [Lab07.publish_telemetry_handler, hu]
    rw [if_pos hc]
    simp
  have hvalid : HighLevel.in_validity_ranges s.env.latest →
      Lab07.publish_telemetry_handler s 0 true serialized now =
        if serialized then
          Lab07.update_device_twins
            { s with
              msgId := s.msgId + 1
              events := s.events ++
                [.publish_telemetry s.msgId s.env.latest.temperature s.env.latest.pressure
                  s.env.latest.humidity] } now
        else
          { s with
            msgId := s.msgId + 1
            events := s.events ++ [.terminate .APP_ExitCode_Telemetry_Buffer_Too_Small] } := by
    intro hv
    have hc : ¬ ((!HighLevel.IN_RANGE s.env.latest.temperature (-20) 50 ||
        !HighLevel.IN_RANGE s.env.latest.pressure 800 1200 ||
        !HighLevel.IN_RANGE s.env.latest.humidity 0 100) = true) :=
      fun h => (HighLevel.fault_condition_iff s.env.latest).mp h hv
    simp only [Lab07.publish_telemetry_handler, hu]
    rw [if_neg hc]
    simp
  have hid : HighLevel.in_validity_ranges s.env.latest →
      (Lab07.publish_telemetry_handler s 0 true serialized now).msgId = s.msgId + 1 := by
    intro hv
    rw [hvalid hv]
    cases serialized
    · rfl
    · exact (Lab07.update_device_twins_frame _ now).2.1
  have hfid : (Lab07.report_faulty_sensor s serialized).msgId = s.msgId := by
    cases serialized <;> rfl
  refine ⟨hvalid, hfault, ⟨fun h => ?_, hid⟩, ⟨fun h => ?_, hfault⟩, rfl, rfl⟩
  · by_contra hv
    rw [hfault hv, hfid] at h
    omega
  · intro hv
    have := hid hv
    rw [h, hfid] at this
    omega

/-- Witness of C12: the bounds are inclusive.  With the temperatures -20 and 50 the Lab_07
handler publishes telemetry, with -21 and 51 it publishes the sensor error; likewise for the
pressures 800, 1200, 799, 1201 and the humidities 0, 100, -1, 101. -/
theorem publish_telemetry_handler_validity_witness :
    ((Lab07.publish_telemetry_handler (Lab07.received (-20) 800 0) 0 true true 0).events =
        [.publish_telemetry 0 (-20) 800 0] ∧
      (Lab07.publish_telemetry_handler (Lab07.received 50 1200 100) 0 true true 0).events =
        [.publish_telemetry 0 50 1200 100] ∧
      (Lab07.publish_telemetry_handler (Lab07.received (-21) 1000 50) 0 true true 0).events =
        [.publish_sensor_error (-21) 1000 50] ∧
      (Lab07.publish_telemetry_handler (Lab07.received 51 1000 50) 0 true true 0).events =
        [.publish_sensor_error 51 1000 50] ∧
      (Lab07.publish_telemetry_handler (Lab07.received 22 799 50) 0 true true 0).events =
        [.publish_sensor_error 22 799 50] ∧
      (Lab07.publish_telemetry_handler (Lab07.received 22 1201 50) 0 true true 0).events =
        [.publish_sensor_error 22 1201 50] ∧
      (Lab07.publish_telemetry_handler (Lab07.received 22 1000 (-1)) 0 true true 0).events =
        [.publish_sensor_error 22 1000 (-1)] ∧
      (Lab07.publish_telemetry_handler (Lab07.received 22 1000 101) 0 true true 0).events =
        [.publish_sensor_error 22 1000 101]) ∧
    (Lab07.received 22 1013 45).env.updated = true ∧
    ((Lab07.publish_telemetry_handler (Lab07.received 22 1013 45) 0 true true 20000).msgId =
        (Lab07.received 22 1013 45).msgId + 1 ↔
      HighLevel.in_validity_ranges (Lab07.received 22 1013 45).env.latest) :=
  ⟨by decide, by decide,
    (publish_telemetry_handler_validity (Lab07.received 22 1013 45) true 20000
      (by decide)).2.2.1⟩

/-- C13, evaluated on the Lab_01 code: the handler joins the three negated range tests with
`&&`, so it withholds a sample only when all three values are out of range.  The sample
(60, 1000, 50), whose temperature is above 50, is published as normal telemetry, and so is
(60, 700, 50); only a sample such as (60, 700, 101) is withheld. -/
theorem lab01_publishes_out_of_range_sample :
    ¬ HighLevel.in_validity_ranges (Lab07.received 60 1000 50).env.latest ∧
    (Lab01.publish_telemetry_handler (Lab07.received 60 1000 50) 0 true true).events =
      [.publish_telemetry 0 60 1000 50] ∧
    (Lab01.publish_telemetry_handler (Lab07.received 60 700 50) 0 true true).events =
      [.publish_telemetry 0 60 700 50] ∧
    (Lab01.publish_telemetry_handler (Lab07.received 60 700 101) 0 true true).events = [] := by
  decide

/-- C14: the receive handler of Lab_07, given a block with the command `IC_READ_SENSOR`,
stores the block's temperature, pressure and humidity in `env.latest` and its operating mode
in `env.latest_operating_mode` and sets `env.updated`, whatever the values are; the previous
values and everything outside `env` stay as they were.  Given a block with any other command
it returns the state unchanged. -/
theorem receive_handler_mirrors_block (s : HighLevel.State) (blk : INTERCORE_BLOCK) :
    (blk.cmd = IC_READ_SENSOR →
        (Lab07.intercore_environment_receive_msg_handler s blk).env =
          { latest := ⟨blk.temperature, blk.pressure, blk.humidity⟩
            previous := s.env.previous
            updated := true
            latest_operating_mode := blk.operating_mode
            previous_operating_mode := s.env.previous_operating_mode } ∧
        Lab07.intercore_environment_receive_msg_handler s blk =
          { s with env := (Lab07.intercore_environment_receive_msg_handler s blk).env }) ∧
      (blk.cmd ≠ IC_READ_SENSOR →
        Lab07.intercore_environment_receive_msg_handler s blk = s) := by
  constructor
  · intro h
    unfold Lab07.intercore_environment_receive_msg_handler
    rw [if_pos h]
    exact ⟨rfl, rfl⟩
  · intro h
    unfold Lab07.intercore_environment_receive_msg_handler
    rw [if_neg h]

/-- Witness of C14: a block whose values are out of range is mirrored all the same, and a
block with the command `IC_TARGET_TEMPERATURE` is ignored. -/
theorem receive_handler_mirrors_block_witness :
    (Lab07.intercore_environment_receive_msg_handler (Lab07.received 22 1013 45)
        ⟨IC_READ_SENSOR, 60, 700, 101, HVAC_MODE_COOLING⟩).env =
      ⟨⟨60, 700, 101⟩, ⟨2147483647, 2147483647, 2147483647⟩, true,
        HVAC_MODE_COOLING, 0⟩ ∧
    Lab07.intercore_environment_receive_msg_handler (Lab07.received 22 1013 45)
        ⟨IC_TARGET_TEMPERATURE, 60, 700, 101, HVAC_MODE_COOLING⟩ =
      Lab07.received 22 1013 45 :=
  ⟨((receive_handler_mirrors_block (Lab07.received 22 1013 45)
      ⟨IC_READ_SENSOR, 60, 700, 101, HVAC_MODE_COOLING⟩).1 (by decide)).1,
    (receive_handler_mirrors_block (Lab07.received 22 1013 45)
      ⟨IC_TARGET_TEMPERATURE, 60, 700, 101, HVAC_MODE_COOLING⟩).2 (by decide)⟩

/-- C15, as stated, fails: after the Lab_07 handler has processed the sample (60, 1000, 50)
on the fault path, and after it has processed the sample (22, 1013, 45) on the telemetry path,
`env.updated` is still true, and the next tick processes the same sample again. -/
theorem updated_flag_is_not_cleared :
    (Lab07.publish_telemetry_handler (Lab07.received 60 1000 50) 0 true true 20000).events =
      [.publish_sensor_error 60 1000 50] ∧
    (Lab07.publish_telemetry_handler (Lab07.received 60 1000 50) 0 true true
      20000).env.updated = true ∧
    (Lab07.publish_telemetry_handler (Lab07.received 22 1013 45) 0 true true
      20000).env.updated = true ∧
    (Lab07.publish_telemetry_handler
      (Lab07.publish_telemetry_handler (Lab07.received 60 1000 50) 0 true true 20000)
      0 true true 25000).events =
      [.publish_sensor_error 60 1000 50, .publish_sensor_error 60 1000 50] := by
  decide

/-- C15, amended: `publish_telemetry_handler` of Lab_07 and of Lab_03 never changes
`env.updated`, nor the latest values: whatever path it takes, the flag and the sample are
afterwards what they were before. -/
theorem publish_telemetry_handler_keeps_updated (s : HighLevel.State) (consumed : Int)
    (connected serialized : Bool) (now : Int) :
    (Lab07.publish_telemetry_handler s consumed connected serialized now).env.updated =
        s.env.updated ∧
      (Lab07.publish_telemetry_handler s consumed connected serialized now).env.latest =
        s.env.latest ∧
      (Lab03.publish_telemetry_handler s consumed connected serialized now).env.updated =
        s.env.updated ∧
      (Lab03.publish_telemetry_handler s consumed connected serialized now).env.latest =
        s.env.latest := by
  have h7 : (Lab07.publish_telemetry_handler s consumed connected serialized now).env.updated =
        s.env.updated ∧
      (Lab07.publish_telemetry_handler s consumed connected serialized now).env.latest =
        s.env.latest := by
    simp only [Lab07.publish_telemetry_handler, Lab07.report_faulty_sensor]
    split_ifs
    all_goals first
      | exact ⟨(Lab07.update_device_twins_frame _ now).2.2.1,
          (Lab07.update_device_twins_frame _ now).2.2.2.1⟩
      | exact ⟨rfl, rfl⟩
  exact ⟨h7.1, h7.2, h7.1, h7.2⟩

/-- C16, as stated, fails: the receive handler of Lab_07 copies the operating mode as it is.  A
block with the operating-mode integer 7 leaves 7, not `HVAC_MODE_UNKNOWN`, in
`env.latest_operating_mode`. -/
theorem unknown_mode_is_not_normalised :
    (Lab07.intercore_environment_receive_msg_handler HighLevel.zero_state
      ⟨IC_READ_SENSOR, 22, 1013, 45, 7⟩).env.latest_operating_mode = 7 ∧
    (7 : Int) ≠ HVAC_MODE_UNKNOWN := by
  decide

/-- C16, amended: the receive handler of Lab_07 mirrors the operating-mode integer of an
`IC_READ_SENSOR` block unchanged, whatever its value; a block whose command integer is
outside {0, 1, 2} is handled like one with the command `IC_UNKNOWN`: the state stays as it
was. -/
theorem receive_handler_enum_values (s : HighLevel.State) (blk : INTERCORE_BLOCK) :
    (blk.cmd = IC_READ_SENSOR →
        (Lab07.intercore_environment_receive_msg_handler s blk).env.latest_operating_mode =
          blk.operating_mode) ∧
      (blk.cmd ≠ IC_UNKNOWN ∧ blk.cmd ≠ IC_READ_SENSOR ∧
          blk.cmd ≠ IC_TARGET_TEMPERATURE →
        Lab07.intercore_environment_receive_msg_handler s blk = s ∧
        Lab07.intercore_environment_receive_msg_handler s blk =
          Lab07.intercore_environment_receive_msg_handler s { blk with cmd := IC_UNKNOWN }) := by
  constructor
  · intro h
    unfold Lab07.intercore_environment_receive_msg_handler
    rw [if_pos h]
  · rintro ⟨_, h1, _⟩
    have h0 : ¬ (IC_UNKNOWN = IC_READ_SENSOR) := by decide
    unfold Lab07.intercore_environment_receive_msg_handler
    rw [if_neg h1]
    exact ⟨rfl, (if_neg h0).symm⟩

/-- Witness of the amended C16: the operating-mode integer 7 and the command integer 9. -/
theorem receive_handler_enum_values_witness :
    (Lab07.intercore_environment_receive_msg_handler HighLevel.zero_state
      ⟨IC_READ_SENSOR, 22, 1013, 45, 7⟩).env.latest_operating_mode = 7 ∧
    Lab07.intercore_environment_receive_msg_handler HighLevel.zero_state
      ⟨9, 22, 1013, 45, 7⟩ = HighLevel.zero_state :=
  ⟨(receive_handler_enum_values HighLevel.zero_state ⟨IC_READ_SENSOR, 22, 1013, 45, 7⟩).1
      (by decide),
    ((receive_handler_enum_values HighLevel.zero_state ⟨9, 22, 1013, 45, 7⟩).2
      (by decide)).1⟩

/-- C17: the target gate of the high-level core.  `dt_set_target_temperature_handler` of
Lab_07 accepts the requested value v iff 0 <= v <= 50.  On acceptance `target_temperature`
becomes v, `intercore_block` gets the command `IC_TARGET_TEMPERATURE` and the temperature v,
that block is published once to the real-time core and the acknowledgement is COMPLETED; on
rejection the only effect is the acknowledgement ERROR.  The Lab_03 handler applies the same
gate and publishes nothing. -/
theorem target_temperature_gate (s : HighLevel.State) (v : Int) :
    ((0 ≤ v ∧ v ≤ 50) →
        Lab07.dt_set_target_temperature_handler s v =
          { s with
            target_temperature := v
            intercore_block :=
              { s.intercore_block with cmd := IC_TARGET_TEMPERATURE, temperature := v }
            events := s.events ++
              [.intercore_publish
                { s.intercore_block with cmd := IC_TARGET_TEMPERATURE, temperature := v }] ++
              [.twin_ack v .DX_DEVICE_TWIN_RESPONSE_COMPLETED] } ∧
        Lab03.dt_set_target_temperature_handler s v =
          { s with
            target_temperature := v
            events := s.events ++ [.twin_ack v .DX_DEVICE_TWIN_RESPONSE_COMPLETED] }) ∧
      (¬ (0 ≤ v ∧ v ≤ 50) →
        Lab07.dt_set_target_temperature_handler s v =
          { s with events := s.events ++ [.twin_ack v .DX_DEVICE_TWIN_RESPONSE_ERROR] } ∧
        Lab03.dt_set_target_temperature_handler s v =
          { s with events := s.events ++ [.twin_ack v .DX_DEVICE_TWIN_RESPONSE_ERROR] }) := by
  constructor
  · intro h
    have hr : HighLevel.IN_RANGE v 0 50 = true := (HighLevel.hl_IN_RANGE_iff v 0 50).mpr h
    unfold Lab07.dt_set_target_temperature_handler Lab03.dt_set_target_temperature_handler
    dsimp only
    rw [if_pos hr, if_pos hr]
    exact ⟨rfl, rfl⟩
  · intro h
    have hr : ¬ HighLevel.IN_RANGE v 0 50 = true :=
      fun hb => h ((HighLevel.hl_IN_RANGE_iff v 0 50).mp hb)
    unfold Lab07.dt_set_target_temperature_handler Lab03.dt_set_target_temperature_handler
    dsimp only
    rw [if_neg hr, if_neg hr]
    exact ⟨rfl, rfl⟩

/-- Witness of C17: the values 0, 50 and 22 are accepted, the values -1 and 51 rejected. -/
theorem target_temperature_gate_witness :
    ((Lab07.dt_set_target_temperature_handler HighLevel.zero_state 0).events =
        [.intercore_publish ⟨IC_TARGET_TEMPERATURE, 0, 0, 0, 0⟩,
          .twin_ack 0 .DX_DEVICE_TWIN_RESPONSE_COMPLETED] ∧
      (Lab07.dt_set_target_temperature_handler HighLevel.zero_state 50).events =
        [.intercore_publish ⟨IC_TARGET_TEMPERATURE, 50, 0, 0, 0⟩,
          .twin_ack 50 .DX_DEVICE_TWIN_RESPONSE_COMPLETED] ∧
      (Lab07.dt_set_target_temperature_handler HighLevel.zero_state (-1)).events =
        [.twin_ack (-1) .DX_DEVICE_TWIN_RESPONSE_ERROR]) ∧
    (Lab07.dt_set_target_temperature_handler (Lab07.received 22 1013 45) 22).target_temperature
      = 22 ∧
    Lab07.dt_set_target_temperature_handler (Lab07.received 22 1013 45) 51 =
      { Lab07.received 22 1013 45 with
        events := (Lab07.received 22 1013 45).events ++
          [.twin_ack 51 .DX_DEVICE_TWIN_RESPONSE_ERROR] } :=
  ⟨by decide,
    congrArg HighLevel.State.target_temperature
      ((target_temperature_gate (Lab07.received 22 1013 45) 22).1 (by decide)).1,
    ((target_temperature_gate (Lab07.received 22 1013 45) 51).2 (by decide)).1⟩

/-- C18, evaluated on the code of Lab_07 and Lab_03: `update_device_twins` compares the elapsed
time with `> 10000`.  The twins were synchronised at time 1700000000000 and the temperature
has changed from 22 to 23 since.  At time 1700000010000, exactly 10000 milliseconds later,
nothing is reported and the state stays as it was; one millisecond later the temperature twin
is reported. -/
theorem twins_not_reported_at_10000_ms :
    Lab07.resynchronised.previous_milliseconds = 1700000000000 ∧
    Lab07.resynchronised.env.previous.temperature = 22 ∧
    Lab07.resynchronised.env.latest.temperature = 23 ∧
    (1700000010000 : Int) - Lab07.resynchronised.previous_milliseconds ≥ 10000 ∧
    Lab07.update_device_twins Lab07.resynchronised 1700000010000 = Lab07.resynchronised ∧
    Lab03.update_device_twins Lab07.resynchronised 1700000010000 = Lab07.resynchronised ∧
    (Lab07.update_device_twins Lab07.resynchronised 1700000010001).events =
      Lab07.resynchronised.events ++ [.twin_report_int .dt_env_temperature 23] := by
  decide

/-- C19, evaluated on the code: when the first target is accepted `previous_led` is still
`HVAC_MODE_UNKNOWN`, so `set_hvac_operating_mode` reads `ledRgb[previous_led - 1]` at the
subscript -1 before it reads `ledRgb[current_led - 1]`.  This happens in the bare-metal
application after start-up and in the Azure RTOS application from the zero-initialised
state. -/
theorem ledRgb_is_read_at_minus_one :
    (BareMetal.process_inbound_message BareMetal.demo_board BareMetal.demo_start
      (delivered BareMetal.demo_start.mbox_local_buf (target_frame 22))).ledRgb_reads =
      [-1, 0] ∧
    (Rtos.intercore_thread_body Rtos.demo_board Rtos.zero_state
      (delivered Rtos.zero_state.buf (target_frame 22))).1.ledRgb_reads = [-1, 0] := by
  decide

/-- C20, as stated, fails: a refresh hands no frame to `EnqueueData`.  After the refresh of a
controller with a target, and after two refreshes from start-up, the send record is empty. -/
theorem refresh_data_enqueues_nothing :
    BareMetal.demo_state.hvac_mode.target_temperature_set = true ∧
    (BareMetal.refresh_data BareMetal.demo_board BareMetal.demo_state 7 63 5).enqueued = [] ∧
    (BareMetal.run BareMetal.demo_board BareMetal.demo_start
      [.refresh 7 63 5, .refresh 1 2 3]).enqueued = [] := by
  decide

/-- C20, amended: one refresh of the bare-metal application sets the command of
`ic_outbound_data` to `IC_READ_SENSOR`, stores the sample there, commits its temperature to
`hvac_mode.last_temperature` and sets the mode from it (Green, Cooling or Heating as the
sample is equal to, above or below the target, when a target is set; unchanged otherwise).
It hands no frame to `EnqueueData`. -/
theorem refresh_data_effect (b : BareMetal.Board) (s : BareMetal.State)
    (rand1 rand2 rand3 : Int) :
    (BareMetal.refresh_data b s rand1 rand2 rand3).ic_outbound_data.cmd = IC_READ_SENSOR ∧
      (BareMetal.refresh_data b s rand1 rand2 rand3).ic_outbound_data.temperature =
        15 + Int.tmod rand1 10 ∧
      (BareMetal.refresh_data b s rand1 rand2 rand3).ic_outbound_data.pressure =
        950 + Int.tmod rand2 100 ∧
      (BareMetal.refresh_data b s rand1 rand2 rand3).ic_outbound_data.humidity =
        40 + Int.tmod rand3 40 ∧
      (BareMetal.refresh_data b s rand1 rand2 rand3).hvac_mode.last_temperature =
        15 + Int.tmod rand1 10 ∧
      (s.hvac_mode.target_temperature_set = true →
        (BareMetal.refresh_data b s rand1 rand2 rand3).hvac_mode.current_led =
          (if 15 + Int.tmod rand1 10 = s.hvac_mode.target_temperature then HVAC_MODE_GREEN
            else if 15 + Int.tmod rand1 10 > s.hvac_mode.target_temperature then
              HVAC_MODE_COOLING
            else HVAC_MODE_HEATING) ∧
        (BareMetal.refresh_data b s rand1 rand2 rand3).ic_outbound_data.operating_mode =
          (BareMetal.refresh_data b s rand1 rand2 rand3).hvac_mode.current_led) ∧
      (s.hvac_mode.target_temperature_set = false →
        (BareMetal.refresh_data b s rand1 rand2 rand3).hvac_mode.current_led =
          s.hvac_mode.current_led ∧
        (BareMetal.refresh_data b s rand1 rand2 rand3).ic_outbound_data.operating_mode =
          s.ic_outbound_data.operating_mode) ∧
      (BareMetal.refresh_data b s rand1 rand2 rand3).enqueued = s.enqueued := by
  cases h : s.hvac_mode.target_temperature_set
  · rw [BareMetal.refresh_data_of_unset b s rand1 rand2 rand3 h]
    exact ⟨rfl, rfl, rfl, rfl, rfl, fun hc => absurd hc (by simp), fun _ => ⟨rfl, rfl⟩, rfl⟩
  · rw [BareMetal.refresh_data_of_set b s rand1 rand2 rand3 h,
      BareMetal.set_hvac_operating_mode_of_set _ _ _ rfl]
    exact ⟨rfl, rfl, rfl, rfl, rfl, fun _ => ⟨rfl, rfl⟩, fun hc => absurd hc (by simp), rfl⟩

/-- Witness of the amended C20: the controller with target 22 takes the sample
(18, 1013, 45), that is the `rand ()` results 3, 63 and 5, and turns to Heating. -/
theorem refresh_data_effect_witness :
    BareMetal.demo_state.hvac_mode.target_temperature = 22 ∧
    ((BareMetal.refresh_data BareMetal.demo_board BareMetal.demo_state 3 63
        5).hvac_mode.current_led =
      (if 15 + Int.tmod 3 10 = BareMetal.demo_state.hvac_mode.target_temperature then
        HVAC_MODE_GREEN
      else if 15 + Int.tmod 3 10 > BareMetal.demo_state.hvac_mode.target_temperature then
        HVAC_MODE_COOLING
      else HVAC_MODE_HEATING) ∧
    (BareMetal.refresh_data BareMetal.demo_board BareMetal.demo_state 3 63
        5).ic_outbound_data.operating_mode =
      (BareMetal.refresh_data BareMetal.demo_board BareMetal.demo_state 3 63
        5).hvac_mode.current_led) ∧
    (BareMetal.refresh_data BareMetal.demo_board BareMetal.demo_state 3 63
      5).hvac_mode.current_led = HVAC_MODE_HEATING :=
  ⟨by decide,
    (refresh_data_effect BareMetal.demo_board BareMetal.demo_state 3 63 5).2.2.2.2.2.1
      (by decide),
    by decide⟩

/-! ## The schedulers of the real-time applications -/

/-- C22, evaluated on the code: `task_scheduler` compares the counter with 2000 before it
increments it, so after a reset the counter has to pass through 0, 1, ..., 2000.  From the
start the trigger is set on tick 1, on none of the ticks 2 to 2001, and again on tick 2002:
consecutive triggers are 2001 ticks apart. -/
theorem refresh_trigger_period_is_2001 :
    BareMetal.sets_trigger BareMetal.scheduler_start = true ∧
    ((List.range 2000).all fun k =>
      !BareMetal.sets_trigger
        (BareMetal.task_scheduler_ticks BareMetal.scheduler_start (k + 1))) = true ∧
    BareMetal.sets_trigger
      (BareMetal.task_scheduler_ticks BareMetal.scheduler_start 2001) = true := by
  have h1 : (BareMetal.task_scheduler_ticks BareMetal.scheduler_start 1
      ).refresh_data_tick_counter = 0 := by decide
  have hk : ∀ k : Nat, k ≤ 2000 →
      (BareMetal.task_scheduler_ticks BareMetal.scheduler_start (k + 1)
        ).refresh_data_tick_counter = k := by
    intro k hk
    rw [Nat.add_comm k 1, BareMetal.task_scheduler_ticks_add]
    exact BareMetal.task_scheduler_ticks_counter _ h1 k hk
  refine ⟨by decide, ?_, ?_⟩
  · rw [List.all_eq_true]
    intro k hmem
    have hlt : k < 2000 := List.mem_range.mp hmem
    have hn : ¬ BareMetal.sets_trigger
        (BareMetal.task_scheduler_ticks BareMetal.scheduler_start (k + 1)) = true := by
      rw [(BareMetal.task_scheduler_step _).2, hk k (by omega)]
      omega
    simpa using hn
  · rw [(BareMetal.task_scheduler_step _).2, hk 2000 (by omega)]

/-- C23: in the Azure RTOS `timer_scheduler`, while `hardwareInitOK` is true, a tick that sets
the hardware (sensor) event flag is followed by 499 ticks that do not set it and then by one
that does, so consecutive sensor events are 500 ticks apart; likewise consecutive intercore
events are 25 ticks apart.  While `hardwareInitOK` is false a tick sets no flag and changes
nothing.  Here `timer_scheduler (timer_ticks t j)` is the tick that comes `j` ticks after the
tick `timer_scheduler t`. -/
theorem timer_scheduler_cadence (t : Rtos.Timer) :
    (t.hardwareInitOK = true →
        (Rtos.EventFlags.hardware_event_flags_0 ∈ (Rtos.timer_scheduler t).2 →
          (∀ j : Nat, 1 ≤ j → j < 500 →
            Rtos.EventFlags.hardware_event_flags_0 ∉
              (Rtos.timer_scheduler (Rtos.timer_ticks t j)).2) ∧
          Rtos.EventFlags.hardware_event_flags_0 ∈
            (Rtos.timer_scheduler (Rtos.timer_ticks t 500)).2) ∧
        (Rtos.EventFlags.Intercore_event_flags_0 ∈ (Rtos.timer_scheduler t).2 →
          (∀ j : Nat, 1 ≤ j → j < 25 →
            Rtos.EventFlags.Intercore_event_flags_0 ∉
              (Rtos.timer_scheduler (Rtos.timer_ticks t j)).2) ∧
          Rtos.EventFlags.Intercore_event_flags_0 ∈
            (Rtos.timer_scheduler (Rtos.timer_ticks t 25)).2)) ∧
      (t.hardwareInitOK = false → Rtos.timer_scheduler t = (t, [])) := by
  constructor
  · intro h
    have hstep := Rtos.timer_scheduler_step t h
    have h1ok : (Rtos.timer_ticks t 1).hardwareInitOK = true :=
      Rtos.timer_ticks_hardwareInitOK t h 1
    have hsplit : ∀ j : Nat, Rtos.timer_ticks t (j + 1) =
        Rtos.timer_ticks (Rtos.timer_ticks t 1) j := by
      intro j
      rw [Nat.add_comm j 1, Rtos.timer_ticks_add]
    have hok : ∀ j : Nat, (Rtos.timer_ticks t j).hardwareInitOK = true :=
      Rtos.timer_ticks_hardwareInitOK t h
    constructor
    · intro hfire
      have hc0 : (Rtos.timer_ticks t 1).readSensorTickCounter = 0 := by
        show (Rtos.timer_scheduler t).1.readSensorTickCounter = 0
        rw [hstep.2.1, if_pos (hstep.2.2.2.1.mp hfire)]
      have hcount : ∀ j : Nat, j ≤ 499 →
          (Rtos.timer_ticks t (j + 1)).readSensorTickCounter = j := by
        intro j hj
        rw [hsplit]
        exact Rtos.timer_ticks_readSensorTickCounter _ h1ok hc0 j hj
      constructor
      · intro j hj1 hj2
        obtain ⟨i, rfl⟩ : ∃ i, j = i + 1 := ⟨j - 1, by omega⟩
        rw [(Rtos.timer_scheduler_step _ (hok _)).2.2.2.1, hcount i (by omega)]
        have hm : (i + 1) % (SIZE_MAX + 1) = i + 1 :=
          Nat.mod_eq_of_lt (by show i + 1 < 4294967296; omega)
        rw [hm]
        omega
      · rw [(Rtos.timer_scheduler_step _ (hok _)).2.2.2.1, hcount 499 (by omega)]
        decide
    · intro hfire
      have hc0 : (Rtos.timer_ticks t 1).intercoreTickCounter = 0 := by
        show (Rtos.timer_scheduler t).1.intercoreTickCounter = 0
        rw [hstep.2.2.1, if_pos (hstep.2.2.2.2.mp hfire)]
      have hcount : ∀ j : Nat, j ≤ 24 →
          (Rtos.timer_ticks t (j + 1)).intercoreTickCounter = j := by
        intro j hj
        rw [hsplit]
        exact Rtos.timer_ticks_intercoreTickCounter _ h1ok hc0 j hj
      constructor
      · intro j hj1 hj2
        obtain ⟨i, rfl⟩ : ∃ i, j = i + 1 := ⟨j - 1, by omega⟩
        rw [(Rtos.timer_scheduler_step _ (hok _)).2.2.2.2, hcount i (by omega)]
        have hm : (i + 1) % (SIZE_MAX + 1) = i + 1 :=
          Nat.mod_eq_of_lt (by show i + 1 < 4294967296; omega)
        rw [hm]
        omega
      · rw [(Rtos.timer_scheduler_step _ (hok _)).2.2.2.2, hcount 24 (by omega)]
        decide
  · intro h
    unfold Rtos.timer_scheduler
    rw [if_neg (by rw [h]; decide)]

/-- Witness of C23: the timer variables 500 ticks after the start (sensor counter 499), whose
next tick sets the sensor flag, and variables with the intercore counter 24. -/
theorem timer_scheduler_cadence_witness :
    Rtos.EventFlags.hardware_event_flags_0 ∈ (Rtos.timer_scheduler ⟨true, 0, 499⟩).2 ∧
    Rtos.EventFlags.hardware_event_flags_0 ∈
      (Rtos.timer_scheduler (Rtos.timer_ticks ⟨true, 0, 499⟩ 500)).2 ∧
    Rtos.EventFlags.Intercore_event_flags_0 ∈
      (Rtos.timer_scheduler (Rtos.timer_ticks ⟨true, 24, 24⟩ 25)).2 ∧
    Rtos.timer_scheduler ⟨false, 7, 7⟩ = (⟨false, 7, 7⟩, []) :=
  ⟨by decide,
    (((timer_scheduler_cadence ⟨true, 0, 499⟩).1 rfl).1 (by decide)).2,
    (((timer_scheduler_cadence ⟨true, 24, 24⟩).1 rfl).2 (by decide)).2,
    (timer_scheduler_cadence ⟨false, 7, 7⟩).2 rfl⟩

/-- C30: in the Azure RTOS `timer_scheduler`, started with `readSensorTickCounter` at
`SIZE_MAX` and `hardwareInitOK` true, none of the first 500 ticks sets the hardware (sensor)
event flag and tick 501 sets it; the bare-metal `task_scheduler` sets `refresh_data_trigger`
on its first tick.  Here `timer_scheduler (timer_ticks timer_start n)` is tick `n + 1`. -/
theorem first_sensor_event :
    (∀ n : Nat, n < 500 →
        Rtos.EventFlags.hardware_event_flags_0 ∉
          (Rtos.timer_scheduler (Rtos.timer_ticks Rtos.timer_start n)).2) ∧
      Rtos.EventFlags.hardware_event_flags_0 ∈
        (Rtos.timer_scheduler (Rtos.timer_ticks Rtos.timer_start 500)).2 ∧
      BareMetal.sets_trigger BareMetal.scheduler_start = true := by
  have hok : ∀ j : Nat, (Rtos.timer_ticks Rtos.timer_start j).hardwareInitOK = true :=
    Rtos.timer_ticks_hardwareInitOK _ rfl
  have hc0 : (Rtos.timer_ticks Rtos.timer_start 1).readSensorTickCounter = 0 := by decide
  have hcount : ∀ j : Nat, j ≤ 499 →
      (Rtos.timer_ticks Rtos.timer_start (j + 1)).readSensorTickCounter = j := by
    intro j hj
    rw [Nat.add_comm j 1, Rtos.timer_ticks_add]
    exact Rtos.timer_ticks_readSensorTickCounter _ (hok 1) hc0 j hj
  refine ⟨?_, ?_, by decide⟩
  · intro n hn
    rw [(Rtos.timer_scheduler_step _ (hok _)).2.2.2.1]
    cases n with
    | zero => decide
    | succ i =>
      rw [hcount i (by omega)]
      have hm : (i + 1) % (SIZE_MAX + 1) = i + 1 :=
        Nat.mod_eq_of_lt (by show i + 1 < 4294967296; omega)
      rw [hm]
      omega
  · rw [(Rtos.timer_scheduler_step _ (hok _)).2.2.2.1, hcount 499 (by omega)]
    decide

/-- Witness of C30: the first and the 500th tick of the Azure RTOS timer. -/
theorem first_sensor_event_witness :
    Rtos.EventFlags.hardware_event_flags_0 ∉
        (Rtos.timer_scheduler (Rtos.timer_ticks Rtos.timer_start 0)).2 ∧
      Rtos.EventFlags.hardware_event_flags_0 ∉
        (Rtos.timer_scheduler (Rtos.timer_ticks Rtos.timer_start 499)).2 :=
  ⟨first_sensor_event.1 0 (by decide), first_sensor_event.1 499 (by decide)⟩

/-- C24, evaluated on the code: outside the local hours 1 to 5 `DeferredUpdateCalculate`
requests 10 minutes of deferral, not 15.  At the UTC hour 0 (local hour 10) it returns 10; over
the UTC hours 0 to 23 it returns 0 for the hours 15 to 19 and 10 for all others, whatever the
other arguments are. -/
theorem deferred_update_requests_10_minutes :
    Lab07.DeferredUpdateCalculate 60 0 0 0 = 10 ∧
    (List.range 24).map (fun h => Lab07.DeferredUpdateCalculate 60 0 0 (h : Nat)) =
      [10, 10, 10, 10, 10, 10, 10, 10, 10, 10, 10, 10, 10, 10, 10, 0, 0, 0, 0, 0,
        10, 10, 10, 10] ∧
    (List.range 24).map (fun h => Lab07.DeferredUpdateCalculate 5 1 2 (h : Nat)) =
      (List.range 24).map (fun h => Lab07.DeferredUpdateCalculate 60 0 0 (h : Nat)) := by
  decide

/-! ## The reported mode of the bare-metal controller -/

namespace BareMetal

/-- With a target set, a refresh of the `OEM_AVNET` build stores the sample and sets the mode
from it. -/
theorem refresh_data_avnet_of_set (b : Board) (s : State) (temperature pressure rand1 : Int)
    (h : s.hvac_mode.target_temperature_set = true) :
    refresh_data_avnet b s temperature pressure rand1 =
      set_hvac_operating_mode b
        { s with
          ic_outbound_data :=
            { cmd := IC_READ_SENSOR
              temperature := temperature
              pressure := pressure
              humidity := 40 + Int.tmod rand1 20
              operating_mode := s.ic_outbound_data.operating_mode }
          hvac_mode := { s.hvac_mode with
            last_temperature := temperature
            target_temperature_set := true } }
        temperature := by
  simp only [refresh_data_avnet, h]

/-- With a target set, `set_hvac_operating_mode` called with the outbound temperature
establishes the consistency of the reported mode. -/
theorem set_hvac_operating_mode_consistent (b : Board) (s : State)
    (hset : s.hvac_mode.target_temperature_set = true)
    (hlast : s.hvac_mode.last_temperature = s.ic_outbound_data.temperature) :
    mode_is_consistent (set_hvac_operating_mode b s s.hvac_mode.last_temperature) := by
  rw [set_hvac_operating_mode_of_set b s _ hset]
  refine ⟨hlast, rfl, fun h => absurd (hset.symm.trans h) (by simp), fun _ => ?_⟩
  show (if s.hvac_mode.last_temperature = s.hvac_mode.target_temperature then HVAC_MODE_GREEN
      else if s.hvac_mode.last_temperature > s.hvac_mode.target_temperature then
        HVAC_MODE_COOLING
      else HVAC_MODE_HEATING) = _
  rw [hlast]

/-- Every action of the main loop keeps the reported mode consistent. -/
theorem step_consistent (b : Board) (s : State) (i : Input) (hinv : mode_is_consistent s) :
    mode_is_consistent (step b s i) := by
  cases i with
  | refresh r1 r2 r3 =>
    show mode_is_consistent (refresh_data b s r1 r2 r3)
    cases hset : s.hvac_mode.target_temperature_set
    · rw [refresh_data_of_unset b s r1 r2 r3 hset]
      exact ⟨rfl, hinv.2.1, fun _ => hinv.2.2.1 hset,
        fun h => absurd (hset.symm.trans h) (by simp)⟩
    · rw [refresh_data_of_set b s r1 r2 r3 hset]
      exact set_hvac_operating_mode_consistent b _ rfl rfl
  | refresh_avnet t p r1 =>
    show mode_is_consistent (refresh_data_avnet b s t p r1)
    cases hset : s.hvac_mode.target_temperature_set
    · rw [refresh_data_avnet_of_unset b s t p r1 hset]
      exact ⟨rfl, hinv.2.1, fun _ => hinv.2.2.1 hset,
        fun h => absurd (hset.symm.trans h) (by simp)⟩
    · rw [refresh_data_avnet_of_set b s t p r1 hset]
      exact set_hvac_operating_mode_consistent b _ rfl rfl
  | inbound d =>
    show mode_is_consistent (process_inbound_message b s d)
    by_cases hp : d.result = 0 ∧ d.dataSize > payloadStart
    · by_cases h1 : (block_at d.dest payloadStart).cmd = IC_READ_SENSOR
      · rw [process_inbound_message_of_read b s d hp.1 hp.2 h1]
        exact hinv
      · by_cases h2 : (block_at d.dest payloadStart).cmd = IC_TARGET_TEMPERATURE
        · cases hR : IN_RANGE (block_at d.dest payloadStart).temperature (-20) 80
          · rw [process_inbound_message_of_rejected b s d h2 hR]
            exact hinv
          · rw [process_inbound_message_of_accepted b s d hp.1 hp.2 h2 hR]
            exact set_hvac_operating_mode_consistent b _ rfl hinv.1
        · rw [process_inbound_message_of_other b s d h1 h2]
          exact hinv
    · rw [process_inbound_message_of_no_payload b s d hp]
      exact hinv

/-- Every run of the main loop keeps the reported mode consistent. -/
theorem run_consistent (b : Board) (inputs : List Input) :
    ∀ s : State, mode_is_consistent s → mode_is_consistent (run b s inputs) := by
  induction inputs with
  | nil => intro s h; exact h
  | cons i rest ih =>
    intro s h
    exact ih (step b s i) (step_consistent b s i h)

end BareMetal

/-- C25: in every state that the bare-metal controller reaches from the zero-initialised
state (before or after `initialize_hardware`) by any sequence of refreshes and inbound
messages, `hvac_mode.last_temperature` equals `ic_outbound_data.temperature`,
`hvac_mode.previous_led` equals `hvac_mode.current_led`, and `ic_outbound_data.operating_mode`
is `HVAC_MODE_UNKNOWN` while no target is set and otherwise Green, Cooling or Heating as the
outbound temperature is equal to, above or below the target. -/
theorem reported_mode_consistent (b : BareMetal.Board) (len : Nat)
    (inputs : List BareMetal.Input) :
    ((BareMetal.run b (BareMetal.zero_state len) inputs).hvac_mode.last_temperature =
        (BareMetal.run b (BareMetal.zero_state len) inputs).ic_outbound_data.temperature ∧
      (BareMetal.run b (BareMetal.zero_state len) inputs).hvac_mode.previous_led =
        (BareMetal.run b (BareMetal.zero_state len) inputs).hvac_mode.current_led ∧
      ((BareMetal.run b (BareMetal.zero_state len) inputs).hvac_mode.target_temperature_set =
          false →
        (BareMetal.run b (BareMetal.zero_state len) inputs).ic_outbound_data.operating_mode =
          HVAC_MODE_UNKNOWN) ∧
      ((BareMetal.run b (BareMetal.zero_state len) inputs).hvac_mode.target_temperature_set =
          true →
        (BareMetal.run b (BareMetal.zero_state len) inputs).ic_outbound_data.operating_mode =
          (if (BareMetal.run b (BareMetal.zero_state len) inputs).ic_outbound_data.temperature =
              (BareMetal.run b (BareMetal.zero_state len) inputs).hvac_mode.target_temperature
            then HVAC_MODE_GREEN
          else if
              (BareMetal.run b (BareMetal.zero_state len) inputs).ic_outbound_data.temperature >
              (BareMetal.run b (BareMetal.zero_state len) inputs).hvac_mode.target_temperature
            then HVAC_MODE_COOLING
          else HVAC_MODE_HEATING))) ∧
    BareMetal.mode_is_consistent
      (BareMetal.run b (BareMetal.initialize_hardware b (BareMetal.zero_state len)).1 inputs) := by
  have h0 : BareMetal.mode_is_consistent (BareMetal.zero_state len) :=
    ⟨rfl, rfl, fun _ => rfl, fun h => absurd h (by simp [BareMetal.zero_state])⟩
  have h1 : BareMetal.mode_is_consistent
      (BareMetal.initialize_hardware b (BareMetal.zero_state len)).1 :=
    ⟨rfl, rfl, fun _ => rfl,
      fun h => absurd h (by simp [BareMetal.zero_state, BareMetal.initialize_hardware,
        BareMetal.gpio_set_output])⟩
  exact ⟨BareMetal.run_consistent b inputs _ h0, BareMetal.run_consistent b inputs _ h1⟩

/-- Witness of C25: start-up, target 22, then the samples (22, 1013, 45) and (18, 966, 71). -/
theorem reported_mode_consistent_witness :
    (BareMetal.run BareMetal.demo_board (BareMetal.zero_state 64)
        [.inbound (delivered (List.replicate 64 0) (target_frame 22)), .refresh 7 63 5,
          .refresh 3 16 31]).hvac_mode.target_temperature_set = true ∧
    (BareMetal.run BareMetal.demo_board (BareMetal.zero_state 64)
        [.inbound (delivered (List.replicate 64 0) (target_frame 22)), .refresh 7 63 5,
          .refresh 3 16 31]).ic_outbound_data =
      ⟨IC_READ_SENSOR, 18, 966, 71, HVAC_MODE_HEATING⟩ ∧
    (BareMetal.run BareMetal.demo_board (BareMetal.zero_state 64)
        [.inbound (delivered (List.replicate 64 0) (target_frame 22)), .refresh 7 63 5,
          .refresh 3 16 31]).hvac_mode.last_temperature =
      (BareMetal.run BareMetal.demo_board (BareMetal.zero_state 64)
        [.inbound (delivered (List.replicate 64 0) (target_frame 22)), .refresh 7 63 5,
          .refresh 3 16 31]).ic_outbound_data.temperature :=
  ⟨by decide, by decide,
    (reported_mode_consistent BareMetal.demo_board 64
      [.inbound (delivered (List.replicate 64 0) (target_frame 22)), .refresh 7 63 5,
        .refresh 3 16 31]).1.1⟩

/-! ## The twins of the high-level applications -/

namespace Lab07

open HighLevel

/-- Before the throttle interval has passed `update_device_twins` does nothing. -/
theorem update_device_twins_of_not_elapsed (s : State) (now : Int)
    (h : now - s.previous_milliseconds ≤ 10000) : update_device_twins s now = s := by
  unfold update_device_twins
  rw [if_neg (not_lt.mpr h)]

set_option maxHeartbeats 4000000 in
/-- Once the throttle interval has passed `update_device_twins` records the time, reports the
fields that differ and then the mode, and makes the previous values equal to the latest. -/
theorem update_device_twins_of_elapsed (s : State) (now : Int)
    (h : now - s.previous_milliseconds > 10000) :
    (update_device_twins s now).previous_milliseconds = now ∧
      (update_device_twins s now).env.latest = s.env.latest ∧
      (update_device_twins s now).env.previous = s.env.latest ∧
      (update_device_twins s now).env.previous_operating_mode =
        (if s.env.latest_operating_mode ≠ HVAC_MODE_UNKNOWN ∧
            s.env.latest_operating_mode ≠ s.env.previous_operating_mode then
          s.env.latest_operating_mode
        else s.env.previous_operating_mode) ∧
      (update_device_twins s now).events =
        s.events ++ sensor_twin_reports s.env ++ mode_twin_report s.env := by
  obtain ⟨env, tt, ib, mid, pm, ev⟩ := s
  obtain ⟨⟨lt, lp, lh⟩, ⟨pt, pp, ph⟩, upd, lm, pmode⟩ := env
  unfold update_device_twins sensor_twin_reports mode_twin_report
  rw [if_pos h]
  dsimp only
  clear h
  by_cases h4 : lm = HVAC_MODE_UNKNOWN <;> by_cases h5 : lm = pmode <;>
    rcases eq_or_ne pt lt with h1 | h1 <;> rcases eq_or_ne pp lp with h2 | h2 <;>
    rcases eq_or_ne ph lh with h3 | h3 <;>
    simp only [ne_eq, not_true_eq_false, not_false_eq_true, if_true, if_false, h1, h2, h3, h4, h5,
      List.append_nil, List.nil_append, List.append_assoc, List.singleton_append,
      List.cons_append, and_self, and_true, and_false, true_and, false_and]

/-- After a synchronisation no sensor field differs from its previous value. -/
theorem sensor_twin_reports_of_eq (e : ENVIRONMENT) (h : e.previous = e.latest) :
    sensor_twin_reports e = [] := by
  unfold sensor_twin_reports
  rw [h]
  simp

/-- The events that a call of `update_device_twins` appends when no sensor field differs. -/
theorem update_device_twins_of_synchronised (t : State) (later : Int)
    (h : t.env.previous = t.env.latest) :
    (update_device_twins t later).events =
      t.events ++ (if later - t.previous_milliseconds > 10000 then mode_twin_report t.env
        else []) := by
  by_cases hl : later - t.previous_milliseconds > 10000
  · rw [if_pos hl, (update_device_twins_of_elapsed t later hl).2.2.2.2,
      sensor_twin_reports_of_eq t.env h, List.append_nil]
  · rw [if_neg hl, update_device_twins_of_not_elapsed t later (not_lt.mp hl), List.append_nil]

end Lab07

/-- C27: `update_device_twins` of Lab_07 (and of Lab_03, which is the same function) changes
nothing while `now - previous_milliseconds ≤ 10000`; once the difference exceeds 10000 it sets
`previous_milliseconds` to `now`, leaves `env.latest` unchanged, makes `env.previous` equal to
`env.latest`, and appends to the events exactly the reports of the sensor fields that differed
(followed by the mode report).  A later call on any state with the same `env.latest` and
`env.previous` then reports no sensor field. -/
theorem update_device_twins_batch (s : HighLevel.State) (now : Int) :
    Lab03.update_device_twins s now = Lab07.update_device_twins s now ∧
    (now - s.previous_milliseconds ≤ 10000 → Lab07.update_device_twins s now = s) ∧
    (now - s.previous_milliseconds > 10000 →
      (Lab07.update_device_twins s now).previous_milliseconds = now ∧
      (Lab07.update_device_twins s now).env.latest = s.env.latest ∧
      (Lab07.update_device_twins s now).env.previous = s.env.latest ∧
      (Lab07.update_device_twins s now).events =
        s.events ++ HighLevel.sensor_twin_reports s.env ++ HighLevel.mode_twin_report s.env ∧
      ∀ (t : HighLevel.State) (later : Int),
        t.env.latest = (Lab07.update_device_twins s now).env.latest →
        t.env.previous = (Lab07.update_device_twins s now).env.previous →
        (Lab07.update_device_twins t later).events =
          t.events ++ (if later - t.previous_milliseconds > 10000 then
            HighLevel.mode_twin_report t.env else [])) := by
  refine ⟨rfl, Lab07.update_device_twins_of_not_elapsed s now, fun h => ?_⟩
  have hc := Lab07.update_device_twins_of_elapsed s now h
  refine ⟨hc.1, hc.2.1, hc.2.2.1, hc.2.2.2.2, fun t later hl hp => ?_⟩
  exact Lab07.update_device_twins_of_synchronised t later
    (hp.trans (hc.2.2.1.trans (hl.trans hc.2.1).symm))

/-- Witness of C27: the sample (22, 1013, 45) received after start-up is synchronised at time
1700000000000, all three fields are reported, and a second call 20 s later reports nothing. -/
theorem update_device_twins_batch_witness :
    (Lab07.update_device_twins (Lab07.received 22 1013 45) 1700000000000).previous_milliseconds =
      1700000000000 ∧
    (Lab07.update_device_twins (Lab07.received 22 1013 45) 1700000000000).env.previous =
      ⟨22, 1013, 45⟩ ∧
    (Lab07.update_device_twins (Lab07.received 22 1013 45) 1700000000000).events =
      [.twin_report_int .dt_env_temperature 22, .twin_report_int .dt_env_pressure 1013,
        .twin_report_int .dt_env_humidity 45, .twin_report_string .dt_hvac_operating_mode
          (some "Green")] ∧
    (Lab07.update_device_twins
        (Lab07.update_device_twins (Lab07.received 22 1013 45) 1700000000000)
        1700000020000).events =
      (Lab07.update_device_twins (Lab07.received 22 1013 45) 1700000000000).events ++
        (if (1700000020000 : Int) -
            (Lab07.update_device_twins (Lab07.received 22 1013 45)
              1700000000000).previous_milliseconds > 10000 then
          HighLevel.mode_twin_report
            (Lab07.update_device_twins (Lab07.received 22 1013 45) 1700000000000).env
        else []) :=
  ⟨by decide, by decide, by decide,
    ((update_device_twins_batch (Lab07.received 22 1013 45) 1700000000000).2.2
      (by decide)).2.2.2.2 _ 1700000020000 rfl rfl⟩

/-- C28: once the throttle interval has passed, when `env.latest_operating_mode` is Heating,
Green or Cooling `update_device_twins` reports the operating-mode twin exactly when the latest
mode differs from `env.previous_operating_mode`, the reported string `hvac_state[mode]` is
"Heating", "Green" or "Cooling" respectively, and afterwards `env.previous_operating_mode` is
the latest mode; when the latest mode is `HVAC_MODE_UNKNOWN` no mode twin is reported and
`env.previous_operating_mode` is unchanged. -/
theorem operating_mode_twin_reporting (s : HighLevel.State) (now : Int)
    (h : now - s.previous_milliseconds > 10000) :
    (s.env.latest_operating_mode = HVAC_MODE_HEATING ∨
        s.env.latest_operating_mode = HVAC_MODE_GREEN ∨
        s.env.latest_operating_mode = HVAC_MODE_COOLING →
      (Lab07.update_device_twins s now).events =
        s.events ++ HighLevel.sensor_twin_reports s.env ++
          (if s.env.latest_operating_mode ≠ s.env.previous_operating_mode then
            [.twin_report_string .dt_hvac_operating_mode
              (some (if s.env.latest_operating_mode = HVAC_MODE_HEATING then "Heating"
                else if s.env.latest_operating_mode = HVAC_MODE_GREEN then "Green"
                else "Cooling"))]
          else []) ∧
      (Lab07.update_device_twins s now).env.previous_operating_mode =
        s.env.latest_operating_mode) ∧
    (s.env.latest_operating_mode = HVAC_MODE_UNKNOWN →
      (Lab07.update_device_twins s now).events =
        s.events ++ HighLevel.sensor_twin_reports s.env ∧
      (Lab07.update_device_twins s now).env.previous_operating_mode =
        s.env.previous_operating_mode) := by
  have hc := Lab07.update_device_twins_of_elapsed s now h
  refine ⟨fun hm => ?_, fun hu => ?_⟩
  · have hne : s.env.latest_operating_mode ≠ HVAC_MODE_UNKNOWN := by
      rcases hm with hm | hm | hm <;> rw [hm] <;> decide
    have hstr : HighLevel.hvac_state_at s.env.latest_operating_mode =
        some (if s.env.latest_operating_mode = HVAC_MODE_HEATING then "Heating"
          else if s.env.latest_operating_mode = HVAC_MODE_GREEN then "Green"
          else "Cooling") := by
      rcases hm with hm | hm | hm <;> rw [hm] <;> decide
    refine ⟨?_, ?_⟩
    · rw [hc.2.2.2.2]
      unfold HighLevel.mode_twin_report
      by_cases hd : s.env.latest_operating_mode = s.env.previous_operating_mode
      · rw [if_neg (fun hh => hh.2 hd), if_neg (not_not.mpr hd)]
      · rw [if_pos ⟨hne, hd⟩, if_pos hd, hstr]
    · rw [hc.2.2.2.1]
      by_cases hd : s.env.latest_operating_mode = s.env.previous_operating_mode
      · rw [if_neg (fun hh => hh.2 hd)]
        exact hd.symm
      · rw [if_pos ⟨hne, hd⟩]
  · refine ⟨?_, ?_⟩
    · rw [hc.2.2.2.2]
      unfold HighLevel.mode_twin_report
      rw [if_neg (fun hh => hh.1 hu), List.append_nil]
    · rw [hc.2.2.2.1, if_neg (fun hh => hh.1 hu)]

/-- Witness of C28: after start-up the sample (22, 1013, 45) arrives with the mode Green and
the twins are synchronised at time 1700000000000. -/
theorem operating_mode_twin_reporting_witness :
    (1700000000000 : Int) - (Lab07.received 22 1013 45).previous_milliseconds > 10000 ∧
    (Lab07.received 22 1013 45).env.latest_operating_mode = HVAC_MODE_GREEN ∧
    (Lab07.received 22 1013 45).env.previous_operating_mode = HVAC_MODE_UNKNOWN ∧
    (Lab07.update_device_twins (Lab07.received 22 1013 45) 1700000000000).events =
      [.twin_report_int .dt_env_temperature 22, .twin_report_int .dt_env_pressure 1013,
        .twin_report_int .dt_env_humidity 45,
        .twin_report_string .dt_hvac_operating_mode (some "Green")] ∧
    (Lab07.update_device_twins (Lab07.received 22 1013 45)
        1700000000000).env.previous_operating_mode = HVAC_MODE_GREEN :=
  ⟨by decide, by decide, by decide, by decide,
    ((operating_mode_twin_reporting (Lab07.received 22 1013 45) 1700000000000 (by decide)).1
      (Or.inr (Or.inl (by decide)))).2⟩

/-! ## The simulated samples and the two gates -/

namespace BareMetal

/-- The sample that `refresh_data` leaves in the outbound block. -/
theorem refresh_data_sample (b : Board) (s : State) (rand1 rand2 rand3 : Int) :
    (refresh_data b s rand1 rand2 rand3).ic_outbound_data.cmd = IC_READ_SENSOR ∧
      (refresh_data b s rand1 rand2 rand3).ic_outbound_data.temperature =
        15 + Int.tmod rand1 10 ∧
      (refresh_data b s rand1 rand2 rand3).ic_outbound_data.pressure =
        950 + Int.tmod rand2 100 ∧
      (refresh_data b s rand1 rand2 rand3).ic_outbound_data.humidity =
        40 + Int.tmod rand3 40 := by
  cases hset : s.hvac_mode.target_temperature_set
  · rw [refresh_data_of_unset b s rand1 rand2 rand3 hset]
    exact ⟨rfl, rfl, rfl, rfl⟩
  · rw [refresh_data_of_set b s rand1 rand2 rand3 hset,
      set_hvac_operating_mode_of_set b _ _ rfl]
    exact ⟨rfl, rfl, rfl, rfl⟩

end BareMetal

namespace Lab07

open HighLevel

/-- The telemetry path of `publish_telemetry_handler`: connected, updated and all three values
in range. -/
theorem publish_telemetry_handler_of_valid (s : State) (serialized : Bool) (now : Int)
    (hu : s.env.updated = true) (hv : in_validity_ranges s.env.latest) :
    publish_telemetry_handler s 0 true serialized now =
      if serialized then
        update_device_twins
          { s with
            msgId := s.msgId + 1
            events := s.events ++
              [.publish_telemetry s.msgId s.env.latest.temperature s.env.latest.pressure
                s.env.latest.humidity] } now
      else
        { s with
          msgId := s.msgId + 1
          events := s.events ++ [.terminate .APP_ExitCode_Telemetry_Buffer_Too_Small] } := by
  have hc : ¬ ((!HighLevel.IN_RANGE s.env.latest.temperature (-20) 50 ||
      !HighLevel.IN_RANGE s.env.latest.pressure 800 1200 ||
      !HighLevel.IN_RANGE s.env.latest.humidity 0 100) = true) :=
    fun h => (fault_condition_iff s.env.latest).mp h hv
  simp only [publish_telemetry_handler, hu]
  rw [if_neg hc]
  simp

/-- The block that the receive handler stores when the command is `IC_READ_SENSOR`. -/
theorem receive_handler_of_read (s : State) (ic_data : INTERCORE_BLOCK)
    (h : ic_data.cmd = IC_READ_SENSOR) :
    (intercore_environment_receive_msg_handler s ic_data).env.latest =
        ⟨ic_data.temperature, ic_data.pressure, ic_data.humidity⟩ ∧
      (intercore_environment_receive_msg_handler s ic_data).env.updated = true ∧
      (intercore_environment_receive_msg_handler s ic_data).msgId = s.msgId ∧
      (intercore_environment_receive_msg_handler s ic_data).events = s.events := by
  unfold intercore_environment_receive_msg_handler
  rw [if_pos h]
  exact ⟨rfl, rfl, rfl, rfl⟩

end Lab07

/-- C29: for non-negative results of `rand ()` the simulated `refresh_data` of the bare-metal
application leaves a block with the command `IC_READ_SENSOR`, a temperature in [15, 24], a
pressure in [950, 1049] and a humidity in [40, 79]; the sample that the Lab_07 receive handler
stores from this block lies in the validity ranges, and `publish_telemetry_handler` (connected)
then takes the telemetry path: it consumes a message id and does not do what
`report_faulty_sensor` does. -/
theorem simulated_samples_are_valid (b : BareMetal.Board) (s : BareMetal.State)
    (rand1 rand2 rand3 : Int) (h1 : 0 ≤ rand1) (h2 : 0 ≤ rand2) (h3 : 0 ≤ rand3)
    (hs : HighLevel.State) (serialized : Bool) (now : Int) :
    (BareMetal.refresh_data b s rand1 rand2 rand3).ic_outbound_data.cmd = IC_READ_SENSOR ∧
    (15 ≤ (BareMetal.refresh_data b s rand1 rand2 rand3).ic_outbound_data.temperature ∧
      (BareMetal.refresh_data b s rand1 rand2 rand3).ic_outbound_data.temperature ≤ 24) ∧
    (950 ≤ (BareMetal.refresh_data b s rand1 rand2 rand3).ic_outbound_data.pressure ∧
      (BareMetal.refresh_data b s rand1 rand2 rand3).ic_outbound_data.pressure ≤ 1049) ∧
    (40 ≤ (BareMetal.refresh_data b s rand1 rand2 rand3).ic_outbound_data.humidity ∧
      (BareMetal.refresh_data b s rand1 rand2 rand3).ic_outbound_data.humidity ≤ 79) ∧
    HighLevel.in_validity_ranges
      (Lab07.intercore_environment_receive_msg_handler hs
        (BareMetal.refresh_data b s rand1 rand2 rand3).ic_outbound_data).env.latest ∧
    (Lab07.publish_telemetry_handler
        (Lab07.intercore_environment_receive_msg_handler hs
          (BareMetal.refresh_data b s rand1 rand2 rand3).ic_outbound_data)
        0 true serialized now).msgId = hs.msgId + 1 ∧
    Lab07.publish_telemetry_handler
        (Lab07.intercore_environment_receive_msg_handler hs
          (BareMetal.refresh_data b s rand1 rand2 rand3).ic_outbound_data)
        0 true serialized now ≠
      Lab07.report_faulty_sensor
        (Lab07.intercore_environment_receive_msg_handler hs
          (BareMetal.refresh_data b s rand1 rand2 rand3).ic_outbound_data) serialized := by
  obtain ⟨hcmd, ht, hp, hh⟩ := BareMetal.refresh_data_sample b s rand1 rand2 rand3
  have a1 := Int.tmod_nonneg 10 h1
  have a2 := Int.tmod_lt_of_pos rand1 (show (0 : Int) < 10 by decide)
  have b1 := Int.tmod_nonneg 100 h2
  have b2 := Int.tmod_lt_of_pos rand2 (show (0 : Int) < 100 by decide)
  have c1 := Int.tmod_nonneg 40 h3
  have c2 := Int.tmod_lt_of_pos rand3 (show (0 : Int) < 40 by decide)
  obtain ⟨rl, ru, rid, _⟩ := Lab07.receive_handler_of_read hs _ hcmd
  have hv : HighLevel.in_validity_ranges
      (Lab07.intercore_environment_receive_msg_handler hs
        (BareMetal.refresh_data b s rand1 rand2 rand3).ic_outbound_data).env.latest := by
    rw [rl, ht, hp, hh]
    unfold HighLevel.in_validity_ranges
    dsimp only
    omega
  have hid : (Lab07.publish_telemetry_handler
        (Lab07.intercore_environment_receive_msg_handler hs
          (BareMetal.refresh_data b s rand1 rand2 rand3).ic_outbound_data)
        0 true serialized now).msgId = hs.msgId + 1 := by
    rw [Lab07.publish_telemetry_handler_of_valid _ serialized now ru hv, ← rid]
    cases serialized
    · rfl
    · exact (Lab07.update_device_twins_frame _ now).2.1
  refine ⟨hcmd, ?_, ?_, ?_, hv, hid, fun he => ?_⟩
  · rw [ht]; omega
  · rw [hp]; omega
  · rw [hh]; omega
  · have hf : (Lab07.report_faulty_sensor
        (Lab07.intercore_environment_receive_msg_handler hs
          (BareMetal.refresh_data b s rand1 rand2 rand3).ic_outbound_data) serialized).msgId =
        hs.msgId := by
      rw [← rid]
      cases serialized <;> rfl
    rw [he, hf] at hid
    omega

/-- Witness of C29: the results 7, 63 and 5 of `rand ()` give the sample (22, 1013, 45), which
the Lab_07 handler publishes as telemetry. -/
theorem simulated_samples_are_valid_witness :
    (BareMetal.refresh_data BareMetal.demo_board BareMetal.demo_state 7 63 5).ic_outbound_data =
      ⟨IC_READ_SENSOR, 22, 1013, 45, HVAC_MODE_GREEN⟩ ∧
    (Lab07.publish_telemetry_handler
        (Lab07.intercore_environment_receive_msg_handler HighLevel.zero_state
          (BareMetal.refresh_data BareMetal.demo_board BareMetal.demo_state 7 63
            5).ic_outbound_data)
        0 true true 0).events = [.publish_telemetry 0 22 1013 45] ∧
    (Lab07.publish_telemetry_handler
        (Lab07.intercore_environment_receive_msg_handler HighLevel.zero_state
          (BareMetal.refresh_data BareMetal.demo_board BareMetal.demo_state 7 63
            5).ic_outbound_data)
        0 true true 0).msgId = HighLevel.zero_state.msgId + 1 :=
  ⟨by decide, by decide,
    (simulated_samples_are_valid BareMetal.demo_board BareMetal.demo_state 7 63 5 (by decide)
      (by decide) (by decide) HighLevel.zero_state true 0).2.2.2.2.2.1⟩

namespace Lab07

open HighLevel

/-- An accepted target is stored, published to the real-time core and acknowledged. -/
theorem dt_set_target_temperature_handler_of_accepted (s : State) (propertyValue : Int)
    (h : HighLevel.IN_RANGE propertyValue 0 50 = true) :
    dt_set_target_temperature_handler s propertyValue =
      { s with
        target_temperature := propertyValue
        intercore_block := { s.intercore_block with
          cmd := IC_TARGET_TEMPERATURE
          temperature := propertyValue }
        events := s.events ++
          [.intercore_publish { s.intercore_block with
            cmd := IC_TARGET_TEMPERATURE
            temperature := propertyValue }] ++
          [.twin_ack propertyValue .DX_DEVICE_TWIN_RESPONSE_COMPLETED] } := by
  unfold dt_set_target_temperature_handler
  dsimp only
  rw [if_pos h]

/-- A rejected target is only acknowledged with an error. -/
theorem dt_set_target_temperature_handler_of_rejected (s : State) (propertyValue : Int)
    (h : HighLevel.IN_RANGE propertyValue 0 50 = false) :
    dt_set_target_temperature_handler s propertyValue =
      { s with events := s.events ++
        [.twin_ack propertyValue .DX_DEVICE_TWIN_RESPONSE_ERROR] } := by
  unfold dt_set_target_temperature_handler
  dsimp only
  rw [if_neg (by rw [h]; decide)]

end Lab07

/-- C26: when the Lab_07 handler `dt_set_target_temperature_handler` accepts the value `v`,
that is, it appends the publication of a block `blk` and the acknowledgement
`DX_DEVICE_TWIN_RESPONSE_COMPLETED` to its calls, then 0 ≤ v ≤ 50, `blk` carries the command
`IC_TARGET_TEMPERATURE` and the temperature `v`, and the bare-metal `process_inbound_message`,
given `blk` behind a 20-byte preamble in a successfully dequeued frame, accepts it: afterwards
`target_temperature_set` is true and `target_temperature` is `v`. -/
theorem two_layer_target_gate (hs : HighLevel.State) (v : Int) (blk : INTERCORE_BLOCK)
    (b : BareMetal.Board) (s : BareMetal.State) (preamble prior : List Nat)
    (hint : block_is_int32 hs.intercore_block)
    (hpub : (Lab07.dt_set_target_temperature_handler hs v).events =
      hs.events ++ [.intercore_publish blk] ++
        [.twin_ack v .DX_DEVICE_TWIN_RESPONSE_COMPLETED])
    (hpre : preamble.length = 20) :
    (0 ≤ v ∧ v ≤ 50) ∧
    blk.cmd = IC_TARGET_TEMPERATURE ∧ blk.temperature = v ∧
    (BareMetal.process_inbound_message b s
      (delivered prior (frame_of preamble blk))).hvac_mode.target_temperature_set = true ∧
    (BareMetal.process_inbound_message b s
      (delivered prior (frame_of preamble blk))).hvac_mode.target_temperature = v := by
  cases hr : HighLevel.IN_RANGE v 0 50
  · rw [Lab07.dt_set_target_temperature_handler_of_rejected hs v hr] at hpub
    simp at hpub
  · rw [Lab07.dt_set_target_temperature_handler_of_accepted hs v hr] at hpub
    have hblk : blk =
        { hs.intercore_block with cmd := IC_TARGET_TEMPERATURE, temperature := v } := by
      simp at hpub
      exact hpub.symm
    have hv := (HighLevel.hl_IN_RANGE_iff v 0 50).mp hr
    have hcmd : blk.cmd = IC_TARGET_TEMPERATURE := by rw [hblk]
    have htemp : blk.temperature = v := by rw [hblk]
    have hb : block_is_int32 blk := by
      rw [hblk]
      refine ⟨?_, ?_, hint.2.2.1, hint.2.2.2.1, hint.2.2.2.2⟩
      · show is_int32 IC_TARGET_TEMPERATURE
        decide
      · show -2147483648 ≤ v ∧ v ≤ 2147483647
        omega
    have hl : (block_bytes blk).length = 20 := by simp [block_bytes, int32_bytes]
    have hlen : (frame_of preamble blk).length = 40 := by
      rw [frame_of, List.length_append, hpre, hl]
    have hdel : (delivered prior (frame_of preamble blk)).dest =
        preamble ++ block_bytes blk ++ prior.drop 40 := by
      simp only [delivered, memcpy, List.take_zero, List.nil_append, Nat.zero_add, hlen]
      rfl
    have hat : block_at (delivered prior (frame_of preamble blk)).dest BareMetal.payloadStart =
        blk := by
      rw [hdel]
      exact block_at_frame preamble _ blk hpre hb
    have hin : IN_RANGE (block_at (delivered prior (frame_of preamble blk)).dest
        BareMetal.payloadStart).temperature (-20) 80 = true := by
      rw [hat, htemp, BareMetal.IN_RANGE_iff]
      omega
    have hlen2 :
        (delivered prior (frame_of preamble blk)).dataSize > BareMetal.payloadStart := by
      show (frame_of preamble blk).length > 20
      rw [hlen]
      decide
    rw [BareMetal.process_inbound_message_of_accepted b s _ rfl hlen2 (by rw [hat, hcmd]) hin,
      BareMetal.set_hvac_operating_mode_of_set b _ _ rfl, hat, htemp]
    exact ⟨hv, hcmd, rfl, rfl, rfl⟩

/-- Witness of C26: the Lab_07 handler accepts the bound 50 and the bare-metal controller,
which holds the target 22, takes it over. -/
theorem two_layer_target_gate_witness :
    (Lab07.dt_set_target_temperature_handler HighLevel.zero_state 50).events =
      [.intercore_publish ⟨IC_TARGET_TEMPERATURE, 50, 0, 0, 0⟩,
        .twin_ack 50 .DX_DEVICE_TWIN_RESPONSE_COMPLETED] ∧
    BareMetal.demo_state.hvac_mode.target_temperature = 22 ∧
    (BareMetal.process_inbound_message BareMetal.demo_board BareMetal.demo_state
      (delivered BareMetal.demo_state.mbox_local_buf
        (frame_of demo_id ⟨IC_TARGET_TEMPERATURE, 50, 0, 0, 0⟩))).hvac_mode.target_temperature
      = 50 :=
  ⟨by decide, by decide,
    (two_layer_target_gate HighLevel.zero_state 50 ⟨IC_TARGET_TEMPERATURE, 50, 0, 0, 0⟩
      BareMetal.demo_board BareMetal.demo_state demo_id BareMetal.demo_state.mbox_local_buf
      (by decide) (by decide) (by decide)).2.2.2.2⟩

/-! ## The drain loop of the Azure RTOS application -/

/-- A copy that fits leaves the length of the buffer as it was. -/
theorem memcpy_length (dst : List Nat) (off : Nat) (src : List Nat)
    (h : off + src.length ≤ dst.length) : (memcpy dst off src).length = dst.length := by
  simp only [memcpy, List.length_append, List.length_take, List.length_drop]
  omega

namespace Rtos

/-- With a target set or not, `set_hvac_operating_mode` leaves `buf` alone. -/
theorem rtos_set_hvac_operating_mode_buf (b : Board) (s : State) (t : Int) :
    (set_hvac_operating_mode b s t).buf = s.buf := by
  cases h : s.hvac_mode.target_temperature_set
  · simp [set_hvac_operating_mode, h]
  · rw [rtos_set_hvac_operating_mode_of_set b s t h]

/-- A pass of the loop body over a dequeued frame that is longer than the preamble keeps
`queuedMessages` true and the length of `buf`. -/
theorem rtos_intercore_thread_body_of_frame (b : Board) (s : State) (frame : List Nat)
    (h1 : payloadStart < frame.length) (h2 : frame.length ≤ s.buf.length)
    (h40 : payloadStart + sizeof_INTERCORE_BLOCK ≤ s.buf.length) :
    (intercore_thread_body b s (delivered s.buf frame)).2 = true ∧
      (intercore_thread_body b s (delivered s.buf frame)).1.buf.length = s.buf.length := by
  have hd : (delivered s.buf frame).dest.length = s.buf.length :=
    memcpy_length s.buf 0 frame (by omega)
  have hl : ∀ blk : INTERCORE_BLOCK, (block_bytes blk).length = 20 := fun blk => by
    simp [block_bytes, int32_bytes]
  simp only [intercore_thread_body]
  rw [if_pos ⟨rfl, h1⟩]
  split_ifs
  · refine ⟨rfl, ?_⟩
    show (memcpy (delivered s.buf frame).dest payloadStart _).length = s.buf.length
    rw [memcpy_length _ _ _ (by rw [hl, hd]; exact h40), hd]
  · refine ⟨rfl, ?_⟩
    rw [rtos_set_hvac_operating_mode_buf]
    exact hd
  · exact ⟨rfl, hd⟩

/-- The loop passes over a prefix of frames that are longer than the preamble one by one. -/
theorem intercore_thread_loop_append (b : Board) (good : List (List Nat)) :
    ∀ (s : State) (k : Nat) (tail : List (List Nat)),
      payloadStart + sizeof_INTERCORE_BLOCK ≤ s.buf.length →
      (∀ f ∈ good, payloadStart < f.length ∧ f.length ≤ s.buf.length) →
      intercore_thread_loop b (good.length + k) s (good ++ tail) =
          intercore_thread_loop b k (dispatch_in_order b s good) tail ∧
        (dispatch_in_order b s good).buf.length = s.buf.length := by
  induction good with
  | nil =>
    intro s k tail _ _
    rw [List.length_nil, Nat.zero_add, List.nil_append]
    exact ⟨rfl, rfl⟩
  | cons f fs ih =>
    intro s k tail h40 hgood
    obtain ⟨hf1, hf2⟩ := hgood f (List.mem_cons_self f fs)
    obtain ⟨hb2, hblen⟩ := rtos_intercore_thread_body_of_frame b
      { s with dataSize := s.buf.length } f hf1 hf2 h40
    have hrest := ih
      (intercore_thread_body b { s with dataSize := s.buf.length } (delivered s.buf f)).1 k tail
      (by rw [hblen]; exact h40)
      (fun g hg => by rw [hblen]; exact hgood g (List.mem_cons_of_mem f hg))
    have hfuel : (f :: fs).length + k = (fs.length + k) + 1 := by
      rw [List.length_cons]; omega
    rw [hfuel, List.cons_append]
    show (if (intercore_thread_body b { s with dataSize := s.buf.length }
          (DequeueData (f :: (fs ++ tail)) s.buf s.buf.length).1).2 = true then
        intercore_thread_loop b (fs.length + k)
          (intercore_thread_body b { s with dataSize := s.buf.length }
            (DequeueData (f :: (fs ++ tail)) s.buf s.buf.length).1).1
          (DequeueData (f :: (fs ++ tail)) s.buf s.buf.length).2
      else _) = _ ∧ _
    have hdq : DequeueData (f :: (fs ++ tail)) s.buf s.buf.length =
        (delivered s.buf f, fs ++ tail) := by
      simp only [DequeueData]
      rw [if_pos hf2]
    rw [hdq]
    dsimp only
    rw [if_pos hb2]
    exact ⟨hrest.1, hrest.2.trans hblen⟩

/-- On an empty queue the loop ends with the first pass. -/
theorem intercore_thread_loop_nil (b : Board) (s : State) (k : Nat) :
    intercore_thread_loop b (k + 1) s [] = some ({ s with dataSize := s.buf.length }, []) := by
  rfl

/-- A frame that is not longer than the preamble ends the loop. -/
theorem intercore_thread_loop_short (b : Board) (s : State) (k : Nat) (short : List Nat)
    (rest : List (List Nat)) (h1 : short.length ≤ payloadStart)
    (h2 : short.length ≤ s.buf.length) :
    intercore_thread_loop b (k + 1) s (short :: rest) =
      some ({ s with buf := memcpy s.buf 0 short, dataSize := short.length }, rest) := by
  have hdq : DequeueData (short :: rest) s.buf s.buf.length = (delivered s.buf short, rest) := by
    simp only [DequeueData]
    rw [if_pos h2]
  show (if (intercore_thread_body b { s with dataSize := s.buf.length }
        (DequeueData (short :: rest) s.buf s.buf.length).1).2 = true then _
    else some ((intercore_thread_body b { s with dataSize := s.buf.length }
        (DequeueData (short :: rest) s.buf s.buf.length).1).1,
      (DequeueData (short :: rest) s.buf s.buf.length).2)) = _
  rw [hdq]
  dsimp only
  have hb : intercore_thread_body b { s with dataSize := s.buf.length } (delivered s.buf short) =
      ({ s with buf := memcpy s.buf 0 short, dataSize := short.length }, false) := by
    simp only [intercore_thread_body]
    rw [if_neg (fun h => absurd h.2 (not_lt.mpr h1))]
    rfl
  rw [hb]
  rfl

end Rtos

/-- C21, as claimed, evaluated on the code: with the 20-byte frame `demo_id` at the head of the
queue and a target frame behind it, one wake-up of `intercore_thread` ends after the first
pass; the target frame is still queued and no target was set, whereas dispatching both frames
would have set the target 22. -/
theorem short_frame_ends_drain :
    (Rtos.intercore_thread_wakeup Rtos.demo_board Rtos.zero_state
        [demo_id, target_frame 22]).map
      (fun r => (r.1.hvac_mode.target_temperature_set, r.2)) =
        some (false, [target_frame 22]) ∧
    (Rtos.dispatch_in_order Rtos.demo_board Rtos.zero_state
      [demo_id, target_frame 22]).hvac_mode.target_temperature_set = true ∧
    (Rtos.dispatch_in_order Rtos.demo_board Rtos.zero_state
      [demo_id, target_frame 22]).hvac_mode.target_temperature = 22 := by
  refine ⟨?_, ?_, ?_⟩
  · set_option maxRecDepth 8000 in decide
  · decide
  · decide

/-- C21, amended: when `buf` holds at least a preamble and a block and every pending frame is
longer than the preamble and fits into `buf`, one wake-up of `intercore_thread` (and the loop
with any larger bound on its passes) dispatches each pending frame, in queue order, through
the command switch, ends, and leaves the queue empty.  A frame that is not longer than the
preamble ends the wake-up: the frames before it were dispatched, the frame itself was copied
into `buf` and the frames behind it are still queued. -/
theorem drain_dispatches_long_frames (b : Rtos.Board) (s : Rtos.State)
    (queue : List (List Nat))
    (hbuf : Rtos.payloadStart + sizeof_INTERCORE_BLOCK ≤ s.buf.length)
    (hqueue : ∀ f ∈ queue, Rtos.payloadStart < f.length ∧ f.length ≤ s.buf.length) :
    Rtos.intercore_thread_wakeup b s queue =
      some ({ Rtos.dispatch_in_order b s queue with
        dataSize := (Rtos.dispatch_in_order b s queue).buf.length }, []) ∧
    (∀ k : Nat, Rtos.intercore_thread_loop b (queue.length + 1 + k) s queue =
      Rtos.intercore_thread_wakeup b s queue) ∧
    ∀ (short : List Nat) (rest : List (List Nat)), short.length ≤ Rtos.payloadStart →
      Rtos.intercore_thread_wakeup b s (queue ++ short :: rest) =
        some ({ Rtos.dispatch_in_order b s queue with
          buf := memcpy (Rtos.dispatch_in_order b s queue).buf 0 short
          dataSize := short.length }, rest) := by
  have hloop : ∀ k : Nat, Rtos.intercore_thread_loop b (queue.length + (k + 1)) s queue =
      some ({ Rtos.dispatch_in_order b s queue with
        dataSize := (Rtos.dispatch_in_order b s queue).buf.length }, []) := by
    intro k
    have h := (Rtos.intercore_thread_loop_append b queue s (k + 1) [] hbuf hqueue).1
    rw [List.append_nil] at h
    rw [h, Rtos.intercore_thread_loop_nil]
  have hw : Rtos.intercore_thread_wakeup b s queue =
      some ({ Rtos.dispatch_in_order b s queue with
        dataSize := (Rtos.dispatch_in_order b s queue).buf.length }, []) := hloop 0
  refine ⟨hw, fun k => ?_, fun short rest hs => ?_⟩
  · rw [hw, ← hloop k]
    congr 1
    omega
  · have h := Rtos.intercore_thread_loop_append b queue s (rest.length + 1 + 1)
      (short :: rest) hbuf hqueue
    have hfuel : (queue ++ short :: rest).length + 1 = queue.length + (rest.length + 1 + 1) := by
      rw [List.length_append, List.length_cons]; omega
    show Rtos.intercore_thread_loop b ((queue ++ short :: rest).length + 1) s
      (queue ++ short :: rest) = _
    rw [hfuel, h.1]
    refine Rtos.intercore_thread_loop_short b _ (rest.length + 1) short rest hs ?_
    rw [h.2]
    have : Rtos.payloadStart ≤ s.buf.length := le_trans (Nat.le_add_right _ _) hbuf
    omega

/-- Witness of C21, amended: a read request and a target frame are pending; the wake-up answers
the request, sets the target 22 and leaves the queue empty. -/
theorem drain_dispatches_long_frames_witness :
    (Rtos.intercore_thread_wakeup Rtos.demo_board Rtos.zero_state
        [frame_of demo_id ⟨IC_READ_SENSOR, 0, 0, 0, 0⟩, target_frame 22]).map
      (fun r => (r.1.hvac_mode.target_temperature, r.1.enqueued.length, r.2)) =
        some (22, 1, []) ∧
    Rtos.intercore_thread_wakeup Rtos.demo_board Rtos.zero_state
        [frame_of demo_id ⟨IC_READ_SENSOR, 0, 0, 0, 0⟩, target_frame 22] =
      some ({ Rtos.dispatch_in_order Rtos.demo_board Rtos.zero_state
          [frame_of demo_id ⟨IC_READ_SENSOR, 0, 0, 0, 0⟩, target_frame 22] with
        dataSize := (Rtos.dispatch_in_order Rtos.demo_board Rtos.zero_state
          [frame_of demo_id ⟨IC_READ_SENSOR, 0, 0, 0, 0⟩, target_frame 22]).buf.length }, []) :=
  ⟨by set_option maxRecDepth 8000 in decide,
    (drain_dispatches_long_frames Rtos.demo_board Rtos.zero_state
      [frame_of demo_id ⟨IC_READ_SENSOR, 0, 0, 0, 0⟩, target_frame 22]
      (by simp only [Rtos.zero_state, List.length_replicate]; decide)
      (by
        simp only [Rtos.zero_state, List.length_replicate]
        set_option maxRecDepth 8000 in decide)).1⟩

end AzureSphere
